import Mathlib

/-!
# HOOMD-blue: thermodynamic observables, angle forces and accelerator components

A shallow embedding of `hoomd/ComputeThermo.cc`,
`libhoomd/computes/CGCMMAngleForceCompute.cc`, `libhoomd/updaters_gpu/TwoStepNVEGPU.cc`,
the constructor of `libhoomd/computes_gpu/HarmonicImproperForceComputeGPU.cc`,
`getRequestedPDataFlags` of `hoomd/md/FIREEnergyMinimizer.h` and `formatHMS` of
`libhoomd/utils/ClockSource.cc`.

Conventions of the embedding

* `Scalar`, `double` and `float` values are rationals: all arithmetic is exact, the
  casts between `Scalar` and `double` are the identity and a literal such as `1./3.`
  denotes the rational it is written as. A quotient whose divisor is zero is 0 in the
  rationals, where the source has an infinity or a NaN; the clamp of the cosine and the
  floor of the sine of `computeForces`, which the source applies to such a quotient, are
  embedded a second time with these values explicit (`IEEEValue`).
* `unsigned int` values are natural numbers; where the source adds two of them the sum
  is reduced modulo `2 ^ 32`. The signed integers of `formatHMS` are integers reduced
  into the range of their type after each operation.
* Device arrays (`GPUArray`, `ArrayHandle`) are index-to-value maps; the scoped handles
  and the profiler have no effect on the values and are left out.
* A member function becomes a function from the object state (and what it reads) to the
  new object state; messages sent to the messenger are returned next to it.
* A loop `for (group_idx = 0; group_idx < group_size; group_idx++)` whose body starts
  with `j = m_group->getMemberIndex(group_idx)` is a left fold over the list of member
  indices, one definition per loop body.
* Declarations of headers that are not among the sources (`VectorMath.h`,
  `ParticleData.h`, `HOOMDMath.h`, `ComputeThermo.h`, `Compute.h`) are either parameters
  or definitions marked as modelled from the spec.
* The functions of `<math.h>` and the device kernels are parameters.
* A constructor of a derived class is embedded as its body, run on the base object that
  the base class constructor has built.
* The build with `ENABLE_MPI` is the one embedded, it has the `m_properties_reduced`
  flag; the other build is the same code without that flag.
-/

namespace Hoomd

/-- Real numbers of the simulation, in exact arithmetic. -/
abbrev Scalar := ℚ

/-- Number of values of an `unsigned int`. -/
def UINT_RANGE : Nat := 2 ^ 32

/-- Three packed scalars (`Scalar3`). -/
structure Scalar3 where
  x : Scalar
  y : Scalar
  z : Scalar
deriving DecidableEq

/-- Four packed scalars (`Scalar4`); velocities carry the mass in `w`,
net forces carry the potential energy in `w`. -/
structure Scalar4 where
  x : Scalar
  y : Scalar
  z : Scalar
  w : Scalar
deriving DecidableEq

/-- Modelled from the spec: the vector part type `vec3` of `VectorMath.h`, a header
that is not among the sources; three real components. -/
structure vec3 where
  x : Scalar
  y : Scalar
  z : Scalar
deriving DecidableEq

/-- Modelled from the spec: the quaternion type `quat` of `VectorMath.h`, a header that
is not among the sources; the spec names a quaternion orientation `q`, an angular
momentum quaternion `p` and the product `½·conj(q)·p`. A quaternion is a scalar part
and a vector part. -/
structure quat where
  s : Scalar
  v : vec3
deriving DecidableEq

/-- Modelled from the spec: construction of a `quat` from a `Scalar4` (`VectorMath.h`,
absent): the first component is the scalar part, the other three the vector part. -/
def quat.ofScalar4 (a : Scalar4) : quat := ⟨a.x, ⟨a.y, a.z, a.w⟩⟩

/-- Modelled from the spec: quaternion conjugate `conj(q)` (`VectorMath.h`, absent). -/
def conj (a : quat) : quat := ⟨a.s, ⟨-a.v.x, -a.v.y, -a.v.z⟩⟩

/-- Modelled from the spec: scalar times quaternion (`VectorMath.h`, absent). -/
def quat.smul (b : Scalar) (a : quat) : quat := ⟨b * a.s, ⟨b * a.v.x, b * a.v.y, b * a.v.z⟩⟩

/-- Modelled from the spec: the quaternion (Hamilton) product (`VectorMath.h`, absent):
scalar part `a.s*b.s - a.v·b.v`, vector part `a.s*b.v + b.s*a.v + a.v×b.v`. -/
def quat.mul (a b : quat) : quat :=
  ⟨a.s * b.s - (a.v.x * b.v.x + a.v.y * b.v.y + a.v.z * b.v.z),
   ⟨a.s * b.v.x + b.s * a.v.x + (a.v.y * b.v.z - a.v.z * b.v.y),
    a.s * b.v.y + b.s * a.v.y + (a.v.z * b.v.x - a.v.x * b.v.z),
    a.s * b.v.z + b.s * a.v.z + (a.v.x * b.v.y - a.v.y * b.v.x)⟩⟩

/-- Modelled from the spec: the enumerators of `pdata_flag` (`ParticleData.h`, absent),
one bit per optional expensive quantity: the four that the sources use, and `virial`,
which the spec lists with them in its requested-flags set. -/
inductive pdata_flag where
  | isotropic_virial
  | potential_energy
  | pressure_tensor
  | rotational_kinetic_energy
  | virial
deriving DecidableEq, Repr

/-- The requested-flags bitset `PDataFlags`, indexed by `pdata_flag`. -/
abbrev PDataFlags := pdata_flag → Bool

/-- The part of `ParticleData` that `ComputeThermo` reads. -/
structure ParticleData where
  /-- `getVelocities()`: velocity in `x y z`, mass in `w`. -/
  velocities : Nat → Scalar4
  /-- `getNetForce()`: force in `x y z`, potential energy in `w`. -/
  net_force : Nat → Scalar4
  /-- `getNetVirial()`: six rows of length `pitch`, flattened. -/
  net_virial : Nat → Scalar
  /-- `getNetVirial().getPitch()`. -/
  net_virial_pitch : Nat
  /-- `getOrientationArray()`. -/
  orientation : Nat → Scalar4
  /-- `getAngularMomentumArray()`. -/
  angmom : Nat → Scalar4
  /-- `getMomentsOfInertiaArray()`. -/
  inertia : Nat → Scalar3
  /-- `getFlags()`. -/
  flags : PDataFlags
  /-- `getExternalEnergy()`. -/
  external_energy : Scalar
  /-- `getExternalVirial(i)`. -/
  external_virial : Nat → Scalar
  /-- `getGlobalBox().getL()`. -/
  global_box_L : Scalar3
  /-- `getDomainDecomposition()` is a non-null pointer. -/
  domain_decomposition : Bool

/-- The part of `SystemDefinition` that `ComputeThermo` reads. -/
structure SystemDefinition where
  /-- `getNDimensions()`. -/
  n_dimensions : Nat
  /-- `getParticleData()`. -/
  pdata : ParticleData

/-- A particle group: the local member indices in order, and the member count summed
over all domains. -/
structure ParticleGroup where
  /-- `getMemberIndex(i)` is the `i`-th entry, `getNumMembers()` the length. -/
  members : List Nat
  /-- `getNumMembersGlobal()`. -/
  num_members_global : Nat

/-- `ParticleGroup::getNumMembers`. -/
def ParticleGroup.getNumMembers (g : ParticleGroup) : Nat := g.members.length

/-- `ParticleGroup::getNumMembersGlobal`. -/
def ParticleGroup.getNumMembersGlobal (g : ParticleGroup) : Nat := g.num_members_global

/-- The `m_properties` array: one field per enumerator of `thermo_index` written by
`computeProperties`. -/
structure ThermoProperties where
  translational_kinetic_energy : Scalar
  rotational_kinetic_energy : Scalar
  potential_energy : Scalar
  pressure : Scalar
  pressure_xx : Scalar
  pressure_xy : Scalar
  pressure_xz : Scalar
  pressure_yy : Scalar
  pressure_yz : Scalar
  pressure_zz : Scalar
deriving DecidableEq

/-- The zero-filled array a new `GPUArray` holds. -/
def ThermoProperties.zero : ThermoProperties := ⟨0, 0, 0, 0, 0, 0, 0, 0, 0, 0⟩

/-- Six independent components of a symmetric tensor, the accumulators
`pressure_kinetic_*` and `virial_*` of `computeProperties`. -/
structure SymTensor where
  xx : Scalar
  xy : Scalar
  xz : Scalar
  yy : Scalar
  yz : Scalar
  zz : Scalar
deriving DecidableEq

/-- The state of a `ComputeThermo` object. -/
structure ComputeThermo where
  m_group : ParticleGroup
  m_ndof : Nat
  m_ndof_rot : Nat
  m_logging_enabled : Bool
  m_properties : ThermoProperties
  m_logname_list : List String
  m_properties_reduced : Bool

/-- The constructor `ComputeThermo::ComputeThermo(sysdef, group, suffix)`. -/
def ComputeThermo.ctor (group : ParticleGroup) (suffix : String) : ComputeThermo where
  m_group := group
  m_ndof := 1
  m_ndof_rot := 0
  m_logging_enabled := true
  m_properties := ThermoProperties.zero
  m_logname_list :=
    [ "temperature" ++ suffix,
      "translational_temperature" ++ suffix,
      "rotational_temperature" ++ suffix,
      "kinetic_energy" ++ suffix,
      "translational_kinetic_energy" ++ suffix,
      "rotational_kinetic_energy" ++ suffix,
      "potential_energy" ++ suffix,
      "ndof" ++ suffix,
      "translational_ndof" ++ suffix,
      "rotational_ndof" ++ suffix,
      "num_particles" ++ suffix,
      "pressure" ++ suffix,
      "pressure_xx" ++ suffix,
      "pressure_xy" ++ suffix,
      "pressure_xz" ++ suffix,
      "pressure_yy" ++ suffix,
      "pressure_yz" ++ suffix,
      "pressure_zz" ++ suffix ]
  m_properties_reduced := true

/-- The text of the warning `setNDOF` sends. -/
def ndofWarning : String :=
  "compute.thermo: given a group with 0 degrees of freedom.\n            overriding ndof=1 to avoid divide by 0 errors\n"

/-- `ComputeThermo::setNDOF(ndof)`: the new state and the warnings sent. -/
def ComputeThermo.setNDOF (self : ComputeThermo) (ndof : Nat) : ComputeThermo × List String :=
  if ndof = 0 then
    ({ self with m_ndof := 1 }, [ndofWarning])
  else
    ({ self with m_ndof := ndof }, [])

/-- `ComputeThermo::getProvidedLogQuantities()`. -/
def ComputeThermo.getProvidedLogQuantities (self : ComputeThermo) : List String :=
  if self.m_logging_enabled then self.m_logname_list else []

/-- One iteration of the loop that sums the kinetic part of the pressure tensor. -/
def kineticTensorStep (pdata : ParticleData) (acc : SymTensor) (j : Nat) : SymTensor :=
  let mass := (pdata.velocities j).w
  { xx := acc.xx + mass * ((pdata.velocities j).x * (pdata.velocities j).x)
    xy := acc.xy + mass * ((pdata.velocities j).x * (pdata.velocities j).y)
    xz := acc.xz + mass * ((pdata.velocities j).x * (pdata.velocities j).z)
    yy := acc.yy + mass * ((pdata.velocities j).y * (pdata.velocities j).y)
    yz := acc.yz + mass * ((pdata.velocities j).y * (pdata.velocities j).z)
    zz := acc.zz + mass * ((pdata.velocities j).z * (pdata.velocities j).z) }

/-- One iteration of the loop that sums `m·|v|²` directly. -/
def keTransStep (pdata : ParticleData) (ke_trans_total : Scalar) (j : Nat) : Scalar :=
  ke_trans_total + (pdata.velocities j).w *
    ((pdata.velocities j).x * (pdata.velocities j).x
      + (pdata.velocities j).y * (pdata.velocities j).y
      + (pdata.velocities j).z * (pdata.velocities j).z)

/-- One iteration of the loop that sums the rotational kinetic energy; `EPSILON` is the
constant of `HOOMDMath.h` (absent), taken as a parameter. -/
def keRotStep (EPSILON : Scalar) (pdata : ParticleData) (ke_rot_total : Scalar) (j : Nat) :
    Scalar :=
  let I := pdata.inertia j
  let q := quat.ofScalar4 (pdata.orientation j)
  let p := quat.ofScalar4 (pdata.angmom j)
  let s := quat.mul (quat.smul (1 / 2) (conj q)) p
  let ke1 := if I.x ≥ EPSILON then ke_rot_total + s.v.x * s.v.x / I.x else ke_rot_total
  let ke2 := if I.y ≥ EPSILON then ke1 + s.v.y * s.v.y / I.y else ke1
  if I.z ≥ EPSILON then ke2 + s.v.z * s.v.z / I.z else ke2

/-- One iteration of the loop that sums the potential energy. -/
def peStep (pdata : ParticleData) (pe_total : Scalar) (j : Nat) : Scalar :=
  pe_total + (pdata.net_force j).w

/-- One iteration of the loop that sums the upper triangular virial tensor. -/
def virialTensorStep (pdata : ParticleData) (acc : SymTensor) (j : Nat) : SymTensor :=
  let virial_pitch := pdata.net_virial_pitch
  { xx := acc.xx + pdata.net_virial (j + 0 * virial_pitch)
    xy := acc.xy + pdata.net_virial (j + 1 * virial_pitch)
    xz := acc.xz + pdata.net_virial (j + 2 * virial_pitch)
    yy := acc.yy + pdata.net_virial (j + 3 * virial_pitch)
    yz := acc.yz + pdata.net_virial (j + 4 * virial_pitch)
    zz := acc.zz + pdata.net_virial (j + 5 * virial_pitch) }

/-- One iteration of the loop that sums only the isotropic part of the virial. -/
def isotropicVirialStep (pdata : ParticleData) (W : Scalar) (j : Nat) : Scalar :=
  let virial_pitch := pdata.net_virial_pitch
  W + (1 / 3) * (pdata.net_virial (j + 0 * virial_pitch)
                + pdata.net_virial (j + 3 * virial_pitch)
                + pdata.net_virial (j + 5 * virial_pitch))

/-- The six kinetic accumulators after the first block of `computeProperties`: the loop
runs only when the pressure tensor is requested. -/
def pressureKinetic (pdata : ParticleData) (members : List Nat) : SymTensor :=
  if pdata.flags pdata_flag.pressure_tensor then
    members.foldl (kineticTensorStep pdata) ⟨0, 0, 0, 0, 0, 0⟩
  else
    ⟨0, 0, 0, 0, 0, 0⟩

/-- The value of `ke_trans_total` after the first block of `computeProperties`. -/
def keTransTotal (pdata : ParticleData) (members : List Nat) : Scalar :=
  if pdata.flags pdata_flag.pressure_tensor then
    (1 / 2) * ((pressureKinetic pdata members).xx + (pressureKinetic pdata members).yy
      + (pressureKinetic pdata members).zz)
  else
    (members.foldl (keTransStep pdata) 0) * (1 / 2)

/-- The value of `ke_rot_total` after the second block of `computeProperties`. -/
def keRotTotal (EPSILON : Scalar) (pdata : ParticleData) (members : List Nat) : Scalar :=
  if pdata.flags pdata_flag.rotational_kinetic_energy then
    (members.foldl (keRotStep EPSILON pdata) 0) / 2
  else
    0

/-- The value of `pe_total` after the third block of `computeProperties`. -/
def peTotal (pdata : ParticleData) (members : List Nat) : Scalar :=
  if pdata.flags pdata_flag.potential_energy then
    members.foldl (peStep pdata) 0 + pdata.external_energy
  else
    0

/-- The accumulators `virial_xx … virial_zz` after the virial block: they start from the
external virial and the per-particle sum is added when the pressure tensor is requested. -/
def virialTensor (pdata : ParticleData) (members : List Nat) : SymTensor :=
  let ext : SymTensor :=
    ⟨pdata.external_virial 0, pdata.external_virial 1, pdata.external_virial 2,
     pdata.external_virial 3, pdata.external_virial 4, pdata.external_virial 5⟩
  if pdata.flags pdata_flag.pressure_tensor then
    members.foldl (virialTensorStep pdata) ext
  else
    ext

/-- The value of `W` after the virial block, before the 2D correction. -/
def isotropicVirial (pdata : ParticleData) (members : List Nat) : Scalar :=
  if pdata.flags pdata_flag.pressure_tensor then
    if pdata.flags pdata_flag.isotropic_virial then
      (1 / 3) * ((virialTensor pdata members).xx + (virialTensor pdata members).yy
        + (virialTensor pdata members).zz)
    else
      0
  else if pdata.flags pdata_flag.isotropic_virial then
    members.foldl (isotropicVirialStep pdata) 0
  else
    0

/-- The local `volume` of `computeProperties`: the area in 2D. -/
def boxVolume (sysdef : SystemDefinition) : Scalar :=
  let L := sysdef.pdata.global_box_L
  if sysdef.n_dimensions = 2 then L.x * L.y else L.x * L.y * L.z

/-- The value of `W` after the 2D correction `W *= 3/2`. -/
def correctedVirial (sysdef : SystemDefinition) (members : List Nat) : Scalar :=
  if sysdef.n_dimensions = 2 then
    isotropicVirial sysdef.pdata members * (3 / 2)
  else
    isotropicVirial sysdef.pdata members

/-- `ComputeThermo::computeProperties()`. -/
def ComputeThermo.computeProperties (EPSILON : Scalar) (sysdef : SystemDefinition)
    (self : ComputeThermo) : ComputeThermo :=
  if self.m_group.getNumMembersGlobal = 0 then
    self
  else
    let pdata := sysdef.pdata
    let members := self.m_group.members
    let kin := pressureKinetic pdata members
    let ke_trans_total := keTransTotal pdata members
    let ke_rot_total := keRotTotal EPSILON pdata members
    let pe_total := peTotal pdata members
    let vir := virialTensor pdata members
    let volume := boxVolume sysdef
    let D := sysdef.n_dimensions
    let W := correctedVirial sysdef members
    let pressure := (2 * ke_trans_total / (D : Scalar) + W) / volume
    { self with
      m_properties :=
        { translational_kinetic_energy := ke_trans_total
          rotational_kinetic_energy := ke_rot_total
          potential_energy := pe_total
          pressure := pressure
          pressure_xx := (kin.xx + vir.xx) / volume
          pressure_xy := (kin.xy + vir.xy) / volume
          pressure_xz := (kin.xz + vir.xz) / volume
          pressure_yy := (kin.yy + vir.yy) / volume
          pressure_yz := (kin.yz + vir.yz) / volume
          pressure_zz := (kin.zz + vir.zz) / volume }
      m_properties_reduced := !pdata.domain_decomposition }

/-- `ComputeThermo::compute(timestep)`; `shouldCompute` is the per-timestep guard of the
base class `Compute` (absent), taken as a parameter. -/
def ComputeThermo.compute (EPSILON : Scalar) (shouldCompute : Nat → Bool)
    (sysdef : SystemDefinition) (self : ComputeThermo) (timestep : Nat) : ComputeThermo :=
  if !shouldCompute timestep then self else self.computeProperties EPSILON sysdef

/-- The `PressureTensor` value returned by `getPressureTensor()`. -/
structure PressureTensor where
  xx : Scalar
  xy : Scalar
  xz : Scalar
  yy : Scalar
  yz : Scalar
  zz : Scalar

/-- The accessors that `getLogValue` calls and that are defined in `ComputeThermo.h`
(absent): each is taken as a parameter, a function of the object state. -/
structure ThermoGetters where
  getTemperature : ComputeThermo → Scalar
  getTranslationalTemperature : ComputeThermo → Scalar
  getRotationalTemperature : ComputeThermo → Scalar
  getKineticEnergy : ComputeThermo → Scalar
  getTranslationalKineticEnergy : ComputeThermo → Scalar
  getRotationalKineticEnergy : ComputeThermo → Scalar
  getPotentialEnergy : ComputeThermo → Scalar
  getPressure : ComputeThermo → Scalar
  getPressureTensor : ComputeThermo → PressureTensor

/-- The text of the error `getLogValue` sends before it throws. -/
def logValueError (quantity : String) : String :=
  "compute.thermo: " ++ quantity ++ " is not a valid log quantity\n"

/-- The if-chain of `ComputeThermo::getLogValue` on the state left by `compute`:
`m_logname_list[k]` is the `k`-th entry of the list, the final `else` throws. -/
def ComputeThermo.logValueOf (g : ThermoGetters) (self : ComputeThermo) (quantity : String) :
    Except String Scalar :=
  if some quantity = self.m_logname_list[0]? then
    .ok (g.getTemperature self)
  else if some quantity = self.m_logname_list[1]? then
    .ok (g.getTranslationalTemperature self)
  else if some quantity = self.m_logname_list[2]? then
    .ok (g.getRotationalTemperature self)
  else if some quantity = self.m_logname_list[3]? then
    .ok (g.getKineticEnergy self)
  else if some quantity = self.m_logname_list[4]? then
    .ok (g.getTranslationalKineticEnergy self)
  else if some quantity = self.m_logname_list[5]? then
    .ok (g.getRotationalKineticEnergy self)
  else if some quantity = self.m_logname_list[6]? then
    .ok (g.getPotentialEnergy self)
  else if some quantity = self.m_logname_list[7]? then
    .ok (((self.m_ndof + self.m_ndof_rot) % UINT_RANGE : Nat) : Scalar)
  else if some quantity = self.m_logname_list[8]? then
    .ok (self.m_ndof : Scalar)
  else if some quantity = self.m_logname_list[9]? then
    .ok (self.m_ndof_rot : Scalar)
  else if some quantity = self.m_logname_list[10]? then
    .ok (self.m_group.getNumMembersGlobal : Scalar)
  else if some quantity = self.m_logname_list[11]? then
    .ok (g.getPressure self)
  else if some quantity = self.m_logname_list[12]? then
    .ok (g.getPressureTensor self).xx
  else if some quantity = self.m_logname_list[13]? then
    .ok (g.getPressureTensor self).xy
  else if some quantity = self.m_logname_list[14]? then
    .ok (g.getPressureTensor self).xz
  else if some quantity = self.m_logname_list[15]? then
    .ok (g.getPressureTensor self).yy
  else if some quantity = self.m_logname_list[16]? then
    .ok (g.getPressureTensor self).yz
  else if some quantity = self.m_logname_list[17]? then
    .ok (g.getPressureTensor self).zz
  else
    .error (logValueError quantity)

/-- `ComputeThermo::getLogValue(quantity, timestep)`: the state after the call to
`compute`, and the value returned or the error thrown. -/
def ComputeThermo.getLogValue (g : ThermoGetters) (EPSILON : Scalar)
    (shouldCompute : Nat → Bool) (sysdef : SystemDefinition) (self : ComputeThermo)
    (quantity : String) (timestep : Nat) : ComputeThermo × Except String Scalar :=
  let self1 := self.compute EPSILON shouldCompute sysdef timestep
  (self1, self1.logValueOf g quantity)

/-- The 18 named-quantity keys in the order the spec lists them, without suffix. -/
def specQuantityNames : List String :=
  [ "temperature", "translational_temperature", "rotational_temperature",
    "kinetic_energy", "translational_kinetic_energy", "rotational_kinetic_energy",
    "potential_energy", "ndof", "translational_ndof", "rotational_ndof",
    "num_particles", "pressure", "pressure_xx", "pressure_xy", "pressure_xz",
    "pressure_yy", "pressure_yz", "pressure_zz" ]

/-- The values returned by the 18 branches of the if-chain of `getLogValue`, in the
order of the branches. -/
def ComputeThermo.branchValues (g : ThermoGetters) (self : ComputeThermo) : List Scalar :=
  [ g.getTemperature self,
    g.getTranslationalTemperature self,
    g.getRotationalTemperature self,
    g.getKineticEnergy self,
    g.getTranslationalKineticEnergy self,
    g.getRotationalKineticEnergy self,
    g.getPotentialEnergy self,
    (((self.m_ndof + self.m_ndof_rot) % UINT_RANGE : Nat) : Scalar),
    (self.m_ndof : Scalar),
    (self.m_ndof_rot : Scalar),
    (self.m_group.getNumMembersGlobal : Scalar),
    g.getPressure self,
    (g.getPressureTensor self).xx,
    (g.getPressureTensor self).xy,
    (g.getPressureTensor self).xz,
    (g.getPressureTensor self).yy,
    (g.getPressureTensor self).yz,
    (g.getPressureTensor self).zz ]

/-- A three-dimensional system of two particles in a 2 × 3 × 4 box with every flag
requested, used to evaluate the definitions. -/
def exampleSysdef : SystemDefinition where
  n_dimensions := 3
  pdata :=
    { velocities := fun j => if j = 0 then ⟨1, 2, 3, 2⟩ else ⟨0, 0, 0, 1⟩
      net_force := fun _ => ⟨0, 0, 0, 1⟩
      net_virial := fun k => (k : Scalar)
      net_virial_pitch := 2
      orientation := fun _ => ⟨1, 0, 0, 0⟩
      angmom := fun _ => ⟨0, 2, 2, 2⟩
      inertia := fun _ => ⟨1, 1, 1⟩
      flags := fun _ => true
      external_energy := 0
      external_virial := fun _ => 0
      global_box_L := ⟨2, 3, 4⟩
      domain_decomposition := false }

/-- The system `exampleSysdef` with the pressure tensor not requested. -/
def exampleSysdefNoTensor : SystemDefinition :=
  { exampleSysdef with
    pdata := { exampleSysdef.pdata with flags := fun f => f != pdata_flag.pressure_tensor } }

/-- The system `exampleSysdef` with both particles at rest: the velocity components are
zero, the masses and the angular momenta are as before. -/
def exampleSysdefAtRest : SystemDefinition :=
  { exampleSysdef with
    pdata := { exampleSysdef.pdata with velocities := fun _ => ⟨0, 0, 0, 1⟩ } }

/-- The system `exampleSysdefAtRest` with the angular momenta set to zero as well. -/
def exampleSysdefNoSpin : SystemDefinition :=
  { exampleSysdefAtRest with
    pdata := { exampleSysdefAtRest.pdata with angmom := fun _ => ⟨0, 0, 0, 0⟩ } }

/-- The system `exampleSysdef` as a two-dimensional one. -/
def exampleSysdef2D : SystemDefinition :=
  { exampleSysdef with n_dimensions := 2 }

/-- A thermo compute over the group of particles 0 and 1, as its constructor leaves it
for the suffix `_all`. -/
def exampleThermo : ComputeThermo := ComputeThermo.ctor ⟨[0, 1], 2⟩ "_all"

/-- A thermo compute over an empty group. -/
def exampleThermoEmpty : ComputeThermo := ComputeThermo.ctor ⟨[], 0⟩ ""

/-- Accessors that read the slots of `m_properties`, used to evaluate `getLogValue`. -/
def exampleGetters : ThermoGetters where
  getTemperature := fun c =>
    2 * (c.m_properties.translational_kinetic_energy + c.m_properties.rotational_kinetic_energy)
      / ((c.m_ndof + c.m_ndof_rot : Nat) : Scalar)
  getTranslationalTemperature := fun c =>
    2 * c.m_properties.translational_kinetic_energy / (c.m_ndof : Scalar)
  getRotationalTemperature := fun c =>
    2 * c.m_properties.rotational_kinetic_energy / (c.m_ndof_rot : Scalar)
  getKineticEnergy := fun c =>
    c.m_properties.translational_kinetic_energy + c.m_properties.rotational_kinetic_energy
  getTranslationalKineticEnergy := fun c => c.m_properties.translational_kinetic_energy
  getRotationalKineticEnergy := fun c => c.m_properties.rotational_kinetic_energy
  getPotentialEnergy := fun c => c.m_properties.potential_energy
  getPressure := fun c => c.m_properties.pressure
  getPressureTensor := fun c =>
    ⟨c.m_properties.pressure_xx, c.m_properties.pressure_xy, c.m_properties.pressure_xz,
     c.m_properties.pressure_yy, c.m_properties.pressure_yz, c.m_properties.pressure_zz⟩

/-- The value of the constant `EPSILON` used to evaluate the definitions. -/
def exampleEpsilon : Scalar := 1 / 1000000

/-- Slot-wise sum of two `m_properties` arrays. -/
def ThermoProperties.add (a b : ThermoProperties) : ThermoProperties where
  translational_kinetic_energy := a.translational_kinetic_energy + b.translational_kinetic_energy
  rotational_kinetic_energy := a.rotational_kinetic_energy + b.rotational_kinetic_energy
  potential_energy := a.potential_energy + b.potential_energy
  pressure := a.pressure + b.pressure
  pressure_xx := a.pressure_xx + b.pressure_xx
  pressure_xy := a.pressure_xy + b.pressure_xy
  pressure_xz := a.pressure_xz + b.pressure_xz
  pressure_yy := a.pressure_yy + b.pressure_yy
  pressure_yz := a.pressure_yz + b.pressure_yz
  pressure_zz := a.pressure_zz + b.pressure_zz

/-- `MPI_Allreduce(MPI_IN_PLACE, …, num_quantities, …, MPI_SUM, …)` as seen by one rank:
the local array is replaced by the slot-wise sum of itself and the arrays `others` that
the other ranks contribute. -/
def allreduceSum (others : List ThermoProperties) (mine : ThermoProperties) :
    ThermoProperties :=
  others.foldl ThermoProperties.add mine

/-- `ComputeThermo::reduceProperties()`; `others` are the arrays of the other ranks. -/
def ComputeThermo.reduceProperties (others : List ThermoProperties) (self : ComputeThermo) :
    ComputeThermo :=
  if self.m_properties_reduced then
    self
  else
    { self with
      m_properties := allreduceSum others self.m_properties
      m_properties_reduced := true }

/-- The system `exampleSysdef` with the external virial 3 in each of its six components;
both the pressure tensor and the isotropic virial are requested. -/
def exampleSysdefExt : SystemDefinition :=
  { exampleSysdef with
    pdata := { exampleSysdef.pdata with external_virial := fun _ => 3 } }

/-- The system `exampleSysdefExt` with the pressure tensor not requested: only the
isotropic virial is. -/
def exampleSysdefExtIso : SystemDefinition :=
  { exampleSysdefExt with
    pdata := { exampleSysdefExt.pdata with flags := fun f => f != pdata_flag.pressure_tensor } }

/-! ### The scalar pressure in the words of the spec -/

/-- The translational kinetic energy as the spec writes it, `Σ ½·m·|v|²` over the
members of the group. -/
def specKeTrans (pdata : ParticleData) (members : List Nat) : Scalar :=
  (members.map (fun j => 1 / 2 * (pdata.velocities j).w
    * ((pdata.velocities j).x * (pdata.velocities j).x
      + (pdata.velocities j).y * (pdata.velocities j).y
      + (pdata.velocities j).z * (pdata.velocities j).z))).sum

/-- The isotropic virial as the spec writes it: one third of the trace of the external
virial plus the sum over the group of the per-particle net virial. The components `xx`,
`yy`, `zz` are the entries 0, 3, 5 of the external virial and the rows 0, 3, 5 of the
net virial array. -/
def specIsotropicVirial (pdata : ParticleData) (members : List Nat) : Scalar :=
  1 / 3 *
    ((pdata.external_virial 0
        + (members.map (fun j => pdata.net_virial (j + 0 * pdata.net_virial_pitch))).sum)
      + (pdata.external_virial 3
        + (members.map (fun j => pdata.net_virial (j + 3 * pdata.net_virial_pitch))).sum)
      + (pdata.external_virial 5
        + (members.map (fun j => pdata.net_virial (j + 5 * pdata.net_virial_pitch))).sum))

/-- The system `exampleSysdef` with no flag requested. -/
def exampleSysdefNoFlags : SystemDefinition :=
  { exampleSysdef with
    pdata := { exampleSysdef.pdata with flags := fun _ => false } }

/-- The system `exampleSysdefNoFlags` as a two-dimensional one. -/
def exampleSysdefNoFlags2D : SystemDefinition :=
  { exampleSysdefNoFlags with n_dimensions := 2 }

/-- The system `exampleSysdefExt` as a two-dimensional one. -/
def exampleSysdefExt2D : SystemDefinition :=
  { exampleSysdefExt with n_dimensions := 2 }

/-- A thermo compute whose array still waits for the reduction over the domains. -/
def exampleThermoUnreduced : ComputeThermo :=
  { exampleThermo with
    m_properties := ⟨14, 3, 2, 7 / 8, 1 / 8, 3 / 8, 5 / 8, 7 / 8, 29 / 24, 13 / 8⟩
    m_properties_reduced := false }

/-! ### `CGCMMAngleForceCompute`

The embedding of `libhoomd/computes/CGCMMAngleForceCompute.cc`. Text written to `cout`
or `cerr` is returned as a list of messages, a thrown `runtime_error` as its message. -/

/-- The functions of `<math.h>` that the sources call. They are not code of the
repository: they are taken as parameters and every statement holds for each choice of
them. -/
structure MathFunctions where
  sqrt : Scalar → Scalar
  acos : Scalar → Scalar
  exp : Scalar → Scalar
  log : Scalar → Scalar
  pow : Scalar → Scalar → Scalar

/-- The constant `SMALL` (`#define SMALL 0.001f`). -/
def SMALL : Scalar := 0.001

/-- One entry of the angle table: the type of the angle and the tags of its three
particles. -/
structure Angle where
  type : Nat
  a : Nat
  b : Nat
  c : Nat
deriving DecidableEq

/-- The angle table of the system. -/
structure AngleData where
  /-- `getNAngleTypes()`. -/
  n_angle_types : Nat
  /-- `getAngle(i)` is the `i`-th entry, `getNumAngles()` the length. -/
  angles : List Angle

/-- `AngleData::getNAngleTypes`. -/
def AngleData.getNAngleTypes (d : AngleData) : Nat := d.n_angle_types

/-- The simulation box returned by `getBox()`. -/
structure BoxDim where
  xlo : Scalar
  xhi : Scalar
  ylo : Scalar
  yhi : Scalar
  zlo : Scalar
  zhi : Scalar
deriving DecidableEq

/-- The part of `ParticleDataArraysConst` that `computeForces` reads. -/
structure ParticleDataArraysConst where
  x : Nat → Scalar
  y : Nat → Scalar
  z : Nat → Scalar
  /-- The map from a particle tag to its index in the arrays. -/
  rtag : Nat → Nat

/-- The part of the base class `ForceCompute` (absent) that the angle force writes: the
force and energy buffer and the virial buffer. -/
structure ForceCompute where
  m_force : Nat → Scalar4
  m_virial : Nat → Scalar

/-- The state of a `CGCMMAngleForceCompute` object; `prefact`, `cgPow1` and `cgPow2`
are the arrays of four presets, indexed by the coarse-grain type. -/
structure CGCMMAngleForceCompute extends ForceCompute where
  m_CGCMMAngle_data : AngleData
  m_K : Nat → Scalar
  m_t_0 : Nat → Scalar
  m_eps : Nat → Scalar
  m_sigma : Nat → Scalar
  m_rcut : Nat → Scalar
  m_cg_type : Nat → Nat
  prefact : Nat → Scalar
  cgPow1 : Nat → Scalar
  cgPow2 : Nat → Scalar

/-- An array of four scalars after the assignments to its entries 0, 1, 2 and 3; the
array has no other entry. -/
def presetArray (v0 v1 v2 v3 : Scalar) : Nat → Scalar :=
  fun i => if i = 0 then v0 else if i = 1 then v1 else if i = 2 then v2 else if i = 3 then v3
    else 0

/-- The message of the exception thrown by the constructor of the angle force. -/
def angleCtorError : String := "Error initializing CGCMMAngleForceCompute"

/-- The constructor `CGCMMAngleForceCompute::CGCMMAngleForceCompute(sysdef)`, run on the
base object that `ForceCompute(sysdef)` has built; `angle_data` is
`sysdef->getAngleData()`. -/
def CGCMMAngleForceCompute.ctor (base : ForceCompute) (angle_data : AngleData) :
    Except String CGCMMAngleForceCompute :=
  if angle_data.getNAngleTypes = 0 then
    .error angleCtorError
  else
    .ok
      { toForceCompute := base
        m_CGCMMAngle_data := angle_data
        m_K := fun _ => 0
        m_t_0 := fun _ => 0
        m_eps := fun _ => 0
        m_sigma := fun _ => 0
        m_rcut := fun _ => 0
        m_cg_type := fun _ => 0
        prefact := presetArray 0.0 6.75 2.59807621135332 4.0
        cgPow1 := presetArray 0.0 9.0 12.0 12.0
        cgPow2 := presetArray 0.0 6.0 4.0 6.0 }

/-- The message of the exception thrown by `setParams`. -/
def angleSetParamsError : String := "Error setting parameters in CGCMMAngleForceCompute"

/-- The warnings `setParams` writes, in the order of the source. -/
def angleParamWarnings (K t_0 : Scalar) (cg_type : Nat) (eps sigma : Scalar) : List String :=
  (if cg_type > 3 then ["***Warning! Unrecognized exponents specified for CGCMM Angle"] else [])
  ++ (if K ≤ 0 then ["***Warning! K <= 0 specified for CGCMM Angle"] else [])
  ++ (if t_0 ≤ 0 then ["***Warning! t_0 <= 0 specified for CGCMM Angle"] else [])
  ++ (if eps ≤ 0 then ["***Warning! eps <= 0 specified for CGCMM Angle"] else [])
  ++ (if sigma ≤ 0 then ["***Warning! sigma <= 0 specified for CGCMM Angle"] else [])

/-- `CGCMMAngleForceCompute::setParams(type, K, t_0, cg_type, eps, sigma)`: the object
after the call, and the exception thrown or the warnings written. -/
def CGCMMAngleForceCompute.setParams (libm : MathFunctions) (self : CGCMMAngleForceCompute)
    (type : Nat) (K t_0 : Scalar) (cg_type : Nat) (eps sigma : Scalar) :
    CGCMMAngleForceCompute × Except String (List String) :=
  if type ≥ self.m_CGCMMAngle_data.getNAngleTypes then
    (self, .error angleSetParamsError)
  else
    let myPow1 := self.cgPow1 cg_type
    let myPow2 := self.cgPow2 cg_type
    let my_rcut := sigma * libm.exp (1 / (myPow1 - myPow2) * libm.log (myPow1 / myPow2))
    ({ self with
       m_K := Function.update self.m_K type K
       m_t_0 := Function.update self.m_t_0 type t_0
       m_cg_type := Function.update self.m_cg_type type cg_type
       m_eps := Function.update self.m_eps type eps
       m_sigma := Function.update self.m_sigma type sigma
       m_rcut := Function.update self.m_rcut type my_rcut },
     .ok (angleParamWarnings K t_0 cg_type eps sigma))

/-- The wrap written out nine times in `computeForces`:
`if (d >= L2) d -= L; else if (d < -L2) d += L;`. -/
def pullBack (L L2 d : Scalar) : Scalar :=
  if d ≥ L2 then d - L else if d < -L2 then d + L else d

/-- The values of the local variables of one iteration of the loop over the angles of
`computeForces`, each as it stands at the end of the iteration. -/
structure AngleLocals where
  idx_a : Nat
  idx_b : Nat
  idx_c : Nat
  dxab : Scalar
  dyab : Scalar
  dzab : Scalar
  dxcb : Scalar
  dycb : Scalar
  dzcb : Scalar
  dxac : Scalar
  dyac : Scalar
  dzac : Scalar
  rsqab : Scalar
  rab : Scalar
  rsqcb : Scalar
  rcb : Scalar
  rsqac : Scalar
  rac : Scalar
  c_abbc : Scalar
  s_abbc : Scalar
  fac : Scalar
  eac : Scalar
  vacX : Scalar
  vacY : Scalar
  vacZ : Scalar
  dth : Scalar
  tk : Scalar
  fab0 : Scalar
  fab1 : Scalar
  fab2 : Scalar
  fcb0 : Scalar
  fcb1 : Scalar
  fcb2 : Scalar
  angle_eng : Scalar
  angle_virial : Scalar

/-- The body of the loop over the angles of `computeForces`, up to the accumulation: the
displacements, their wrap, the clamped cosine, the floored and inverted sine, the 1-3
repulsion and the harmonic force. -/
def CGCMMAngleForceCompute.angleLocals (libm : MathFunctions) (self : CGCMMAngleForceCompute)
    (arrays : ParticleDataArraysConst) (box : BoxDim) (angle : Angle) : AngleLocals :=
  let Lx := box.xhi - box.xlo
  let Ly := box.yhi - box.ylo
  let Lz := box.zhi - box.zlo
  let Lx2 := Lx / 2
  let Ly2 := Ly / 2
  let Lz2 := Lz / 2
  let idx_a := arrays.rtag angle.a
  let idx_b := arrays.rtag angle.b
  let idx_c := arrays.rtag angle.c
  let dxab := pullBack Lx Lx2 (arrays.x idx_a - arrays.x idx_b)
  let dyab := pullBack Ly Ly2 (arrays.y idx_a - arrays.y idx_b)
  let dzab := pullBack Lz Lz2 (arrays.z idx_a - arrays.z idx_b)
  let dxcb := pullBack Lx Lx2 (arrays.x idx_c - arrays.x idx_b)
  let dycb := pullBack Ly Ly2 (arrays.y idx_c - arrays.y idx_b)
  let dzcb := pullBack Lz Lz2 (arrays.z idx_c - arrays.z idx_b)
  let dxac := pullBack Lx Lx2 (arrays.x idx_a - arrays.x idx_c)
  let dyac := pullBack Ly Ly2 (arrays.y idx_a - arrays.y idx_c)
  let dzac := pullBack Lz Lz2 (arrays.z idx_a - arrays.z idx_c)
  let rsqab := dxab * dxab + dyab * dyab + dzab * dzab
  let rab := libm.sqrt rsqab
  let rsqcb := dxcb * dxcb + dycb * dycb + dzcb * dzcb
  let rcb := libm.sqrt rsqcb
  let rsqac := dxac * dxac + dyac * dyac + dzac * dzac
  let rac := libm.sqrt rsqac
  let c0 := (dxab * dxcb + dyab * dycb + dzab * dzcb) / (rab * rcb)
  let c1 := if c0 > 1 then 1 else c0
  let c_abbc := if c1 < -1 then -1 else c1
  let s0 := libm.sqrt (1 - c_abbc * c_abbc)
  let s1 := if s0 < SMALL then SMALL else s0
  let s_abbc := 1 / s1
  let cut := rac < self.m_rcut angle.type
  let cg_type := self.m_cg_type angle.type
  let cg_pow1 := self.cgPow1 cg_type
  let cg_pow2 := self.cgPow2 cg_type
  let cg_pref := self.prefact cg_type
  let cg_ratio := self.m_sigma angle.type / rac
  let cg_eps := self.m_eps angle.type
  let fac :=
    if cut then
      cg_pref * cg_eps / rsqac
        * (cg_pow1 * libm.pow cg_ratio cg_pow1 - cg_pow2 * libm.pow cg_ratio cg_pow2)
    else 0
  let eac :=
    if cut then
      cg_eps + cg_pref * cg_eps * (libm.pow cg_ratio cg_pow1 - libm.pow cg_ratio cg_pow2)
    else 0
  let vacX := if cut then fac * dxac * dxac else 0
  let vacY := if cut then fac * dyac * dyac else 0
  let vacZ := if cut then fac * dzac * dzac else 0
  let dth := libm.acos c_abbc - self.m_t_0 angle.type
  let tk := self.m_K angle.type * dth
  let a := -1 * tk * s_abbc
  let a11 := a * c_abbc / rsqab
  let a12 := -a / (rab * rcb)
  let a22 := a * c_abbc / rsqcb
  let fab0 := a11 * dxab + a12 * dxcb
  let fab1 := a11 * dyab + a12 * dycb
  let fab2 := a11 * dzab + a12 * dzcb
  let fcb0 := a22 * dxcb + a12 * dxab
  let fcb1 := a22 * dycb + a12 * dyab
  let fcb2 := a22 * dzcb + a12 * dzab
  let angle_eng := (1 / 2 * tk * dth + eac) * (1 / 3)
  let vx := dxab * fab0 + dxcb * fcb0 + vacX
  let vy := dyab * fab1 + dycb * fcb1 + vacY
  let vz := dzab * fab2 + dzcb * fcb2 + vacZ
  let angle_virial := 1 / 6 * (vx + vy + vz)
  { idx_a := idx_a, idx_b := idx_b, idx_c := idx_c
    dxab := dxab, dyab := dyab, dzab := dzab
    dxcb := dxcb, dycb := dycb, dzcb := dzcb
    dxac := dxac, dyac := dyac, dzac := dzac
    rsqab := rsqab, rab := rab, rsqcb := rsqcb, rcb := rcb, rsqac := rsqac, rac := rac
    c_abbc := c_abbc, s_abbc := s_abbc
    fac := fac, eac := eac, vacX := vacX, vacY := vacY, vacZ := vacZ
    dth := dth, tk := tk
    fab0 := fab0, fab1 := fab1, fab2 := fab2
    fcb0 := fcb0, fcb1 := fcb1, fcb2 := fcb2
    angle_eng := angle_eng, angle_virial := angle_virial }

/-- The end of the body of the loop over the angles: the fifteen updates of `h_force`
and `h_virial` at `idx_a`, `idx_b` and `idx_c`, in the order of the source. -/
def accumulateAngle (bufs : ForceCompute) (t : AngleLocals) : ForceCompute :=
  let f0 := bufs.m_force
  let v0 := bufs.m_virial
  let f1 := Function.update f0 t.idx_a
    ⟨(f0 t.idx_a).x + (t.fab0 + t.fac * t.dxac), (f0 t.idx_a).y + (t.fab1 + t.fac * t.dyac),
     (f0 t.idx_a).z + (t.fab2 + t.fac * t.dzac), (f0 t.idx_a).w + t.angle_eng⟩
  let v1 := Function.update v0 t.idx_a (v0 t.idx_a + t.angle_virial)
  let f2 := Function.update f1 t.idx_b
    ⟨(f1 t.idx_b).x - (t.fab0 + t.fcb0), (f1 t.idx_b).y - (t.fab1 + t.fcb1),
     (f1 t.idx_b).z - (t.fab2 + t.fcb2), (f1 t.idx_b).w + t.angle_eng⟩
  let v2 := Function.update v1 t.idx_b (v1 t.idx_b + t.angle_virial)
  let f3 := Function.update f2 t.idx_c
    ⟨(f2 t.idx_c).x + (t.fcb0 - t.fac * t.dxac), (f2 t.idx_c).y + (t.fcb1 - t.fac * t.dyac),
     (f2 t.idx_c).z + (t.fcb2 - t.fac * t.dzac), (f2 t.idx_c).w + t.angle_eng⟩
  let v3 := Function.update v2 t.idx_c (v2 t.idx_c + t.angle_virial)
  ⟨f3, v3⟩

/-- The buffers after the two `memset` calls of `computeForces`. -/
def zeroedBuffers : ForceCompute := ⟨fun _ => ⟨0, 0, 0, 0⟩, fun _ => 0⟩

/-- `CGCMMAngleForceCompute::computeForces(timestep)`: the buffers are zeroed, then every
angle of the table adds its terms. -/
def CGCMMAngleForceCompute.computeForces (libm : MathFunctions)
    (arrays : ParticleDataArraysConst) (box : BoxDim) (self : CGCMMAngleForceCompute)
    (_timestep : Nat) : CGCMMAngleForceCompute :=
  let bufs := self.m_CGCMMAngle_data.angles.foldl
    (fun acc angle => accumulateAngle acc (self.angleLocals libm arrays box angle))
    zeroedBuffers
  { self with toForceCompute := bufs }

/-- The particle positions moved by the vector `(tx, ty, tz)`. -/
def ParticleDataArraysConst.translate (arrays : ParticleDataArraysConst)
    (tx ty tz : Scalar) : ParticleDataArraysConst :=
  { arrays with
    x := fun i => arrays.x i + tx
    y := fun i => arrays.y i + ty
    z := fun i => arrays.z i + tz }

/-! ### Components that need the accelerator

The embedding of `libhoomd/updaters_gpu/TwoStepNVEGPU.cc` and of the constructor of
`libhoomd/computes_gpu/HarmonicImproperForceComputeGPU.cc`. What the device and the
profiler are asked to do is recorded as a list of events. -/

/-- The part of `ExecutionConfiguration` that the sources read. -/
structure ExecutionConfiguration where
  /-- `isCUDAEnabled()`. -/
  cuda_enabled : Bool
  /-- `isCUDAErrorCheckingEnabled()`. -/
  cuda_error_checking : Bool

/-- `ExecutionConfiguration::isCUDAEnabled`. -/
def ExecutionConfiguration.isCUDAEnabled (c : ExecutionConfiguration) : Bool := c.cuda_enabled

/-- `ExecutionConfiguration::isCUDAErrorCheckingEnabled`. -/
def ExecutionConfiguration.isCUDAErrorCheckingEnabled (c : ExecutionConfiguration) : Bool :=
  c.cuda_error_checking

/-- The particle arrays on the device (`gpu_pdata_arrays`). -/
structure gpu_pdata_arrays where
  pos : Nat → Scalar4
  vel : Nat → Scalar4
  accel : Nat → Scalar4

/-- What an integration step asks of the profiler and of the device. -/
inductive DeviceEvent where
  | profPush (name : String)
  | acquireReadWriteGPU
  | launchStepOne
  | launchStepTwo
  | checkCudaError
  | release
  | profPop
deriving DecidableEq, Repr

/-- The particle data as an integration step sees it: the device arrays, the net force,
the box, and the record of the events so far. -/
structure DeviceParticleData where
  d_pdata : gpu_pdata_arrays
  net_force : Nat → Scalar4
  box : BoxDim
  events : List DeviceEvent

/-- The state of the base class `TwoStepNVE` (absent) that `TwoStepNVEGPU` reads;
`m_prof` tells whether a profiler is attached. -/
structure TwoStepNVE where
  exec_conf : ExecutionConfiguration
  m_group : ParticleGroup
  m_deltaT : Scalar
  m_limit : Bool
  m_limit_val : Scalar
  m_zero_force : Bool
  m_prof : Bool

/-- The state of a `TwoStepNVEGPU` object: it adds no member to its base. -/
structure TwoStepNVEGPU extends TwoStepNVE

/-- The device kernels `gpu_nve_step_one` and `gpu_nve_step_two` of `TwoStepNVEGPU.cuh`
(absent), taken as parameters: each maps the device arrays to the updated ones. -/
structure NVEKernels where
  gpu_nve_step_one : gpu_pdata_arrays → List Nat → Nat → BoxDim → Scalar → Bool → Scalar
    → Bool → gpu_pdata_arrays
  gpu_nve_step_two : gpu_pdata_arrays → List Nat → Nat → (Nat → Scalar4) → Scalar → Bool
    → Scalar → Bool → gpu_pdata_arrays

/-- The message of the exception thrown by the constructor of `TwoStepNVEGPU`. -/
def nveGPUCtorError : String := "Error initializing TwoStepNVEGPU"

/-- The constructor `TwoStepNVEGPU::TwoStepNVEGPU(sysdef, group)`, run on the base object
that `TwoStepNVE(sysdef, group)` has built. -/
def TwoStepNVEGPU.ctor (base : TwoStepNVE) : Except String TwoStepNVEGPU :=
  if !base.exec_conf.isCUDAEnabled then
    .error nveGPUCtorError
  else
    .ok { toTwoStepNVE := base }

/-- Events appended when a profiler is attached. -/
def profEvents (m_prof : Bool) (e : DeviceEvent) : List DeviceEvent :=
  if m_prof then [e] else []

/-- Events appended when the error checking of the device is enabled. -/
def checkEvents (c : ExecutionConfiguration) : List DeviceEvent :=
  if c.isCUDAErrorCheckingEnabled then [DeviceEvent.checkCudaError] else []

/-- `TwoStepNVEGPU::integrateStepOne(timestep)`. -/
def TwoStepNVEGPU.integrateStepOne (k : NVEKernels) (self : TwoStepNVEGPU)
    (pdata : DeviceParticleData) (_timestep : Nat) : DeviceParticleData :=
  let group_size := self.m_group.getNumMembers
  if group_size = 0 then
    pdata
  else
    { pdata with
      d_pdata := k.gpu_nve_step_one pdata.d_pdata self.m_group.members group_size pdata.box
        self.m_deltaT self.m_limit self.m_limit_val self.m_zero_force
      events := pdata.events ++ profEvents self.m_prof (DeviceEvent.profPush "NVE step 1")
        ++ [DeviceEvent.acquireReadWriteGPU, DeviceEvent.launchStepOne]
        ++ checkEvents self.exec_conf ++ [DeviceEvent.release]
        ++ profEvents self.m_prof DeviceEvent.profPop }

/-- `TwoStepNVEGPU::integrateStepTwo(timestep)`. -/
def TwoStepNVEGPU.integrateStepTwo (k : NVEKernels) (self : TwoStepNVEGPU)
    (pdata : DeviceParticleData) (_timestep : Nat) : DeviceParticleData :=
  let group_size := self.m_group.getNumMembers
  if group_size = 0 then
    pdata
  else
    { pdata with
      d_pdata := k.gpu_nve_step_two pdata.d_pdata self.m_group.members group_size
        pdata.net_force self.m_deltaT self.m_limit self.m_limit_val self.m_zero_force
      events := pdata.events ++ profEvents self.m_prof (DeviceEvent.profPush "NVE step 2")
        ++ [DeviceEvent.acquireReadWriteGPU, DeviceEvent.launchStepTwo]
        ++ checkEvents self.exec_conf ++ [DeviceEvent.release]
        ++ profEvents self.m_prof DeviceEvent.profPop }

/-- The state of the base class `HarmonicImproperForceCompute` (absent) that the
constructor of the GPU class reads; `n_dihedral_types` is
`m_improper_data->getNDihedralTypes()`. -/
structure HarmonicImproperForceCompute where
  exec_conf : ExecutionConfiguration
  n_dihedral_types : Nat

/-- The state of a `HarmonicImproperForceComputeGPU` object; `m_params` holds one
`float2` per improper type. -/
structure HarmonicImproperForceComputeGPU extends HarmonicImproperForceCompute where
  m_block_size : Nat
  m_params : Nat → Scalar × Scalar

/-- The message of the exception thrown by the constructor of the improper force. -/
def improperGPUCtorError : String := "Error initializing ImproperForceComputeGPU"

/-- The constructor `HarmonicImproperForceComputeGPU::HarmonicImproperForceComputeGPU`,
run on the base object that `HarmonicImproperForceCompute(sysdef)` has built. -/
def HarmonicImproperForceComputeGPU.ctor (base : HarmonicImproperForceCompute) :
    Except String HarmonicImproperForceComputeGPU :=
  if !base.exec_conf.isCUDAEnabled then
    .error improperGPUCtorError
  else
    .ok { toHarmonicImproperForceCompute := base, m_block_size := 64, m_params := fun _ => (0, 0) }

/-- Rational stand-ins for the functions of `<math.h>`, used only to evaluate the
definitions: the square root is exact on the squares it lists, the arc cosine of 0 is
taken as 11/7, and powers have the floor of the exponent as exponent. -/
def exampleMath : MathFunctions where
  sqrt := fun v =>
    if v = 1 then 1 else if v = 9 then 3 else if v = 16 then 4 else if v = 25 then 5 else 0
  acos := fun c => if c = 0 then 11 / 7 else 0
  exp := fun v => 1 + v
  log := fun v => v - 1
  pow := fun v e => v ^ (Int.toNat (Int.floor e))

/-- An angle table with one type and the single angle of particles 0, 1, 2. -/
def exampleAngleData : AngleData := ⟨1, [⟨0, 0, 1, 2⟩]⟩

/-- An angle table with no angle type. -/
def exampleAngleDataNoType : AngleData := ⟨0, []⟩

/-- The angle force that the constructor builds on `exampleAngleData`. -/
def exampleAngleForceNew : CGCMMAngleForceCompute where
  toForceCompute := zeroedBuffers
  m_CGCMMAngle_data := exampleAngleData
  m_K := fun _ => 0
  m_t_0 := fun _ => 0
  m_eps := fun _ => 0
  m_sigma := fun _ => 0
  m_rcut := fun _ => 0
  m_cg_type := fun _ => 0
  prefact := presetArray 0.0 6.75 2.59807621135332 4.0
  cgPow1 := presetArray 0.0 9.0 12.0 12.0
  cgPow2 := presetArray 0.0 6.0 4.0 6.0

/-- The angle force `exampleAngleForceNew` with the parameters of type 0 set to stiffness
2, equilibrium angle 11/7, coarse-grain type 1, epsilon 1, sigma 1 and cutoff 7/6. -/
def exampleAngleForce : CGCMMAngleForceCompute :=
  { exampleAngleForceNew with
    m_K := fun _ => 2
    m_t_0 := fun _ => 11 / 7
    m_eps := fun _ => 1
    m_sigma := fun _ => 1
    m_rcut := fun _ => 7 / 6
    m_cg_type := fun _ => 1 }

/-- Particle 0 at (3, 0, 0), particle 1 at the origin, particle 2 at (0, 4, 0); tags and
indices agree. -/
def exampleArrays : ParticleDataArraysConst where
  x := fun i => if i = 0 then 3 else 0
  y := fun i => if i = 2 then 4 else 0
  z := fun _ => 0
  rtag := fun tag => tag

/-- The cubic box from -10 to 10 on each axis. -/
def exampleBox : BoxDim := ⟨-10, 10, -10, 10, -10, 10⟩

/-- An execution configuration with the accelerator enabled. -/
def exampleExecConf : ExecutionConfiguration := ⟨true, true⟩

/-- An NVE integrator of an empty group, with a profiler attached. -/
def exampleNVEEmpty : TwoStepNVEGPU where
  exec_conf := exampleExecConf
  m_group := ⟨[], 0⟩
  m_deltaT := 1 / 200
  m_limit := false
  m_limit_val := 0
  m_zero_force := false
  m_prof := true

/-- Device kernels that move every position and velocity, used only to evaluate the
definitions. -/
def exampleKernels : NVEKernels where
  gpu_nve_step_one := fun d _ _ _ dt _ _ _ =>
    { d with pos := fun i => ⟨(d.pos i).x + dt, (d.pos i).y, (d.pos i).z, (d.pos i).w⟩ }
  gpu_nve_step_two := fun d _ _ f dt _ _ _ =>
    { d with vel := fun i => ⟨(d.vel i).x + dt * (f i).x, (d.vel i).y, (d.vel i).z, (d.vel i).w⟩ }

/-- Device particle data with no event recorded yet. -/
def exampleDeviceData : DeviceParticleData where
  d_pdata := ⟨fun _ => ⟨1, 2, 3, 0⟩, fun _ => ⟨1, 0, 0, 1⟩, fun _ => ⟨0, 0, 0, 0⟩⟩
  net_force := fun _ => ⟨1, 1, 1, 0⟩
  box := exampleBox
  events := []

/-- The single angle of `exampleAngleData`. -/
def exampleAngle : Angle := ⟨0, 0, 1, 2⟩

/-- The angle force `exampleAngleForce` with the cutoff of type 0 widened to 6, so that
the 1-3 distance 5 of `exampleArrays` is below it. -/
def exampleAngleForceWide : CGCMMAngleForceCompute :=
  { exampleAngleForce with m_rcut := fun _ => 6 }

/-- The angle force `exampleAngleForce` with the equilibrium angle of type 0 set to 1, so
that the angle of `exampleArrays` is away from it. -/
def exampleAngleForceBent : CGCMMAngleForceCompute :=
  { exampleAngleForce with m_t_0 := fun _ => 1 }

/-! ### `FIREEnergyMinimizer` -/

/-- The state of a `FIREEnergyMinimizer` object: the members declared in
`hoomd/md/FIREEnergyMinimizer.h`. -/
structure FIREEnergyMinimizer where
  m_group : ParticleGroup
  m_nmin : Nat
  m_n_since_negative : Nat
  m_n_since_start : Nat
  m_finc : Scalar
  m_fdec : Scalar
  m_alpha : Scalar
  m_alpha_start : Scalar
  m_falpha : Scalar
  m_ftol : Scalar
  m_etol : Scalar
  m_old_energy : Scalar
  m_converged : Bool
  m_deltaT_max : Scalar
  m_deltaT_set : Scalar
  m_run_minsteps : Nat
  m_was_reset : Bool

/-- `FIREEnergyMinimizer::getRequestedPDataFlags()`: a default-constructed bitset has
every bit clear, then the bit of the potential energy is set. -/
def FIREEnergyMinimizer.getRequestedPDataFlags (_self : FIREEnergyMinimizer) : PDataFlags :=
  Function.update (fun _ => false) pdata_flag.potential_energy true

/-- A minimizer in the middle of a search, used to evaluate the definitions. -/
def exampleMinimizer : FIREEnergyMinimizer where
  m_group := ⟨[0, 1], 2⟩
  m_nmin := 5
  m_n_since_negative := 3
  m_n_since_start := 17
  m_finc := 11 / 10
  m_fdec := 1 / 2
  m_alpha := 1 / 10
  m_alpha_start := 1 / 10
  m_falpha := 99 / 100
  m_ftol := 1 / 10
  m_etol := 1 / 1000
  m_old_energy := 4
  m_converged := false
  m_deltaT_max := 1 / 200
  m_deltaT_set := 1 / 200
  m_run_minsteps := 10
  m_was_reset := false

/-! ### The rotational kinetic energy in the words of the spec -/

/-- The body-frame angular momentum `s = ½·conj(q)·p` of particle `j`. -/
def bodyAngularMomentum (pdata : ParticleData) (j : Nat) : quat :=
  quat.mul (quat.smul (1 / 2) (conj (quat.ofScalar4 (pdata.orientation j))))
    (quat.ofScalar4 (pdata.angmom j))

/-- The rotational kinetic energy as the claim words it: half the sum, over the members
and the three principal axes, of `s_axis² / I_axis`, taken only for the axes whose moment
of inertia exceeds `EPSILON`. -/
def specKeRotExceeds (EPSILON : Scalar) (pdata : ParticleData) (members : List Nat) : Scalar :=
  (members.map (fun j =>
    (if (pdata.inertia j).x > EPSILON then
        (bodyAngularMomentum pdata j).v.x * (bodyAngularMomentum pdata j).v.x
          / (pdata.inertia j).x else 0)
    + (if (pdata.inertia j).y > EPSILON then
        (bodyAngularMomentum pdata j).v.y * (bodyAngularMomentum pdata j).v.y
          / (pdata.inertia j).y else 0)
    + (if (pdata.inertia j).z > EPSILON then
        (bodyAngularMomentum pdata j).v.z * (bodyAngularMomentum pdata j).v.z
          / (pdata.inertia j).z else 0))).sum / 2

/-- The same sum taken for the axes whose moment of inertia is at least `EPSILON`. -/
def specKeRotAtLeast (EPSILON : Scalar) (pdata : ParticleData) (members : List Nat) : Scalar :=
  (members.map (fun j =>
    (if (pdata.inertia j).x ≥ EPSILON then
        (bodyAngularMomentum pdata j).v.x * (bodyAngularMomentum pdata j).v.x
          / (pdata.inertia j).x else 0)
    + (if (pdata.inertia j).y ≥ EPSILON then
        (bodyAngularMomentum pdata j).v.y * (bodyAngularMomentum pdata j).v.y
          / (pdata.inertia j).y else 0)
    + (if (pdata.inertia j).z ≥ EPSILON then
        (bodyAngularMomentum pdata j).v.z * (bodyAngularMomentum pdata j).v.z
          / (pdata.inertia j).z else 0))).sum / 2

/-- The system `exampleSysdef` with the moment of inertia about the first axis equal to
`exampleEpsilon`, neither above nor below it. -/
def exampleSysdefThinAxis : SystemDefinition :=
  { exampleSysdef with
    pdata := { exampleSysdef.pdata with inertia := fun _ => ⟨1 / 1000000, 1, 1⟩ } }

/-! ### What one angle adds to one entry of the buffers -/

/-- The `x` component that the angle with locals `t` adds to the force of particle `j`:
the term of `a` when `j` is `idx_a`, of `b` when `j` is `idx_b`, of `c` when `j` is
`idx_c`. -/
def forceTermX (t : AngleLocals) (j : Nat) : Scalar :=
  (if j = t.idx_a then t.fab0 + t.fac * t.dxac else 0)
  + (if j = t.idx_b then -(t.fab0 + t.fcb0) else 0)
  + (if j = t.idx_c then t.fcb0 - t.fac * t.dxac else 0)

/-- The `y` component that the angle adds to the force of particle `j`. -/
def forceTermY (t : AngleLocals) (j : Nat) : Scalar :=
  (if j = t.idx_a then t.fab1 + t.fac * t.dyac else 0)
  + (if j = t.idx_b then -(t.fab1 + t.fcb1) else 0)
  + (if j = t.idx_c then t.fcb1 - t.fac * t.dyac else 0)

/-- The `z` component that the angle adds to the force of particle `j`. -/
def forceTermZ (t : AngleLocals) (j : Nat) : Scalar :=
  (if j = t.idx_a then t.fab2 + t.fac * t.dzac else 0)
  + (if j = t.idx_b then -(t.fab2 + t.fcb2) else 0)
  + (if j = t.idx_c then t.fcb2 - t.fac * t.dzac else 0)

/-- The energy that the angle adds to particle `j`. -/
def energyTerm (t : AngleLocals) (j : Nat) : Scalar :=
  (if j = t.idx_a then t.angle_eng else 0) + (if j = t.idx_b then t.angle_eng else 0)
  + (if j = t.idx_c then t.angle_eng else 0)

/-- The virial that the angle adds to particle `j`. -/
def virialTerm (t : AngleLocals) (j : Nat) : Scalar :=
  (if j = t.idx_a then t.angle_virial else 0) + (if j = t.idx_b then t.angle_virial else 0)
  + (if j = t.idx_c then t.angle_virial else 0)

/-- The sum of one force component over the particles `0 … N-1`. -/
def totalOver (N : Nat) (component : Nat → Scalar) : Scalar :=
  Finset.sum (Finset.range N) component

/-! ### The assertions of `computeForces` -/

/-- The assertion of line 238 on the box. -/
def boxAssertion (box : BoxDim) : Bool :=
  decide (box.xhi > box.xlo ∧ box.yhi > box.ylo ∧ box.zhi > box.zlo)

/-- Particle `i` lies inside the box: `lo ≤ position < hi` on each axis. -/
def insideBox (box : BoxDim) (arrays : ParticleDataArraysConst) (i : Nat) : Bool :=
  decide ((box.xlo ≤ arrays.x i ∧ arrays.x i < box.xhi)
    ∧ (box.ylo ≤ arrays.y i ∧ arrays.y i < box.yhi)
    ∧ (box.zlo ≤ arrays.z i ∧ arrays.z i < box.zhi))

/-- The three assertions of lines 340-342 on the wrapped displacements. -/
def sanityAssertions (box : BoxDim) (t : AngleLocals) : Bool :=
  decide (((t.dxab ≥ box.xlo ∧ t.dxab < box.xhi) ∧ (t.dxcb ≥ box.xlo ∧ t.dxcb < box.xhi)
      ∧ (t.dxac ≥ box.xlo ∧ t.dxac < box.xhi))
    ∧ ((t.dyab ≥ box.ylo ∧ t.dyab < box.yhi) ∧ (t.dycb ≥ box.ylo ∧ t.dycb < box.yhi)
      ∧ (t.dyac ≥ box.ylo ∧ t.dyac < box.yhi))
    ∧ ((t.dzab ≥ box.zlo ∧ t.dzab < box.zhi) ∧ (t.dzcb ≥ box.zlo ∧ t.dzcb < box.zhi)
      ∧ (t.dzac ≥ box.zlo ∧ t.dzac < box.zhi)))

/-- The cubic box from 0 to 10 on each axis. -/
def examplePositiveBox : BoxDim := ⟨0, 10, 0, 10, 0, 10⟩

/-- Particle `i` at `(i + 1, i + 1, i + 1)`; tags and indices agree. -/
def exampleArraysDiagonal : ParticleDataArraysConst where
  x := fun i => (i : Scalar) + 1
  y := fun i => (i : Scalar) + 1
  z := fun i => (i : Scalar) + 1
  rtag := fun tag => tag

/-- The angle force `exampleAngleForceBent` whose buffers hold 1 in every entry before
the call. -/
def exampleAngleForcePrior : CGCMMAngleForceCompute :=
  { exampleAngleForceBent with toForceCompute := ⟨fun _ => ⟨1, 1, 1, 1⟩, fun _ => 1⟩ }

/-! ### `ClockSource::formatHMS`

The embedding of `libhoomd/utils/ClockSource.cc`. Integers of C++ are integers reduced
into the range of their type after each operation; division truncates toward zero. -/

/-- The value of an integer expression stored as `int`: reduced into the range of 32-bit
two's complement. -/
def toInt32 (v : Int) : Int := (v + 2147483648) % 4294967296 - 2147483648

/-- The value of an integer expression stored as `int64_t`: reduced into the range of
64-bit two's complement. -/
def toInt64 (v : Int) : Int :=
  (v + 9223372036854775808) % 18446744073709551616 - 9223372036854775808

/-- The value `v` fits the type `int`. -/
def inInt32 (v : Int) : Bool := decide (-2147483648 ≤ v ∧ v ≤ 2147483647)

/-- The value `v` fits the type `int64_t`. -/
def inInt64 (v : Int) : Bool := decide (-9223372036854775808 ≤ v ∧ v ≤ 9223372036854775807)

/-- The three local variables `hours`, `minutes` and `seconds` of `formatHMS`. -/
structure HMS where
  hours : Int
  minutes : Int
  seconds : Int
deriving DecidableEq

/-- The first half of `ClockSource::formatHMS(t)`: the separation into hours, minutes
and seconds, every operation in the type the source gives it. -/
def ClockSource.splitHMS (t : Int) : HMS :=
  let hours := toInt32 (Int.tdiv t (toInt64 (3600 * 1000000000)))
  let t1 := toInt64 (t - toInt64 (toInt64 (hours * 3600) * 1000000000))
  let minutes := toInt32 (Int.tdiv t1 (toInt64 (60 * 1000000000)))
  let t2 := toInt64 (t1 - toInt64 (toInt64 (minutes * 60) * 1000000000))
  let seconds := toInt32 (Int.tdiv t2 1000000000)
  ⟨hours, minutes, seconds⟩

/-- Every intermediate value of the separation, computed in unbounded integers, fits the
type the source gives it: no operation overflows. -/
def ClockSource.noOverflow (t : Int) : Bool :=
  let hours := Int.tdiv t (3600 * 1000000000)
  let t1 := t - hours * 3600 * 1000000000
  let minutes := Int.tdiv t1 (60 * 1000000000)
  let t2 := t1 - minutes * 60 * 1000000000
  let seconds := Int.tdiv t2 1000000000
  inInt64 (3600 * 1000000000) && inInt32 hours && inInt64 (hours * 3600)
    && inInt64 (hours * 3600 * 1000000000) && inInt64 t1
    && inInt64 (60 * 1000000000) && inInt32 minutes && inInt64 (minutes * 60)
    && inInt64 (minutes * 60 * 1000000000) && inInt64 t2 && inInt32 seconds

/-- The characters that `operator<<` writes for an `int`: a minus sign when negative,
then the decimal digits. -/
def showInt (n : Int) : String :=
  if n < 0 then "-" ++ Nat.repr n.natAbs else Nat.repr n.toNat

/-- The effect of `setfill('0') << setw(2)` on the next field: the text is padded on
the left with `0` to two characters and never cut. -/
def setw2fill0 (s : String) : String :=
  String.mk (List.replicate (2 - s.length) '0') ++ s

/-- `ClockSource::formatHMS(t)`. -/
def ClockSource.formatHMS (t : Int) : String :=
  setw2fill0 (showInt (ClockSource.splitHMS t).hours) ++ ":"
    ++ setw2fill0 (showInt (ClockSource.splitHMS t).minutes) ++ ":"
    ++ setw2fill0 (showInt (ClockSource.splitHMS t).seconds)

/-! ### The clamp and the floor of `computeForces` where a divisor is zero

Rational arithmetic gives `x / 0 = 0`, the floating-point arithmetic of the source gives
an infinity or a NaN there, and every comparison with a NaN is false. The definitions
below embed lines 356-364 of `CGCMMAngleForceCompute.cc` once more with these values made
explicit; `angleLocals` agrees with them wherever the divisor `rab * rcb` is not zero. -/

/-- A floating-point value: a number, an infinity or a NaN. Rounding and the sign of zero
are not modelled. -/
inductive IEEEValue where
  | finite (v : Scalar)
  | posInf
  | negInf
  | nan
  deriving DecidableEq

/-- The quotient `a / b` of two numbers: `0 / 0` is a NaN, another number over zero is an
infinity of its sign (the divisors here are products of square roots, so the zero is
`+0`). -/
def ieeeDiv (a b : Scalar) : IEEEValue :=
  if b = 0 then
    if a = 0 then IEEEValue.nan
    else if a > 0 then IEEEValue.posInf
    else IEEEValue.negInf
  else IEEEValue.finite (a / b)

/-- The comparison `c > bound` for a number `bound`; false for a NaN. -/
def IEEEValue.gt (c : IEEEValue) (bound : Scalar) : Bool :=
  match c with
  | IEEEValue.finite v => decide (v > bound)
  | IEEEValue.posInf => true
  | IEEEValue.negInf => false
  | IEEEValue.nan => false

/-- The comparison `c < bound` for a number `bound`; false for a NaN. -/
def IEEEValue.lt (c : IEEEValue) (bound : Scalar) : Bool :=
  match c with
  | IEEEValue.finite v => decide (v < bound)
  | IEEEValue.posInf => false
  | IEEEValue.negInf => true
  | IEEEValue.nan => false

/-- The raw cosine, `c_abbc = dxab*dxcb + dyab*dycb + dzab*dzcb; c_abbc /= rab*rcb;`. -/
def rawCosineIEEE (t : AngleLocals) : IEEEValue :=
  ieeeDiv (t.dxab * t.dxcb + t.dyab * t.dycb + t.dzab * t.dzcb) (t.rab * t.rcb)

/-- The two clamps `if (c_abbc > 1.0) c_abbc = 1.0; if (c_abbc < -1.0) c_abbc = -1.0;`:
the value that is passed to `acos`. -/
def clampedCosineIEEE (raw : IEEEValue) : IEEEValue :=
  let c1 := if raw.gt 1 then IEEEValue.finite 1 else raw
  if c1.lt (-1) then IEEEValue.finite (-1) else c1

/-- The sine after the floor, the divisor of the inversion:
`s_abbc = sqrt(1.0 - c_abbc*c_abbc); if (s_abbc < SMALL) s_abbc = SMALL;`. For a cosine
that is not a number `1.0 - c_abbc*c_abbc` is a NaN or minus infinity, its square root is
a NaN, and the floor leaves the NaN, as `NaN < SMALL` is false. -/
def flooredSineIEEE (libm : MathFunctions) (c : IEEEValue) : IEEEValue :=
  match c with
  | IEEEValue.finite v =>
    IEEEValue.finite
      (if libm.sqrt (1 - v * v) < SMALL then SMALL else libm.sqrt (1 - v * v))
  | _ => IEEEValue.nan

/-- The inversion `s_abbc = 1.0/s_abbc;`. -/
def invertedSineIEEE (libm : MathFunctions) (c : IEEEValue) : IEEEValue :=
  match flooredSineIEEE libm c with
  | IEEEValue.finite s => ieeeDiv 1 s
  | _ => IEEEValue.nan

/-- Particles 0 and 1 both at the origin, particle 2 at (0, 4, 0); tags and indices
agree. -/
def exampleArraysCoincident : ParticleDataArraysConst where
  x := fun _ => 0
  y := fun i => if i = 2 then 4 else 0
  z := fun _ => 0
  rtag := fun tag => tag

/-! ## Auxiliary facts -/

theorem string_append_left_inj (a b s : String) : a ++ s = b ++ s ↔ a = b := by
  constructor
  · intro h
    have hd := congrArg String.data h
    simp only [String.data_append, List.append_cancel_right_eq] at hd
    exact String.ext hd
  · intro h
    rw [h]

theorem ctor_logname_list (group : ParticleGroup) (suffix : String) :
    (ComputeThermo.ctor group suffix).m_logname_list
      = specQuantityNames.map (fun base => base ++ suffix) := rfl

theorem computeProperties_logname_list (EPSILON : Scalar) (sysdef : SystemDefinition)
    (self : ComputeThermo) :
    (self.computeProperties EPSILON sysdef).m_logname_list = self.m_logname_list := by
  unfold ComputeThermo.computeProperties
  split <;> rfl

theorem compute_logname_list (EPSILON : Scalar) (shouldCompute : Nat → Bool)
    (sysdef : SystemDefinition) (self : ComputeThermo) (timestep : Nat) :
    (self.compute EPSILON shouldCompute sysdef timestep).m_logname_list
      = self.m_logname_list := by
  unfold ComputeThermo.compute
  split
  · rfl
  · exact computeProperties_logname_list EPSILON sysdef self

theorem specQuantityNames_nodup : specQuantityNames.Nodup := by
  decide

theorem quantityKeys_nodup (suffix : String) :
    (specQuantityNames.map (fun base => base ++ suffix)).Nodup := by
  apply List.Nodup.map _ specQuantityNames_nodup
  intro a b hab
  exact (string_append_left_inj a b suffix).mp hab

/-- A query that differs from all 18 entries of the key list falls through the if-chain
to the final `else`. -/
theorem logValueOf_of_not_mem (g : ThermoGetters) (self : ComputeThermo) (q : String)
    (k0 k1 k2 k3 k4 k5 k6 k7 k8 k9 k10 k11 k12 k13 k14 k15 k16 k17 : String)
    (h : self.m_logname_list = [k0, k1, k2, k3, k4, k5, k6, k7, k8,
        k9, k10, k11, k12, k13, k14, k15, k16, k17])
    (hq : q ∉ [k0, k1, k2, k3, k4, k5, k6, k7, k8,
        k9, k10, k11, k12, k13, k14, k15, k16, k17]) :
    self.logValueOf g q = .error (logValueError q) := by
  unfold ComputeThermo.logValueOf
  rw [h]
  simp only [List.getElem?_cons_zero, List.getElem?_cons_succ, Option.some.injEq]
  simp only [List.mem_cons, List.mem_singleton, List.mem_nil_iff, not_or, or_false] at hq
  obtain ⟨h0, h1, h2, h3, h4, h5, h6, h7, h8, h9, h10, h11, h12, h13, h14, h15, h16, h17⟩ := hq
  rw [if_neg h0, if_neg h1, if_neg h2, if_neg h3, if_neg h4, if_neg h5, if_neg h6, if_neg h7,
    if_neg h8, if_neg h9, if_neg h10, if_neg h11, if_neg h12, if_neg h13, if_neg h14,
    if_neg h15, if_neg h16, if_neg h17]

/-- A query equal to one of the 18 entries of the key list stops at a branch that
returns a value. -/
theorem logValueOf_of_mem (g : ThermoGetters) (self : ComputeThermo) (q : String)
    (k0 k1 k2 k3 k4 k5 k6 k7 k8 k9 k10 k11 k12 k13 k14 k15 k16 k17 : String)
    (h : self.m_logname_list = [k0, k1, k2, k3, k4, k5, k6, k7, k8,
        k9, k10, k11, k12, k13, k14, k15, k16, k17])
    (hq : q ∈ [k0, k1, k2, k3, k4, k5, k6, k7, k8,
        k9, k10, k11, k12, k13, k14, k15, k16, k17]) :
    ∃ v, self.logValueOf g q = .ok v := by
  unfold ComputeThermo.logValueOf
  rw [h]
  simp only [List.getElem?_cons_zero, List.getElem?_cons_succ, Option.some.injEq]
  simp only [List.mem_cons, List.mem_singleton, List.mem_nil_iff, or_false] at hq
  by_cases h0 : q = k0
  · exact ⟨_, if_pos h0⟩
  rw [if_neg h0]
  by_cases h1 : q = k1
  · exact ⟨_, if_pos h1⟩
  rw [if_neg h1]
  by_cases h2 : q = k2
  · exact ⟨_, if_pos h2⟩
  rw [if_neg h2]
  by_cases h3 : q = k3
  · exact ⟨_, if_pos h3⟩
  rw [if_neg h3]
  by_cases h4 : q = k4
  · exact ⟨_, if_pos h4⟩
  rw [if_neg h4]
  by_cases h5 : q = k5
  · exact ⟨_, if_pos h5⟩
  rw [if_neg h5]
  by_cases h6 : q = k6
  · exact ⟨_, if_pos h6⟩
  rw [if_neg h6]
  by_cases h7 : q = k7
  · exact ⟨_, if_pos h7⟩
  rw [if_neg h7]
  by_cases h8 : q = k8
  · exact ⟨_, if_pos h8⟩
  rw [if_neg h8]
  by_cases h9 : q = k9
  · exact ⟨_, if_pos h9⟩
  rw [if_neg h9]
  by_cases h10 : q = k10
  · exact ⟨_, if_pos h10⟩
  rw [if_neg h10]
  by_cases h11 : q = k11
  · exact ⟨_, if_pos h11⟩
  rw [if_neg h11]
  by_cases h12 : q = k12
  · exact ⟨_, if_pos h12⟩
  rw [if_neg h12]
  by_cases h13 : q = k13
  · exact ⟨_, if_pos h13⟩
  rw [if_neg h13]
  by_cases h14 : q = k14
  · exact ⟨_, if_pos h14⟩
  rw [if_neg h14]
  by_cases h15 : q = k15
  · exact ⟨_, if_pos h15⟩
  rw [if_neg h15]
  by_cases h16 : q = k16
  · exact ⟨_, if_pos h16⟩
  rw [if_neg h16]
  by_cases h17 : q = k17
  · exact ⟨_, if_pos h17⟩
  rw [if_neg h17]
  rcases hq with h | h | h | h | h | h | h | h | h | h | h | h | h | h | h | h | h | h <;>
    contradiction

/-- With the key list built by the constructor, the `i`-th key stops at the `i`-th
branch of the if-chain. -/
theorem logValueOf_key (g : ThermoGetters) (self : ComputeThermo) (suffix : String)
    (h : self.m_logname_list = specQuantityNames.map (fun base => base ++ suffix))
    (i : Fin 18) :
    self.logValueOf g ((specQuantityNames.map (fun base => base ++ suffix)).getD i "")
      = .ok ((self.branchValues g).getD i 0) := by
  unfold ComputeThermo.logValueOf
  rw [h]
  simp only [specQuantityNames, List.map, List.getElem?_cons_zero, List.getElem?_cons_succ,
    Option.some.injEq, ComputeThermo.branchValues]
  fin_cases i <;>
    simp only [List.getD_cons_zero, List.getD_cons_succ, Fin.zero_eta, Fin.mk_one,
      Fin.reduceFinMk, Fin.val_zero, Fin.val_one, Fin.val_two, Fin.isValue] <;>
    repeat (first
      | (rw [if_neg]; swap; · (rw [string_append_left_inj]; decide))
      | rw [if_pos True.intro])

/-- The trace of the kinetic tensor accumulators follows the direct `m·|v|²` sum. -/
theorem kineticTensor_trace_foldl (pdata : ParticleData) (members : List Nat) :
    ∀ (acc : SymTensor) (e : Scalar), acc.xx + acc.yy + acc.zz = e →
      (members.foldl (kineticTensorStep pdata) acc).xx
        + (members.foldl (kineticTensorStep pdata) acc).yy
        + (members.foldl (kineticTensorStep pdata) acc).zz
        = members.foldl (keTransStep pdata) e := by
  induction members with
  | nil =>
    intro acc e h
    simpa using h
  | cons j rest ih =>
    intro acc e h
    rw [List.foldl_cons, List.foldl_cons]
    apply ih
    simp only [kineticTensorStep, keTransStep]
    rw [← h]
    ring

/-- The direct sum depends on the velocity array only. -/
theorem keTransStep_congr (pdata1 pdata2 : ParticleData)
    (hvel : pdata1.velocities = pdata2.velocities) :
    keTransStep pdata1 = keTransStep pdata2 := by
  funext e j
  simp only [keTransStep, hvel]

/-- Particles at rest leave the kinetic tensor accumulators where they are. -/
theorem kineticTensor_foldl_at_rest (pdata : ParticleData) (members : List Nat)
    (hrest : ∀ j ∈ members, (pdata.velocities j).x = 0 ∧ (pdata.velocities j).y = 0
      ∧ (pdata.velocities j).z = 0) :
    ∀ acc : SymTensor, members.foldl (kineticTensorStep pdata) acc = acc := by
  induction members with
  | nil => intro acc; rfl
  | cons j rest ih =>
    intro acc
    obtain ⟨hx, hy, hz⟩ := hrest j (List.mem_cons_self j rest)
    rw [List.foldl_cons, ih (fun k hk => hrest k (List.mem_cons_of_mem j hk))]
    simp [kineticTensorStep, hx, hy, hz]

/-- Particles at rest leave the direct kinetic energy sum where it is. -/
theorem keTrans_foldl_at_rest (pdata : ParticleData) (members : List Nat)
    (hrest : ∀ j ∈ members, (pdata.velocities j).x = 0 ∧ (pdata.velocities j).y = 0
      ∧ (pdata.velocities j).z = 0) :
    ∀ e : Scalar, members.foldl (keTransStep pdata) e = e := by
  induction members with
  | nil => intro e; rfl
  | cons j rest ih =>
    intro e
    obtain ⟨hx, hy, hz⟩ := hrest j (List.mem_cons_self j rest)
    rw [List.foldl_cons, ih (fun k hk => hrest k (List.mem_cons_of_mem j hk))]
    simp [keTransStep, hx, hy, hz]

/-- A particle without angular momentum adds nothing to the rotational sum. -/
theorem keRotStep_no_angmom (EPSILON : Scalar) (pdata : ParticleData) (ke : Scalar) (j : Nat)
    (hp : pdata.angmom j = ⟨0, 0, 0, 0⟩) : keRotStep EPSILON pdata ke j = ke := by
  simp [keRotStep, hp, quat.mul, quat.smul, quat.ofScalar4, conj]

/-- Particles without angular momentum leave the rotational sum where it is. -/
theorem keRot_foldl_no_angmom (EPSILON : Scalar) (pdata : ParticleData) (members : List Nat)
    (hp : ∀ j ∈ members, pdata.angmom j = ⟨0, 0, 0, 0⟩) :
    ∀ ke : Scalar, members.foldl (keRotStep EPSILON pdata) ke = ke := by
  induction members with
  | nil => intro ke; rfl
  | cons j rest ih =>
    intro ke
    rw [List.foldl_cons, ih (fun k hk => hp k (List.mem_cons_of_mem j hk)),
      keRotStep_no_angmom EPSILON pdata ke j (hp j (List.mem_cons_self j rest))]

/-- The early return of `computeProperties` for a group without members. -/
theorem computeProperties_of_empty (EPSILON : Scalar) (sysdef : SystemDefinition)
    (self : ComputeThermo) (hempty : self.m_group.getNumMembersGlobal = 0) :
    self.computeProperties EPSILON sysdef = self := by
  unfold ComputeThermo.computeProperties
  rw [if_pos hempty]

/-- The slots written by `computeProperties` for a group that is not empty. -/
theorem computeProperties_of_nonempty (EPSILON : Scalar) (sysdef : SystemDefinition)
    (self : ComputeThermo) (hne : self.m_group.getNumMembersGlobal ≠ 0) :
    (self.computeProperties EPSILON sysdef).m_properties
      = { translational_kinetic_energy := keTransTotal sysdef.pdata self.m_group.members
          rotational_kinetic_energy := keRotTotal EPSILON sysdef.pdata self.m_group.members
          potential_energy := peTotal sysdef.pdata self.m_group.members
          pressure :=
            (2 * keTransTotal sysdef.pdata self.m_group.members / (sysdef.n_dimensions : Scalar)
              + correctedVirial sysdef self.m_group.members) / boxVolume sysdef
          pressure_xx := ((pressureKinetic sysdef.pdata self.m_group.members).xx
            + (virialTensor sysdef.pdata self.m_group.members).xx) / boxVolume sysdef
          pressure_xy := ((pressureKinetic sysdef.pdata self.m_group.members).xy
            + (virialTensor sysdef.pdata self.m_group.members).xy) / boxVolume sysdef
          pressure_xz := ((pressureKinetic sysdef.pdata self.m_group.members).xz
            + (virialTensor sysdef.pdata self.m_group.members).xz) / boxVolume sysdef
          pressure_yy := ((pressureKinetic sysdef.pdata self.m_group.members).yy
            + (virialTensor sysdef.pdata self.m_group.members).yy) / boxVolume sysdef
          pressure_yz := ((pressureKinetic sysdef.pdata self.m_group.members).yz
            + (virialTensor sysdef.pdata self.m_group.members).yz) / boxVolume sysdef
          pressure_zz := ((pressureKinetic sysdef.pdata self.m_group.members).zz
            + (virialTensor sysdef.pdata self.m_group.members).zz) / boxVolume sysdef } := by
  unfold ComputeThermo.computeProperties
  rw [if_neg hne]

/-- The two translational kinetic energy paths give the same total. -/
theorem keTransTotal_paths (pdata1 pdata2 : ParticleData) (members : List Nat)
    (hvel : pdata1.velocities = pdata2.velocities)
    (hon : pdata1.flags pdata_flag.pressure_tensor = true)
    (hoff : pdata2.flags pdata_flag.pressure_tensor = false) :
    keTransTotal pdata1 members = keTransTotal pdata2 members := by
  unfold keTransTotal pressureKinetic
  rw [if_pos hon, if_pos hon]
  simp only [hoff, Bool.false_eq_true, if_false]
  rw [kineticTensor_trace_foldl pdata1 members ⟨0, 0, 0, 0, 0, 0⟩ 0 (by norm_num),
    keTransStep_congr pdata1 pdata2 hvel]
  ring

/-- The guard of `reduceProperties`: an array that is already reduced is left alone. -/
theorem reduceProperties_of_reduced (others : List ThermoProperties) (self : ComputeThermo)
    (h : self.m_properties_reduced = true) : self.reduceProperties others = self := by
  unfold ComputeThermo.reduceProperties
  rw [if_pos h]

/-- A third of the trace of the virial tensor accumulators follows the isotropic sum. -/
theorem virialTensor_trace_foldl (pdata1 pdata2 : ParticleData)
    (hv : pdata1.net_virial = pdata2.net_virial)
    (hpitch : pdata1.net_virial_pitch = pdata2.net_virial_pitch) (members : List Nat) :
    ∀ (acc : SymTensor) (W : Scalar), 1 / 3 * (acc.xx + acc.yy + acc.zz) = W →
      1 / 3 * ((members.foldl (virialTensorStep pdata1) acc).xx
          + (members.foldl (virialTensorStep pdata1) acc).yy
          + (members.foldl (virialTensorStep pdata1) acc).zz)
        = members.foldl (isotropicVirialStep pdata2) W := by
  induction members with
  | nil =>
    intro acc W h
    simpa using h
  | cons j rest ih =>
    intro acc W h
    rw [List.foldl_cons, List.foldl_cons]
    apply ih
    simp only [virialTensorStep, isotropicVirialStep, hv, hpitch]
    rw [← h]
    ring

/-- The isotropic sum started from `W` is the sum started from 0, plus `W`. -/
theorem isotropicVirial_foldl_shift (pdata : ParticleData) (members : List Nat) :
    ∀ W : Scalar, members.foldl (isotropicVirialStep pdata) W
      = members.foldl (isotropicVirialStep pdata) 0 + W := by
  induction members with
  | nil =>
    intro W
    simp
  | cons j rest ih =>
    intro W
    rw [List.foldl_cons, List.foldl_cons, ih (isotropicVirialStep pdata W j),
      ih (isotropicVirialStep pdata 0 j)]
    simp only [isotropicVirialStep]
    ring

/-- The value of `W` on the two paths that request the isotropic virial: the path
through the pressure tensor exceeds the isotropic-only path by a third of the trace of
the external virial. -/
theorem isotropicVirial_paths (pdataT pdataI : ParticleData) (members : List Nat)
    (hv : pdataT.net_virial = pdataI.net_virial)
    (hpitch : pdataT.net_virial_pitch = pdataI.net_virial_pitch)
    (hTt : pdataT.flags pdata_flag.pressure_tensor = true)
    (hTi : pdataT.flags pdata_flag.isotropic_virial = true)
    (hIt : pdataI.flags pdata_flag.pressure_tensor = false)
    (hIi : pdataI.flags pdata_flag.isotropic_virial = true) :
    isotropicVirial pdataT members
      = isotropicVirial pdataI members
        + 1 / 3 * (pdataT.external_virial 0 + pdataT.external_virial 3
            + pdataT.external_virial 5) := by
  unfold isotropicVirial virialTensor
  simp only [hTt, hTi, hIt, hIi, if_true, Bool.false_eq_true, if_false]
  rw [virialTensor_trace_foldl pdataT pdataI hv hpitch members _ _ rfl,
    isotropicVirial_foldl_shift pdataI members _]

/-- The force buffer after one angle, for three distinct particle indices. -/
theorem accumulateAngle_force (bufs : ForceCompute) (t : AngleLocals)
    (hab : t.idx_a ≠ t.idx_b) (hbc : t.idx_b ≠ t.idx_c) (hac : t.idx_a ≠ t.idx_c) :
    (accumulateAngle bufs t).m_force t.idx_a
        = ⟨(bufs.m_force t.idx_a).x + (t.fab0 + t.fac * t.dxac),
           (bufs.m_force t.idx_a).y + (t.fab1 + t.fac * t.dyac),
           (bufs.m_force t.idx_a).z + (t.fab2 + t.fac * t.dzac),
           (bufs.m_force t.idx_a).w + t.angle_eng⟩
    ∧ (accumulateAngle bufs t).m_force t.idx_b
        = ⟨(bufs.m_force t.idx_b).x - (t.fab0 + t.fcb0),
           (bufs.m_force t.idx_b).y - (t.fab1 + t.fcb1),
           (bufs.m_force t.idx_b).z - (t.fab2 + t.fcb2),
           (bufs.m_force t.idx_b).w + t.angle_eng⟩
    ∧ (accumulateAngle bufs t).m_force t.idx_c
        = ⟨(bufs.m_force t.idx_c).x + (t.fcb0 - t.fac * t.dxac),
           (bufs.m_force t.idx_c).y + (t.fcb1 - t.fac * t.dyac),
           (bufs.m_force t.idx_c).z + (t.fcb2 - t.fac * t.dzac),
           (bufs.m_force t.idx_c).w + t.angle_eng⟩ := by
  unfold accumulateAngle
  refine ⟨?_, ?_, ?_⟩
  · simp [Function.update_noteq hab, Function.update_noteq hac]
  · simp [Function.update_noteq hab.symm, Function.update_noteq hbc]
  · simp [Function.update_noteq hac.symm, Function.update_noteq hbc.symm]

/-- The virial buffer after one angle, for three distinct particle indices. -/
theorem accumulateAngle_virial (bufs : ForceCompute) (t : AngleLocals)
    (hab : t.idx_a ≠ t.idx_b) (hbc : t.idx_b ≠ t.idx_c) (hac : t.idx_a ≠ t.idx_c) :
    (accumulateAngle bufs t).m_virial t.idx_a = bufs.m_virial t.idx_a + t.angle_virial
    ∧ (accumulateAngle bufs t).m_virial t.idx_b = bufs.m_virial t.idx_b + t.angle_virial
    ∧ (accumulateAngle bufs t).m_virial t.idx_c = bufs.m_virial t.idx_c + t.angle_virial := by
  unfold accumulateAngle
  refine ⟨?_, ?_, ?_⟩
  · simp [Function.update_noteq hab, Function.update_noteq hac]
  · simp [Function.update_noteq hab.symm, Function.update_noteq hbc]
  · simp [Function.update_noteq hac.symm, Function.update_noteq hbc.symm]

/-- The buffers that `computeForces` leaves when the table holds a single angle. -/
theorem computeForces_single (libm : MathFunctions) (arrays : ParticleDataArraysConst)
    (box : BoxDim) (self : CGCMMAngleForceCompute) (timestep : Nat) (angle : Angle)
    (hangles : self.m_CGCMMAngle_data.angles = [angle]) :
    (self.computeForces libm arrays box timestep).toForceCompute
      = accumulateAngle zeroedBuffers (self.angleLocals libm arrays box angle) := by
  unfold CGCMMAngleForceCompute.computeForces
  simp only [hangles, List.foldl_cons, List.foldl_nil]

/-- The harmonic force vanishes when the angle is at its equilibrium value. -/
theorem angleLocals_harmonic_zero (libm : MathFunctions) (self : CGCMMAngleForceCompute)
    (arrays : ParticleDataArraysConst) (box : BoxDim) (angle : Angle)
    (heq : libm.acos (self.angleLocals libm arrays box angle).c_abbc
      = self.m_t_0 angle.type) :
    (self.angleLocals libm arrays box angle).fab0 = 0
    ∧ (self.angleLocals libm arrays box angle).fab1 = 0
    ∧ (self.angleLocals libm arrays box angle).fab2 = 0
    ∧ (self.angleLocals libm arrays box angle).fcb0 = 0
    ∧ (self.angleLocals libm arrays box angle).fcb1 = 0
    ∧ (self.angleLocals libm arrays box angle).fcb2 = 0 := by
  have hdth : (self.angleLocals libm arrays box angle).dth = 0 := by
    show libm.acos (self.angleLocals libm arrays box angle).c_abbc
      - self.m_t_0 angle.type = 0
    rw [heq, sub_self]
  have htk : (self.angleLocals libm arrays box angle).tk = 0 := by
    show self.m_K angle.type * (self.angleLocals libm arrays box angle).dth = 0
    rw [hdth, mul_zero]
  have hform : ∀ (s c r q u v : Scalar),
      -1 * (self.angleLocals libm arrays box angle).tk * s * c / r * u
        + -(-1 * (self.angleLocals libm arrays box angle).tk * s) / q * v = 0 := by
    intro s c r q u v
    rw [htk]
    simp
  exact ⟨hform _ _ _ _ _ _, hform _ _ _ _ _ _, hform _ _ _ _ _ _, hform _ _ _ _ _ _,
    hform _ _ _ _ _ _, hform _ _ _ _ _ _⟩

/-- The 1-3 repulsion vanishes when the 1-3 distance is not below the cutoff. -/
theorem angleLocals_no_repulsion (libm : MathFunctions) (self : CGCMMAngleForceCompute)
    (arrays : ParticleDataArraysConst) (box : BoxDim) (angle : Angle)
    (hcut : ¬ (self.angleLocals libm arrays box angle).rac < self.m_rcut angle.type) :
    (self.angleLocals libm arrays box angle).fac = 0
    ∧ (self.angleLocals libm arrays box angle).eac = 0
    ∧ (self.angleLocals libm arrays box angle).vacX = 0
    ∧ (self.angleLocals libm arrays box angle).vacY = 0
    ∧ (self.angleLocals libm arrays box angle).vacZ = 0 :=
  ⟨if_neg hcut, if_neg hcut, if_neg hcut, if_neg hcut, if_neg hcut⟩

/-- The loop body reads the positions through their differences only. -/
theorem angleLocals_translate (libm : MathFunctions) (self : CGCMMAngleForceCompute)
    (arrays : ParticleDataArraysConst) (box : BoxDim) (tx ty tz : Scalar) (angle : Angle) :
    self.angleLocals libm (arrays.translate tx ty tz) box angle
      = self.angleLocals libm arrays box angle := by
  unfold CGCMMAngleForceCompute.angleLocals ParticleDataArraysConst.translate
  simp only [add_sub_add_right_eq_sub]

/-- The rotational loop started from `acc` is `acc` plus the sum of the axis terms of
the members, each axis counted when its moment of inertia is at least `EPSILON`. -/
theorem keRot_foldl_eq_sum (EPSILON : Scalar) (pdata : ParticleData) (members : List Nat) :
    ∀ acc : Scalar, members.foldl (keRotStep EPSILON pdata) acc
      = acc + (members.map (fun j =>
          (if (pdata.inertia j).x ≥ EPSILON then
              (bodyAngularMomentum pdata j).v.x * (bodyAngularMomentum pdata j).v.x
                / (pdata.inertia j).x else 0)
          + (if (pdata.inertia j).y ≥ EPSILON then
              (bodyAngularMomentum pdata j).v.y * (bodyAngularMomentum pdata j).v.y
                / (pdata.inertia j).y else 0)
          + (if (pdata.inertia j).z ≥ EPSILON then
              (bodyAngularMomentum pdata j).v.z * (bodyAngularMomentum pdata j).v.z
                / (pdata.inertia j).z else 0))).sum := by
  induction members with
  | nil =>
    intro acc
    simp
  | cons j rest ih =>
    intro acc
    rw [List.foldl_cons, ih, List.map_cons, List.sum_cons, ← add_assoc]
    congr 1
    unfold keRotStep bodyAngularMomentum
    by_cases hx : (pdata.inertia j).x ≥ EPSILON <;> by_cases hy : (pdata.inertia j).y ≥ EPSILON
      <;> by_cases hz : (pdata.inertia j).z ≥ EPSILON <;> simp only [hx, hy, hz, if_true, if_false]
      <;> ring

/-- What one angle adds to the entries of particle `j`, whether or not its three
particle indices are distinct. -/
theorem accumulateAngle_apply (bufs : ForceCompute) (t : AngleLocals) (j : Nat) :
    ((accumulateAngle bufs t).m_force j).x = (bufs.m_force j).x + forceTermX t j
    ∧ ((accumulateAngle bufs t).m_force j).y = (bufs.m_force j).y + forceTermY t j
    ∧ ((accumulateAngle bufs t).m_force j).z = (bufs.m_force j).z + forceTermZ t j
    ∧ ((accumulateAngle bufs t).m_force j).w = (bufs.m_force j).w + energyTerm t j
    ∧ (accumulateAngle bufs t).m_virial j = bufs.m_virial j + virialTerm t j := by
  unfold accumulateAngle forceTermX forceTermY forceTermZ energyTerm virialTerm
  simp only [Function.update_apply]
  by_cases ha : j = t.idx_a <;> by_cases hb : j = t.idx_b <;> by_cases hc : j = t.idx_c
  all_goals
    refine ⟨?_, ?_, ?_, ?_, ?_⟩ <;> split_ifs <;> simp_all <;> ring

/-- The entries of particle `j` after the loop over a list of angles started from
`bufs`: the entries of `bufs` plus the sum of what each angle adds. -/
theorem accumulate_foldl_apply (locals : Angle → AngleLocals) (angles : List Angle) (j : Nat) :
    ∀ bufs : ForceCompute,
      ((angles.foldl (fun acc angle => accumulateAngle acc (locals angle)) bufs).m_force j).x
          = (bufs.m_force j).x + (angles.map (fun angle => forceTermX (locals angle) j)).sum
      ∧ ((angles.foldl (fun acc angle => accumulateAngle acc (locals angle)) bufs).m_force j).y
          = (bufs.m_force j).y + (angles.map (fun angle => forceTermY (locals angle) j)).sum
      ∧ ((angles.foldl (fun acc angle => accumulateAngle acc (locals angle)) bufs).m_force j).z
          = (bufs.m_force j).z + (angles.map (fun angle => forceTermZ (locals angle) j)).sum
      ∧ ((angles.foldl (fun acc angle => accumulateAngle acc (locals angle)) bufs).m_force j).w
          = (bufs.m_force j).w + (angles.map (fun angle => energyTerm (locals angle) j)).sum
      ∧ (angles.foldl (fun acc angle => accumulateAngle acc (locals angle)) bufs).m_virial j
          = bufs.m_virial j + (angles.map (fun angle => virialTerm (locals angle) j)).sum := by
  induction angles with
  | nil =>
    intro bufs
    simp
  | cons angle rest ih =>
    intro bufs
    obtain ⟨hx, hy, hz, hw, hv⟩ := ih (accumulateAngle bufs (locals angle))
    obtain ⟨ax, ay, az, aw, av⟩ := accumulateAngle_apply bufs (locals angle) j
    simp only [List.foldl_cons, List.map_cons, List.sum_cons]
    rw [hx, hy, hz, hw, hv, ax, ay, az, aw, av]
    refine ⟨?_, ?_, ?_, ?_, ?_⟩ <;> ring

/-- A particle that is in no angle receives nothing from it. -/
theorem terms_of_not_involved (t : AngleLocals) (j : Nat)
    (ha : j ≠ t.idx_a) (hb : j ≠ t.idx_b) (hc : j ≠ t.idx_c) :
    forceTermX t j = 0 ∧ forceTermY t j = 0 ∧ forceTermZ t j = 0 ∧ energyTerm t j = 0
    ∧ virialTerm t j = 0 := by
  simp [forceTermX, forceTermY, forceTermZ, energyTerm, virialTerm, ha, hb, hc]

/-- A sum of zeros. -/
theorem sum_map_eq_zero {α : Type} (l : List α) (f : α → Scalar) (h : ∀ a ∈ l, f a = 0) :
    (l.map f).sum = 0 := by
  induction l with
  | nil => simp
  | cons a rest ih =>
    rw [List.map_cons, List.sum_cons, h a (List.mem_cons_self a rest),
      ih (fun b hb => h b (List.mem_cons_of_mem a hb)), add_zero]

/-- Summed over the particles `0 … N-1`, the three force terms of one angle cancel. -/
theorem totalOver_forceTerm (N : Nat) (t : AngleLocals)
    (ha : t.idx_a < N) (hb : t.idx_b < N) (hc : t.idx_c < N) :
    totalOver N (forceTermX t) = 0 ∧ totalOver N (forceTermY t) = 0
    ∧ totalOver N (forceTermZ t) = 0 := by
  have ha' : t.idx_a ∈ Finset.range N := Finset.mem_range.mpr ha
  have hb' : t.idx_b ∈ Finset.range N := Finset.mem_range.mpr hb
  have hc' : t.idx_c ∈ Finset.range N := Finset.mem_range.mpr hc
  unfold totalOver forceTermX forceTermY forceTermZ
  simp only [Finset.sum_add_distrib, Finset.sum_ite_eq', ha', hb', hc', if_true]
  refine ⟨?_, ?_, ?_⟩ <;> ring

/-- The total force over the particles `0 … N-1` is the same before and after the loop
over angles whose particle indices are below `N`. -/
theorem totalOver_foldl (N : Nat) (locals : Angle → AngleLocals) (angles : List Angle)
    (hidx : ∀ angle ∈ angles, (locals angle).idx_a < N ∧ (locals angle).idx_b < N
      ∧ (locals angle).idx_c < N) :
    ∀ bufs : ForceCompute,
      totalOver N (fun j =>
          ((angles.foldl (fun acc angle => accumulateAngle acc (locals angle)) bufs).m_force j).x)
        = totalOver N (fun j => (bufs.m_force j).x)
      ∧ totalOver N (fun j =>
          ((angles.foldl (fun acc angle => accumulateAngle acc (locals angle)) bufs).m_force j).y)
        = totalOver N (fun j => (bufs.m_force j).y)
      ∧ totalOver N (fun j =>
          ((angles.foldl (fun acc angle => accumulateAngle acc (locals angle)) bufs).m_force j).z)
        = totalOver N (fun j => (bufs.m_force j).z) := by
  induction angles with
  | nil =>
    intro bufs
    exact ⟨rfl, rfl, rfl⟩
  | cons angle rest ih =>
    intro bufs
    obtain ⟨hx, hy, hz⟩ := ih (fun a ha => hidx a (List.mem_cons_of_mem angle ha))
      (accumulateAngle bufs (locals angle))
    obtain ⟨ia, ib, ic⟩ := hidx angle (List.mem_cons_self angle rest)
    obtain ⟨tx, ty, tz⟩ := totalOver_forceTerm N (locals angle) ia ib ic
    simp only [List.foldl_cons]
    rw [hx, hy, hz]
    unfold totalOver at tx ty tz ⊢
    refine ⟨?_, ?_, ?_⟩
    · rw [Finset.sum_congr rfl (fun j _ => (accumulateAngle_apply bufs (locals angle) j).1),
        Finset.sum_add_distrib, tx, add_zero]
    · rw [Finset.sum_congr rfl (fun j _ => (accumulateAngle_apply bufs (locals angle) j).2.1),
        Finset.sum_add_distrib, ty, add_zero]
    · rw [Finset.sum_congr rfl (fun j _ => (accumulateAngle_apply bufs (locals angle) j).2.2.1),
        Finset.sum_add_distrib, tz, add_zero]

/-- The wrap brings a raw displacement of two particles of the box into the half-open
interval of length `L` around zero. -/
theorem pullBack_range (L d : Scalar) (hlo : -L < d) (hhi : d < L) :
    -(L / 2) ≤ pullBack L (L / 2) d ∧ pullBack L (L / 2) d < L / 2 := by
  unfold pullBack
  by_cases h1 : d ≥ L / 2
  · rw [if_pos h1]
    constructor <;> linarith
  · rw [if_neg h1]
    by_cases h2 : d < -(L / 2)
    · rw [if_pos h2]
      constructor <;> linarith
    · rw [if_neg h2]
      constructor <;> linarith

/-- The wrap changes a displacement by nothing or by one box length. -/
theorem pullBack_cases (L d : Scalar) :
    pullBack L (L / 2) d = d ∨ pullBack L (L / 2) d = d - L ∨ pullBack L (L / 2) d = d + L := by
  unfold pullBack
  by_cases h1 : d ≥ L / 2
  · rw [if_pos h1]
    exact Or.inr (Or.inl rfl)
  · rw [if_neg h1]
    by_cases h2 : d < -(L / 2)
    · rw [if_pos h2]
      exact Or.inr (Or.inr rfl)
    · rw [if_neg h2]
      exact Or.inl rfl

/-- A value of the half-open interval of length `L` around zero is not larger in
magnitude than any of its images under a shift by a multiple of `L`. -/
theorem abs_le_abs_add_int_mul (L w : Scalar) (hL : 0 < L) (hlo : -(L / 2) ≤ w)
    (hhi : w < L / 2) (m : ℤ) : |w| ≤ |w + m * L| := by
  have hw : |w| ≤ L / 2 := abs_le.mpr ⟨hlo, le_of_lt hhi⟩
  rcases lt_trichotomy m 0 with hm | hm | hm
  · have hm1 : (m : Scalar) ≤ -1 := by exact_mod_cast Int.le_sub_one_of_lt hm
    have hmL : (m : Scalar) * L ≤ -L := by nlinarith
    have h2 : L / 2 ≤ -(w + m * L) := by linarith
    exact le_trans hw (le_trans h2 (neg_le_abs _))
  · rw [hm]
    simp
  · have hm1 : (1 : Scalar) ≤ m := by exact_mod_cast Int.add_one_le_of_lt hm
    have hmL : L ≤ (m : Scalar) * L := by nlinarith
    have h2 : L / 2 ≤ w + m * L := by linarith
    exact le_trans hw (le_trans h2 (le_abs_self _))

/-- For a box centred on the origin and an angle whose three particles lie inside it,
the wrapped displacements satisfy the assertions of lines 340-342. -/
theorem sanityAssertions_of_centred (libm : MathFunctions) (self : CGCMMAngleForceCompute)
    (arrays : ParticleDataArraysConst) (box : BoxDim) (angle : Angle)
    (hcx : box.xlo = -box.xhi) (hcy : box.ylo = -box.yhi) (hcz : box.zlo = -box.zhi)
    (ha : insideBox box arrays (arrays.rtag angle.a) = true)
    (hb : insideBox box arrays (arrays.rtag angle.b) = true)
    (hc : insideBox box arrays (arrays.rtag angle.c) = true) :
    sanityAssertions box (self.angleLocals libm arrays box angle) = true := by
  simp only [insideBox, decide_eq_true_eq] at ha hb hc
  obtain ⟨⟨ax1, ax2⟩, ⟨ay1, ay2⟩, ⟨az1, az2⟩⟩ := ha
  obtain ⟨⟨bx1, bx2⟩, ⟨by1, by2⟩, ⟨bz1, bz2⟩⟩ := hb
  obtain ⟨⟨cx1, cx2⟩, ⟨cy1, cy2⟩, ⟨cz1, cz2⟩⟩ := hc
  have key : ∀ (lo hi p q : Scalar), lo = -hi → lo ≤ p → p < hi → lo ≤ q → q < hi →
      pullBack (hi - lo) ((hi - lo) / 2) (p - q) ≥ lo
        ∧ pullBack (hi - lo) ((hi - lo) / 2) (p - q) < hi := by
    intro lo hi p q hlo hp1 hp2 hq1 hq2
    have h := pullBack_range (hi - lo) (p - q) (by linarith) (by linarith)
    constructor
    · have h1 := h.1
      rw [hlo] at h1 ⊢
      linarith
    · have h2 := h.2
      rw [hlo] at h2
      linarith
  simp only [sanityAssertions, decide_eq_true_eq]
  exact ⟨⟨key _ _ _ _ hcx ax1 ax2 bx1 bx2, key _ _ _ _ hcx cx1 cx2 bx1 bx2,
      key _ _ _ _ hcx ax1 ax2 cx1 cx2⟩,
    ⟨key _ _ _ _ hcy ay1 ay2 by1 by2, key _ _ _ _ hcy cy1 cy2 by1 by2,
      key _ _ _ _ hcy ay1 ay2 cy1 cy2⟩,
    ⟨key _ _ _ _ hcz az1 az2 bz1 bz2, key _ _ _ _ hcz cz1 cz2 bz1 bz2,
      key _ _ _ _ hcz az1 az2 cz1 cz2⟩⟩

/-- The digits written for a number that is at least `10 ^ k` are more than `k`. -/
theorem toDigitsCore_length_lower (fuel : Nat) :
    ∀ (n k : Nat) (ds : List Char), n < fuel → 10 ^ k ≤ n →
      ds.length + k + 1 ≤ (Nat.toDigitsCore 10 fuel n ds).length := by
  induction fuel with
  | zero =>
    intro n k ds hn
    omega
  | succ fuel ih =>
    intro n k ds hn hk
    rw [Nat.toDigitsCore]
    by_cases h0 : n / 10 = 0
    · simp only [h0, if_true]
      cases k with
      | zero => simp
      | succ k =>
        have h10 : 10 ≤ 10 ^ (k + 1) := by
          calc 10 = 10 ^ 1 := by norm_num
            _ ≤ 10 ^ (k + 1) := Nat.pow_le_pow_right (by norm_num) (by omega)
        omega
    · simp only [h0, if_false]
      cases k with
      | zero =>
        have h := ih (n / 10) 0 (Nat.digitChar (n % 10) :: ds) (by omega) (by simp; omega)
        simp only [List.length_cons] at h
        omega
      | succ k =>
        have hk' : 10 ^ k ≤ n / 10 := by
          rw [Nat.le_div_iff_mul_le (by norm_num)]
          rw [pow_succ] at hk
          exact hk
        have h := ih (n / 10) k (Nat.digitChar (n % 10) :: ds) (by omega) hk'
        simp only [List.length_cons] at h
        omega

/-- A number of at least 100 is written with at least three digits. -/
theorem repr_length_of_ge_hundred (n : Nat) (h : 100 ≤ n) : 3 ≤ (Nat.repr n).length := by
  have hl := toDigitsCore_length_lower (n + 1) n 2 [] (by omega) (by norm_num; exact h)
  simpa [Nat.repr, Nat.toDigits, List.asString] using hl

/-- A number below 100 is written, in a field of width two filled with `0`, as its tens
digit and its units digit. -/
theorem setw2fill0_repr_of_lt_hundred (n : Nat) (h : n < 100) :
    setw2fill0 (Nat.repr n) = String.mk [Nat.digitChar (n / 10), Nat.digitChar (n % 10)] := by
  interval_cases n <;> rfl

/-- A text of two characters or more passes a field of width two unchanged. -/
theorem setw2fill0_of_length_ge (s : String) (h : 2 ≤ s.length) : setw2fill0 s = s := by
  unfold setw2fill0
  have h0 : 2 - s.length = 0 := by omega
  rw [h0]
  apply String.ext
  simp

/-- The separation of a duration that is not negative: the three values in unbounded
integers, and the absence of overflow. -/
theorem splitHMS_of_nonneg (t : Int) (h0 : 0 ≤ t) (h63 : t ≤ 9223372036854775807) :
    (ClockSource.splitHMS t).hours = t / 3600000000000
    ∧ (ClockSource.splitHMS t).minutes = t / 60000000000 % 60
    ∧ (ClockSource.splitHMS t).seconds = t / 1000000000 % 60
    ∧ ClockSource.noOverflow t = true := by
  have hk1 : toInt64 (3600 * 1000000000) = 3600000000000 := by decide
  have hk2 : toInt64 (60 * 1000000000) = 60000000000 := by decide
  have hh : Int.tdiv t 3600000000000 = t / 3600000000000 :=
    Int.tdiv_eq_ediv h0 (by norm_num)
  have hhours : toInt32 (t / 3600000000000) = t / 3600000000000 := by
    unfold toInt32
    omega
  have ht1 : toInt64 (t - toInt64 (toInt64 (t / 3600000000000 * 3600) * 1000000000))
      = t % 3600000000000 := by
    unfold toInt64
    omega
  have hm : Int.tdiv (t % 3600000000000) 60000000000 = t % 3600000000000 / 60000000000 :=
    Int.tdiv_eq_ediv (by omega) (by norm_num)
  have hminutes : toInt32 (t % 3600000000000 / 60000000000)
      = t % 3600000000000 / 60000000000 := by
    unfold toInt32
    omega
  have ht2 : toInt64 (t % 3600000000000
        - toInt64 (toInt64 (t % 3600000000000 / 60000000000 * 60) * 1000000000))
      = t % 60000000000 := by
    unfold toInt64
    omega
  have hs : Int.tdiv (t % 60000000000) 1000000000 = t % 60000000000 / 1000000000 :=
    Int.tdiv_eq_ediv (by omega) (by norm_num)
  have hseconds : toInt32 (t % 60000000000 / 1000000000) = t % 60000000000 / 1000000000 := by
    unfold toInt32
    omega
  have hsplit : ClockSource.splitHMS t
      = ⟨t / 3600000000000, t % 3600000000000 / 60000000000,
          t % 60000000000 / 1000000000⟩ := by
    unfold ClockSource.splitHMS
    simp only [hk1, hk2, hh, hhours, ht1, hm, hminutes, ht2, hs, hseconds]
  refine ⟨by rw [hsplit], ?_, ?_, ?_⟩
  · rw [hsplit]
    show t % 3600000000000 / 60000000000 = t / 60000000000 % 60
    omega
  · rw [hsplit]
    show t % 60000000000 / 1000000000 = t / 1000000000 % 60
    omega
  have e1 : t - t / 3600000000000 * 3600 * 1000000000 = t % 3600000000000 := by omega
  have e2 : t % 3600000000000 - t % 3600000000000 / 60000000000 * 60 * 1000000000
      = t % 60000000000 := by omega
  have e0 : (3600 : Int) * 1000000000 = 3600000000000 := by norm_num
  have e3 : (60 : Int) * 1000000000 = 60000000000 := by norm_num
  unfold ClockSource.noOverflow
  simp only [e0, e3, hh, e1, hm, e2, hs, inInt32, inInt64, Bool.and_eq_true, decide_eq_true_eq]
  omega

/-- Half the direct `m·|v|²` sum is the sum of `½·m·|v|²`. -/
theorem keTrans_foldl_eq_spec (pdata : ParticleData) (members : List Nat) :
    ∀ e : Scalar, members.foldl (keTransStep pdata) e * (1 / 2)
      = e * (1 / 2) + specKeTrans pdata members := by
  induction members with
  | nil =>
    intro e
    simp [specKeTrans]
  | cons j rest ih =>
    intro e
    rw [List.foldl_cons, ih]
    simp only [specKeTrans, keTransStep, List.map_cons, List.sum_cons]
    ring

/-- On both paths `ke_trans_total` is `Σ ½·m·|v|²`. -/
theorem keTransTotal_eq_spec (pdata : ParticleData) (members : List Nat) :
    keTransTotal pdata members = specKeTrans pdata members := by
  unfold keTransTotal pressureKinetic
  by_cases hT : pdata.flags pdata_flag.pressure_tensor = true
  · rw [if_pos hT, if_pos hT,
      kineticTensor_trace_foldl pdata members ⟨0, 0, 0, 0, 0, 0⟩ 0 (by norm_num)]
    have h := keTrans_foldl_eq_spec pdata members 0
    rw [zero_mul, zero_add] at h
    rw [← h]
    ring
  · rw [if_neg hT]
    have h := keTrans_foldl_eq_spec pdata members 0
    rw [zero_mul, zero_add] at h
    exact h

/-- The isotropic sum started from `W` is `W` plus a third of the three row sums. -/
theorem isotropicVirial_foldl_eq_sum (pdata : ParticleData) (members : List Nat) :
    ∀ W : Scalar, members.foldl (isotropicVirialStep pdata) W
      = W + 1 / 3 *
        ((members.map (fun j => pdata.net_virial (j + 0 * pdata.net_virial_pitch))).sum
          + (members.map (fun j => pdata.net_virial (j + 3 * pdata.net_virial_pitch))).sum
          + (members.map (fun j => pdata.net_virial (j + 5 * pdata.net_virial_pitch))).sum) := by
  induction members with
  | nil =>
    intro W
    simp
  | cons j rest ih =>
    intro W
    rw [List.foldl_cons, ih]
    simp only [isotropicVirialStep, List.map_cons, List.sum_cons]
    ring

/-- With both flags requested the local `W` is the isotropic virial of the spec. -/
theorem isotropicVirial_eq_spec (pdata : ParticleData) (members : List Nat)
    (hT : pdata.flags pdata_flag.pressure_tensor = true)
    (hI : pdata.flags pdata_flag.isotropic_virial = true) :
    isotropicVirial pdata members = specIsotropicVirial pdata members := by
  unfold isotropicVirial virialTensor
  simp only [hT, hI, if_true]
  rw [virialTensor_trace_foldl pdata pdata rfl rfl members _ _ rfl,
    isotropicVirial_foldl_eq_sum pdata members _]
  unfold specIsotropicVirial
  ring

/-- Without the isotropic virial flag the local `W` stays at its initial value 0. -/
theorem isotropicVirial_of_not_requested (pdata : ParticleData) (members : List Nat)
    (hI : pdata.flags pdata_flag.isotropic_virial = false) :
    isotropicVirial pdata members = 0 := by
  unfold isotropicVirial
  simp only [hI, Bool.false_eq_true, if_false, ite_self]

/-- The two clamps bring a number into `[-1, 1]`. -/
theorem clamp_range (c0 : Scalar) :
    -1 ≤ (if (if c0 > 1 then 1 else c0) < -1 then -1 else (if c0 > 1 then 1 else c0))
    ∧ (if (if c0 > 1 then 1 else c0) < -1 then -1 else (if c0 > 1 then 1 else c0)) ≤ 1 := by
  by_cases h1 : c0 > 1
  · simp only [h1, if_true]
    norm_num
  · simp only [h1, if_false]
    by_cases h2 : c0 < -1
    · simp only [h2, if_true]
      norm_num
    · simp only [h2, if_false]
      exact ⟨not_lt.mp h2, not_lt.mp h1⟩

/-- The floor raises the sine to at least `SMALL`. -/
theorem floor_ge_small (s0 : Scalar) : SMALL ≤ (if s0 < SMALL then SMALL else s0) := by
  by_cases h : s0 < SMALL
  · rw [if_pos h]
  · rw [if_neg h]
    exact not_lt.mp h

/-- On a number the clamps with the floating-point comparisons are the clamps on the
rationals. -/
theorem clampedCosineIEEE_finite (c0 : Scalar) :
    clampedCosineIEEE (IEEEValue.finite c0)
      = IEEEValue.finite
          (if (if c0 > 1 then 1 else c0) < -1 then -1 else (if c0 > 1 then 1 else c0)) := by
  unfold clampedCosineIEEE
  by_cases h1 : c0 > 1
  · have h2 : ¬ ((1 : Scalar) < -1) := by norm_num
    simp [IEEEValue.gt, IEEEValue.lt, h1, h2]
  · by_cases h2 : c0 < -1
    · simp [IEEEValue.gt, IEEEValue.lt, h1, h2]
    · simp [IEEEValue.gt, IEEEValue.lt, h1, h2]

/-- The inversion of the floored sine of a number is a number: the divisor is not zero. -/
theorem invertedSineIEEE_finite (libm : MathFunctions) (v : Scalar) :
    invertedSineIEEE libm (IEEEValue.finite v)
      = IEEEValue.finite
          (1 / (if libm.sqrt (1 - v * v) < SMALL then SMALL else libm.sqrt (1 - v * v))) := by
  have hpos : (0 : Scalar) < SMALL := by norm_num [SMALL]
  have hne : (if libm.sqrt (1 - v * v) < SMALL then SMALL else libm.sqrt (1 - v * v)) ≠ 0 :=
    ne_of_gt (lt_of_lt_of_le hpos (floor_ge_small _))
  simp only [invertedSineIEEE, flooredSineIEEE, ieeeDiv]
  rw [if_neg hne]

/-- The inverse of a divisor that is at least `SMALL` lies in `(0, 1000]`. -/
theorem inverse_of_floored (d : Scalar) (hd : SMALL ≤ d) : 0 < 1 / d ∧ 1 / d ≤ 1000 := by
  have hsmall : SMALL = 1 / 1000 := by norm_num [SMALL]
  have hpos : (0 : Scalar) < d := lt_of_lt_of_le (by norm_num [SMALL]) hd
  have h1000 := le_trans (le_of_eq hsmall.symm) hd
  refine ⟨one_div_pos.mpr hpos, ?_⟩
  rw [div_le_iff₀ hpos]
  linarith

/-- A raw cosine that is a number or an infinity is clamped to a number in `[-1, 1]`. -/
theorem clampedCosineIEEE_of_ne_nan (raw : IEEEValue) (h : raw ≠ IEEEValue.nan) :
    ∃ c : Scalar, clampedCosineIEEE raw = IEEEValue.finite c ∧ -1 ≤ c ∧ c ≤ 1 := by
  cases raw with
  | finite v => exact ⟨_, clampedCosineIEEE_finite v, clamp_range v⟩
  | posInf =>
    refine ⟨1, ?_, by norm_num, le_refl _⟩
    have h2 : ¬ ((1 : Scalar) < -1) := by norm_num
    simp [clampedCosineIEEE, IEEEValue.gt, IEEEValue.lt, h2]
  | negInf =>
    refine ⟨-1, ?_, le_refl _, by norm_num⟩
    simp [clampedCosineIEEE, IEEEValue.gt, IEEEValue.lt]
  | nan => exact absurd rfl h

/-! ## Claims -/

/-- C1: `setNDOF` floors the degrees of freedom at 1: for every `n` the stored
translational ndof is 1 when `n = 0` and `n` otherwise, a call with `n = 0` sends exactly
one warning and a call with `n > 0` sends none; no other field changes. -/
theorem setNDOF_floor (self : ComputeThermo) (n : Nat) :
    (self.setNDOF n).1.m_ndof = (if n = 0 then 1 else n)
    ∧ (self.setNDOF n).2.length = (if n = 0 then 1 else 0)
    ∧ (self.setNDOF n).1 = { self with m_ndof := (self.setNDOF n).1.m_ndof } := by
  unfold ComputeThermo.setNDOF
  by_cases hn : n = 0 <;> simp [hn]

/-- C2: on an object whose key list is the one its constructor built for `suffix`,
`getLogValue(q, timestep)` throws if and only if `q` is not one of the 18 named-quantity
keys (a base name followed by the suffix), and for each of the 18 keys it returns a
value. -/
theorem getLogValue_error_iff (g : ThermoGetters) (EPSILON : Scalar)
    (shouldCompute : Nat → Bool) (sysdef : SystemDefinition) (self : ComputeThermo)
    (suffix q : String) (timestep : Nat)
    (hnames : self.m_logname_list = (ComputeThermo.ctor self.m_group suffix).m_logname_list) :
    ((∃ e, (self.getLogValue g EPSILON shouldCompute sysdef q timestep).2 = .error e)
        ↔ q ∉ specQuantityNames.map (fun base => base ++ suffix))
    ∧ (q ∈ specQuantityNames.map (fun base => base ++ suffix)
        → ∃ v, (self.getLogValue g EPSILON shouldCompute sysdef q timestep).2 = .ok v) := by
  have hl : (self.compute EPSILON shouldCompute sysdef timestep).m_logname_list
      = specQuantityNames.map (fun base => base ++ suffix) := by
    rw [compute_logname_list, hnames, ctor_logname_list]
  have hmem : q ∈ specQuantityNames.map (fun base => base ++ suffix)
      → ∃ v, (self.getLogValue g EPSILON shouldCompute sysdef q timestep).2 = .ok v :=
    fun hq => logValueOf_of_mem g _ q _ _ _ _ _ _ _ _ _ _ _ _ _ _ _ _ _ _ hl hq
  refine ⟨⟨?_, ?_⟩, hmem⟩
  · rintro ⟨e, he⟩ hq
    obtain ⟨v, hv⟩ := hmem hq
    rw [hv] at he
    cases he
  · intro hq
    exact ⟨_, logValueOf_of_not_mem g _ q _ _ _ _ _ _ _ _ _ _ _ _ _ _ _ _ _ _ hl hq⟩

/-- C2 on `exampleThermo` (suffix `_all`): the query `pressure` is not a key and
throws, the query `pressure_all` is a key and returns a value. -/
theorem getLogValue_error_iff_witness :
    exampleThermo.m_logname_list
        = (ComputeThermo.ctor exampleThermo.m_group "_all").m_logname_list
    ∧ (∃ e, (exampleThermo.getLogValue exampleGetters exampleEpsilon (fun _ => true)
          exampleSysdef "pressure" 7).2 = .error e)
    ∧ (∃ v, (exampleThermo.getLogValue exampleGetters exampleEpsilon (fun _ => true)
          exampleSysdef "pressure_all" 7).2 = .ok v) :=
  ⟨rfl,
   (getLogValue_error_iff exampleGetters exampleEpsilon (fun _ => true) exampleSysdef
      exampleThermo "_all" "pressure" 7 rfl).1.mpr (by decide),
   (getLogValue_error_iff exampleGetters exampleEpsilon (fun _ => true) exampleSysdef
      exampleThermo "_all" "pressure_all" 7 rfl).2 (by decide)⟩

/-- C3: for every suffix the 18 keys built by the constructor are pairwise distinct, and
for each index `i` a query with the `i`-th key returns the value of the `i`-th branch of
the if-chain of `getLogValue` (no earlier branch takes it). -/
theorem getLogValue_key_branch (g : ThermoGetters) (EPSILON : Scalar)
    (shouldCompute : Nat → Bool) (sysdef : SystemDefinition) (self : ComputeThermo)
    (suffix : String) (timestep : Nat)
    (hnames : self.m_logname_list = (ComputeThermo.ctor self.m_group suffix).m_logname_list) :
    (ComputeThermo.ctor self.m_group suffix).m_logname_list.Nodup
    ∧ ∀ i : Fin 18,
        (self.getLogValue g EPSILON shouldCompute sysdef
            ((ComputeThermo.ctor self.m_group suffix).m_logname_list.getD i "") timestep).2
          = .ok (((self.compute EPSILON shouldCompute sysdef timestep).branchValues g).getD i 0) := by
  have hl : (self.compute EPSILON shouldCompute sysdef timestep).m_logname_list
      = specQuantityNames.map (fun base => base ++ suffix) := by
    rw [compute_logname_list, hnames, ctor_logname_list]
  refine ⟨?_, fun i => ?_⟩
  · rw [ctor_logname_list]
    exact quantityKeys_nodup suffix
  · rw [ctor_logname_list]
    exact logValueOf_key g _ suffix hl i

/-- C3 on `exampleThermo` (suffix `_all`): the key of index 11 is `pressure_all` and it
returns the value of branch 11, the accessor `getPressure`. -/
theorem getLogValue_key_branch_witness :
    exampleThermo.m_logname_list
        = (ComputeThermo.ctor exampleThermo.m_group "_all").m_logname_list
    ∧ (ComputeThermo.ctor exampleThermo.m_group "_all").m_logname_list.Nodup
    ∧ (exampleThermo.getLogValue exampleGetters exampleEpsilon (fun _ => true) exampleSysdef
          ((ComputeThermo.ctor exampleThermo.m_group "_all").m_logname_list.getD
            (11 : Fin 18) "") 7).2
        = .ok (((exampleThermo.compute exampleEpsilon (fun _ => true) exampleSysdef
            7).branchValues exampleGetters).getD (11 : Fin 18) 0) :=
  ⟨rfl,
   (getLogValue_key_branch exampleGetters exampleEpsilon (fun _ => true) exampleSysdef
      exampleThermo "_all" 7 rfl).1,
   (getLogValue_key_branch exampleGetters exampleEpsilon (fun _ => true) exampleSysdef
      exampleThermo "_all" 7 rfl).2 11⟩

/-- C4: on an object whose key list is the one its constructor built for `suffix`,
`getProvidedLogQuantities` returns, when logging is enabled, the 18 key strings of the
spec in the spec's order, each followed by the suffix, and the empty list when logging is
disabled. -/
theorem getProvidedLogQuantities_eq (self : ComputeThermo) (suffix : String)
    (hnames : self.m_logname_list = (ComputeThermo.ctor self.m_group suffix).m_logname_list) :
    self.getProvidedLogQuantities
      = if self.m_logging_enabled then
          [ "temperature" ++ suffix, "translational_temperature" ++ suffix,
            "rotational_temperature" ++ suffix, "kinetic_energy" ++ suffix,
            "translational_kinetic_energy" ++ suffix, "rotational_kinetic_energy" ++ suffix,
            "potential_energy" ++ suffix, "ndof" ++ suffix, "translational_ndof" ++ suffix,
            "rotational_ndof" ++ suffix, "num_particles" ++ suffix, "pressure" ++ suffix,
            "pressure_xx" ++ suffix, "pressure_xy" ++ suffix, "pressure_xz" ++ suffix,
            "pressure_yy" ++ suffix, "pressure_yz" ++ suffix, "pressure_zz" ++ suffix ]
        else [] := by
  unfold ComputeThermo.getProvidedLogQuantities
  rw [hnames]
  rfl

/-- C4 on `exampleThermo` (suffix `_all`, logging enabled). -/
theorem getProvidedLogQuantities_eq_witness :
    exampleThermo.m_logname_list
        = (ComputeThermo.ctor exampleThermo.m_group "_all").m_logname_list
    ∧ exampleThermo.getProvidedLogQuantities
      = if exampleThermo.m_logging_enabled then
          [ "temperature" ++ "_all", "translational_temperature" ++ "_all",
            "rotational_temperature" ++ "_all", "kinetic_energy" ++ "_all",
            "translational_kinetic_energy" ++ "_all", "rotational_kinetic_energy" ++ "_all",
            "potential_energy" ++ "_all", "ndof" ++ "_all", "translational_ndof" ++ "_all",
            "rotational_ndof" ++ "_all", "num_particles" ++ "_all", "pressure" ++ "_all",
            "pressure_xx" ++ "_all", "pressure_xy" ++ "_all", "pressure_xz" ++ "_all",
            "pressure_yy" ++ "_all", "pressure_yz" ++ "_all", "pressure_zz" ++ "_all" ]
        else [] :=
  ⟨rfl, getProvidedLogQuantities_eq exampleThermo "_all" rfl⟩

/-- C5: when the global member count of the group is zero, `computeProperties` returns
the object unchanged, whatever the particle data, box lengths, dimension and moments of
inertia are: every slot of `m_properties` and the reduced flag keep their values and the
result does not depend on any quotient. -/
theorem computeProperties_empty_group (EPSILON : Scalar) (sysdef : SystemDefinition)
    (self : ComputeThermo) (hempty : self.m_group.getNumMembersGlobal = 0) :
    self.computeProperties EPSILON sysdef = self
    ∧ (self.computeProperties EPSILON sysdef).m_properties = self.m_properties
    ∧ (self.computeProperties EPSILON sysdef).m_properties_reduced
        = self.m_properties_reduced := by
  rw [computeProperties_of_empty EPSILON sysdef self hempty]
  exact ⟨rfl, rfl, rfl⟩

/-- C5 on `exampleThermoEmpty` and `exampleSysdef`. -/
theorem computeProperties_empty_group_witness :
    exampleThermoEmpty.m_group.getNumMembersGlobal = 0
    ∧ (exampleThermoEmpty.computeProperties exampleEpsilon exampleSysdef = exampleThermoEmpty
      ∧ (exampleThermoEmpty.computeProperties exampleEpsilon exampleSysdef).m_properties
          = exampleThermoEmpty.m_properties
      ∧ (exampleThermoEmpty.computeProperties exampleEpsilon exampleSysdef).m_properties_reduced
          = exampleThermoEmpty.m_properties_reduced) :=
  ⟨rfl, computeProperties_empty_group exampleEpsilon exampleSysdef exampleThermoEmpty rfl⟩

/-- C6: the two translational kinetic energy paths of `computeProperties` agree: for every
group and every velocity and mass array, the value stored when the pressure tensor is
requested (half the trace of the summed mass-weighted velocity outer products) equals the
value stored when it is not (half the sum of `m·|v|²`), in exact arithmetic. -/
theorem keTrans_paths_agree (EPSILON1 EPSILON2 : Scalar) (sysdef1 sysdef2 : SystemDefinition)
    (self : ComputeThermo)
    (hvel : sysdef1.pdata.velocities = sysdef2.pdata.velocities)
    (hon : sysdef1.pdata.flags pdata_flag.pressure_tensor = true)
    (hoff : sysdef2.pdata.flags pdata_flag.pressure_tensor = false) :
    (self.computeProperties EPSILON1 sysdef1).m_properties.translational_kinetic_energy
      = (self.computeProperties EPSILON2 sysdef2).m_properties.translational_kinetic_energy := by
  by_cases hne : self.m_group.getNumMembersGlobal = 0
  · rw [computeProperties_of_empty EPSILON1 sysdef1 self hne,
      computeProperties_of_empty EPSILON2 sysdef2 self hne]
  · rw [computeProperties_of_nonempty EPSILON1 sysdef1 self hne,
      computeProperties_of_nonempty EPSILON2 sysdef2 self hne]
    exact keTransTotal_paths sysdef1.pdata sysdef2.pdata self.m_group.members hvel hon hoff

/-- C6 on `exampleThermo`: `exampleSysdef` requests the pressure tensor,
`exampleSysdefNoTensor` does not, and both store the same translational kinetic energy. -/
theorem keTrans_paths_agree_witness :
    exampleSysdef.pdata.velocities = exampleSysdefNoTensor.pdata.velocities
    ∧ exampleSysdef.pdata.flags pdata_flag.pressure_tensor = true
    ∧ exampleSysdefNoTensor.pdata.flags pdata_flag.pressure_tensor = false
    ∧ (exampleThermo.computeProperties exampleEpsilon
          exampleSysdef).m_properties.translational_kinetic_energy
        = (exampleThermo.computeProperties exampleEpsilon
          exampleSysdefNoTensor).m_properties.translational_kinetic_energy :=
  ⟨rfl, rfl, rfl,
   keTrans_paths_agree exampleEpsilon exampleEpsilon exampleSysdef exampleSysdefNoTensor
     exampleThermo rfl rfl rfl⟩

/-- C7: for every group that is not empty and whose members all have zero velocity
components, the translational kinetic energy stored by `computeProperties` is zero,
whether or not the pressure tensor is requested and whatever the masses are. -/
theorem keTrans_zero_at_rest (EPSILON : Scalar) (sysdef : SystemDefinition)
    (self : ComputeThermo) (hne : self.m_group.getNumMembersGlobal ≠ 0)
    (hrest : ∀ j ∈ self.m_group.members, (sysdef.pdata.velocities j).x = 0
      ∧ (sysdef.pdata.velocities j).y = 0 ∧ (sysdef.pdata.velocities j).z = 0) :
    (self.computeProperties EPSILON sysdef).m_properties.translational_kinetic_energy = 0 := by
  rw [computeProperties_of_nonempty EPSILON sysdef self hne]
  show keTransTotal sysdef.pdata self.m_group.members = 0
  unfold keTransTotal pressureKinetic
  by_cases hpt : sysdef.pdata.flags pdata_flag.pressure_tensor = true
  · rw [if_pos hpt, if_pos hpt, kineticTensor_foldl_at_rest sysdef.pdata _ hrest]
    norm_num
  · rw [if_neg hpt, keTrans_foldl_at_rest sysdef.pdata _ hrest]
    norm_num

/-- C7 on `exampleThermo` and `exampleSysdefAtRest`. -/
theorem keTrans_zero_at_rest_witness :
    exampleThermo.m_group.getNumMembersGlobal ≠ 0
    ∧ (∀ j ∈ exampleThermo.m_group.members, (exampleSysdefAtRest.pdata.velocities j).x = 0
        ∧ (exampleSysdefAtRest.pdata.velocities j).y = 0
        ∧ (exampleSysdefAtRest.pdata.velocities j).z = 0)
    ∧ (exampleThermo.computeProperties exampleEpsilon
          exampleSysdefAtRest).m_properties.translational_kinetic_energy = 0 :=
  ⟨by decide, fun _ _ => ⟨rfl, rfl, rfl⟩,
   keTrans_zero_at_rest exampleEpsilon exampleSysdefAtRest exampleThermo (by decide)
     (fun _ _ => ⟨rfl, rfl, rfl⟩)⟩

/-- C8, the claim as stated fails: in `exampleSysdefAtRest` both members of the group
have zero velocity components, yet with the rotational kinetic energy requested and the
angular momentum `(0, 2, 2, 2)` on unit moments of inertia, `computeProperties` stores the
rotational kinetic energy 3. -/
theorem keRot_at_rest_counterexample :
    exampleThermo.m_group.members = [0, 1]
    ∧ exampleThermo.m_group.getNumMembersGlobal = 2
    ∧ exampleSysdefAtRest.pdata.velocities 0 = ⟨0, 0, 0, 1⟩
    ∧ exampleSysdefAtRest.pdata.velocities 1 = ⟨0, 0, 0, 1⟩
    ∧ (exampleThermo.computeProperties exampleEpsilon
        exampleSysdefAtRest).m_properties.rotational_kinetic_energy = 3
    ∧ (exampleThermo.computeProperties exampleEpsilon
        exampleSysdefAtRest).m_properties.rotational_kinetic_energy ≠ 0 := by
  have h : (exampleThermo.computeProperties exampleEpsilon
      exampleSysdefAtRest).m_properties.rotational_kinetic_energy = 3 := by
    norm_num [ComputeThermo.computeProperties, exampleThermo, ComputeThermo.ctor,
      ParticleGroup.getNumMembersGlobal, keRotTotal, exampleSysdefAtRest, exampleSysdef,
      keRotStep, exampleEpsilon, quat.mul, quat.smul, quat.ofScalar4, conj]
  refine ⟨rfl, rfl, rfl, rfl, h, ?_⟩
  rw [h]
  norm_num

/-- C8, amended: for every group that is not empty, the rotational kinetic energy stored
by `computeProperties` is zero when the rotational kinetic energy is not requested or when
the angular momentum quaternion of every member is zero, for every content of the
velocity, orientation and moment-of-inertia arrays. -/
theorem keRot_zero_of_no_angmom (EPSILON : Scalar) (sysdef : SystemDefinition)
    (self : ComputeThermo) (hne : self.m_group.getNumMembersGlobal ≠ 0)
    (hp : sysdef.pdata.flags pdata_flag.rotational_kinetic_energy = false
      ∨ ∀ j ∈ self.m_group.members, sysdef.pdata.angmom j = ⟨0, 0, 0, 0⟩) :
    (self.computeProperties EPSILON sysdef).m_properties.rotational_kinetic_energy = 0 := by
  rw [computeProperties_of_nonempty EPSILON sysdef self hne]
  show keRotTotal EPSILON sysdef.pdata self.m_group.members = 0
  unfold keRotTotal
  rcases hp with hflag | hzero
  · simp [hflag]
  · rw [keRot_foldl_no_angmom EPSILON sysdef.pdata _ hzero]
    simp

/-- C8, amended, on `exampleThermo` and `exampleSysdefNoSpin`. -/
theorem keRot_zero_of_no_angmom_witness :
    exampleThermo.m_group.getNumMembersGlobal ≠ 0
    ∧ (∀ j ∈ exampleThermo.m_group.members, exampleSysdefNoSpin.pdata.angmom j = ⟨0, 0, 0, 0⟩)
    ∧ (exampleThermo.computeProperties exampleEpsilon
          exampleSysdefNoSpin).m_properties.rotational_kinetic_energy = 0 :=
  ⟨by decide, fun _ _ => rfl,
   keRot_zero_of_no_angmom exampleEpsilon exampleSysdefNoSpin exampleThermo (by decide)
     (Or.inr (fun _ _ => rfl))⟩

/-- C9, as stated, fails: the formula `(2·KE_trans/D + W)/V` with `W` the isotropic
virial (a third of the trace of the external virial plus the group sum of the net
virial) is not what `computeProperties` stores when the isotropic virial is not
requested. On `exampleSysdefNoFlags` (3D, box 2 × 3 × 4, `KE_trans = 14`, `W = 35/3`) the
formula gives 7/8 and the stored pressure is 7/18, the value of the formula with `W = 0`.
It fails as well on `exampleSysdefExtIso`, where only the isotropic virial is requested
and the external virial is 3 in each component: the formula gives 1 with `W = 44/3`, the
stored pressure is 7/8. -/
theorem pressure_formula_counterexample :
    exampleThermo.m_group.getNumMembersGlobal ≠ 0
    ∧ exampleSysdefNoFlags.n_dimensions = 3
    ∧ specKeTrans exampleSysdefNoFlags.pdata exampleThermo.m_group.members = 14
    ∧ specIsotropicVirial exampleSysdefNoFlags.pdata exampleThermo.m_group.members = 35 / 3
    ∧ (2 * specKeTrans exampleSysdefNoFlags.pdata exampleThermo.m_group.members / 3
          + specIsotropicVirial exampleSysdefNoFlags.pdata exampleThermo.m_group.members)
        / (exampleSysdefNoFlags.pdata.global_box_L.x * exampleSysdefNoFlags.pdata.global_box_L.y
            * exampleSysdefNoFlags.pdata.global_box_L.z) = 7 / 8
    ∧ (exampleThermo.computeProperties exampleEpsilon exampleSysdefNoFlags).m_properties.pressure
        = 7 / 18
    ∧ (exampleThermo.computeProperties exampleEpsilon exampleSysdefNoFlags).m_properties.pressure
        ≠ (2 * specKeTrans exampleSysdefNoFlags.pdata exampleThermo.m_group.members / 3
              + specIsotropicVirial exampleSysdefNoFlags.pdata exampleThermo.m_group.members)
            / (exampleSysdefNoFlags.pdata.global_box_L.x
                * exampleSysdefNoFlags.pdata.global_box_L.y
                * exampleSysdefNoFlags.pdata.global_box_L.z)
    ∧ exampleSysdefExtIso.n_dimensions = 3
    ∧ specIsotropicVirial exampleSysdefExtIso.pdata exampleThermo.m_group.members = 44 / 3
    ∧ (exampleThermo.computeProperties exampleEpsilon exampleSysdefExtIso).m_properties.pressure
        = 7 / 8
    ∧ (exampleThermo.computeProperties exampleEpsilon exampleSysdefExtIso).m_properties.pressure
        ≠ (2 * specKeTrans exampleSysdefExtIso.pdata exampleThermo.m_group.members / 3
              + specIsotropicVirial exampleSysdefExtIso.pdata exampleThermo.m_group.members)
            / (exampleSysdefExtIso.pdata.global_box_L.x
                * exampleSysdefExtIso.pdata.global_box_L.y
                * exampleSysdefExtIso.pdata.global_box_L.z) := by
  have hflag : ¬ pdata_flag.isotropic_virial = pdata_flag.pressure_tensor := by decide
  refine ⟨by decide, rfl, ?_, ?_, ?_, ?_, ?_, rfl, ?_, ?_, ?_⟩
  · norm_num [specKeTrans, exampleSysdefNoFlags, exampleSysdef, exampleThermo,
      ComputeThermo.ctor]
  · norm_num [specIsotropicVirial, exampleSysdefNoFlags, exampleSysdef, exampleThermo,
      ComputeThermo.ctor]
  · norm_num [specKeTrans, specIsotropicVirial, exampleSysdefNoFlags, exampleSysdef,
      exampleThermo, ComputeThermo.ctor]
  · norm_num [ComputeThermo.computeProperties, keTransTotal, pressureKinetic, keTransStep,
      correctedVirial, isotropicVirial, boxVolume, exampleSysdefNoFlags, exampleSysdef,
      exampleThermo, ComputeThermo.ctor, ParticleGroup.getNumMembersGlobal]
  · norm_num [ComputeThermo.computeProperties, keTransTotal, pressureKinetic, keTransStep,
      correctedVirial, isotropicVirial, boxVolume, specKeTrans, specIsotropicVirial,
      exampleSysdefNoFlags, exampleSysdef, exampleThermo, ComputeThermo.ctor,
      ParticleGroup.getNumMembersGlobal]
  · norm_num [specIsotropicVirial, exampleSysdefExtIso, exampleSysdefExt, exampleSysdef,
      exampleThermo, ComputeThermo.ctor]
  · norm_num [ComputeThermo.computeProperties, keTransTotal, pressureKinetic, keTransStep,
      correctedVirial, isotropicVirial, isotropicVirialStep, boxVolume, exampleSysdefExtIso,
      exampleSysdefExt, exampleSysdef, exampleThermo, ComputeThermo.ctor,
      ParticleGroup.getNumMembersGlobal, hflag]
  · norm_num [ComputeThermo.computeProperties, keTransTotal, pressureKinetic, keTransStep,
      correctedVirial, isotropicVirial, isotropicVirialStep, boxVolume, specKeTrans,
      specIsotropicVirial, exampleSysdefExtIso, exampleSysdefExt, exampleSysdef,
      exampleThermo, ComputeThermo.ctor, ParticleGroup.getNumMembersGlobal, hflag]

/-- C9, amended: for a group that is not empty, the scalar pressure stored by
`computeProperties` is `(2·KE_trans/D + W')/V`, in 3D with `V = Lx·Ly·Lz` and `W' = W`,
in 2D with `V = Lx·Ly` and `W' = (3/2)·W`, where `KE_trans = Σ ½·m·|v|²` over the group,
`L` are the global box lengths, and `W` is one third of the trace of the external virial
plus the group sum of the per-particle net virial when both the isotropic virial and the
pressure tensor are requested, and `W = 0` when the isotropic virial is not requested. -/
theorem pressure_formula_by_flags (EPSILON : Scalar) (sysdef : SystemDefinition)
    (self : ComputeThermo) (hne : self.m_group.getNumMembersGlobal ≠ 0) :
    (sysdef.pdata.flags pdata_flag.pressure_tensor = true →
      sysdef.pdata.flags pdata_flag.isotropic_virial = true →
        (sysdef.n_dimensions = 3 →
          (self.computeProperties EPSILON sysdef).m_properties.pressure
            = (2 * specKeTrans sysdef.pdata self.m_group.members / 3
                  + specIsotropicVirial sysdef.pdata self.m_group.members)
                / (sysdef.pdata.global_box_L.x * sysdef.pdata.global_box_L.y
                    * sysdef.pdata.global_box_L.z))
        ∧ (sysdef.n_dimensions = 2 →
          (self.computeProperties EPSILON sysdef).m_properties.pressure
            = (2 * specKeTrans sysdef.pdata self.m_group.members / 2
                  + 3 / 2 * specIsotropicVirial sysdef.pdata self.m_group.members)
                / (sysdef.pdata.global_box_L.x * sysdef.pdata.global_box_L.y)))
    ∧ (sysdef.pdata.flags pdata_flag.isotropic_virial = false →
        (sysdef.n_dimensions = 3 →
          (self.computeProperties EPSILON sysdef).m_properties.pressure
            = (2 * specKeTrans sysdef.pdata self.m_group.members / 3 + 0)
                / (sysdef.pdata.global_box_L.x * sysdef.pdata.global_box_L.y
                    * sysdef.pdata.global_box_L.z))
        ∧ (sysdef.n_dimensions = 2 →
          (self.computeProperties EPSILON sysdef).m_properties.pressure
            = (2 * specKeTrans sysdef.pdata self.m_group.members / 2 + 3 / 2 * 0)
                / (sysdef.pdata.global_box_L.x * sysdef.pdata.global_box_L.y)))
    ∧ (self.computeProperties EPSILON sysdef).m_properties.translational_kinetic_energy
        = specKeTrans sysdef.pdata self.m_group.members := by
  rw [computeProperties_of_nonempty EPSILON sysdef self hne]
  refine ⟨fun hT hI => ⟨fun hD => ?_, fun hD => ?_⟩, fun hI => ⟨fun hD => ?_, fun hD => ?_⟩,
    keTransTotal_eq_spec _ _⟩
  · simp only [correctedVirial, boxVolume, hD, keTransTotal_eq_spec,
      isotropicVirial_eq_spec _ _ hT hI]
    norm_num
  · simp only [correctedVirial, boxVolume, hD, keTransTotal_eq_spec,
      isotropicVirial_eq_spec _ _ hT hI]
    norm_num
    ring
  · simp only [correctedVirial, boxVolume, hD, keTransTotal_eq_spec,
      isotropicVirial_of_not_requested _ _ hI]
    norm_num
  · simp only [correctedVirial, boxVolume, hD, keTransTotal_eq_spec,
      isotropicVirial_of_not_requested _ _ hI]
    norm_num

/-- C9, amended, on `exampleThermo`: with both flags in 3D (`exampleSysdefExt`) and in 2D
(`exampleSysdefExt2D`), and with no flag in 3D (`exampleSysdefNoFlags`) and in 2D
(`exampleSysdefNoFlags2D`). -/
theorem pressure_formula_by_flags_witness :
    exampleThermo.m_group.getNumMembersGlobal ≠ 0
    ∧ exampleSysdefExt.pdata.flags pdata_flag.pressure_tensor = true
    ∧ exampleSysdefExt.pdata.flags pdata_flag.isotropic_virial = true
    ∧ exampleSysdefNoFlags.pdata.flags pdata_flag.isotropic_virial = false
    ∧ exampleSysdefExt.n_dimensions = 3
    ∧ exampleSysdefExt2D.n_dimensions = 2
    ∧ (exampleThermo.computeProperties exampleEpsilon exampleSysdefExt).m_properties.pressure
        = (2 * specKeTrans exampleSysdefExt.pdata exampleThermo.m_group.members / 3
              + specIsotropicVirial exampleSysdefExt.pdata exampleThermo.m_group.members)
            / (exampleSysdefExt.pdata.global_box_L.x * exampleSysdefExt.pdata.global_box_L.y
                * exampleSysdefExt.pdata.global_box_L.z)
    ∧ (exampleThermo.computeProperties exampleEpsilon exampleSysdefExt2D).m_properties.pressure
        = (2 * specKeTrans exampleSysdefExt2D.pdata exampleThermo.m_group.members / 2
              + 3 / 2
                * specIsotropicVirial exampleSysdefExt2D.pdata exampleThermo.m_group.members)
            / (exampleSysdefExt2D.pdata.global_box_L.x
                * exampleSysdefExt2D.pdata.global_box_L.y)
    ∧ (exampleThermo.computeProperties exampleEpsilon
          exampleSysdefNoFlags).m_properties.pressure
        = (2 * specKeTrans exampleSysdefNoFlags.pdata exampleThermo.m_group.members / 3 + 0)
            / (exampleSysdefNoFlags.pdata.global_box_L.x
                * exampleSysdefNoFlags.pdata.global_box_L.y
                * exampleSysdefNoFlags.pdata.global_box_L.z)
    ∧ (exampleThermo.computeProperties exampleEpsilon
          exampleSysdefNoFlags2D).m_properties.pressure
        = (2 * specKeTrans exampleSysdefNoFlags2D.pdata exampleThermo.m_group.members / 2
              + 3 / 2 * 0)
            / (exampleSysdefNoFlags2D.pdata.global_box_L.x
                * exampleSysdefNoFlags2D.pdata.global_box_L.y)
    ∧ (exampleThermo.computeProperties exampleEpsilon
          exampleSysdefExt).m_properties.translational_kinetic_energy
        = specKeTrans exampleSysdefExt.pdata exampleThermo.m_group.members :=
  ⟨by decide, rfl, rfl, rfl, rfl, rfl,
   ((pressure_formula_by_flags exampleEpsilon exampleSysdefExt exampleThermo
      (by decide)).1 rfl rfl).1 rfl,
   ((pressure_formula_by_flags exampleEpsilon exampleSysdefExt2D exampleThermo
      (by decide)).1 rfl rfl).2 rfl,
   ((pressure_formula_by_flags exampleEpsilon exampleSysdefNoFlags exampleThermo
      (by decide)).2.1 rfl).1 rfl,
   ((pressure_formula_by_flags exampleEpsilon exampleSysdefNoFlags2D exampleThermo
      (by decide)).2.1 rfl).2 rfl,
   (pressure_formula_by_flags exampleEpsilon exampleSysdefExt exampleThermo (by decide)).2.2⟩

/-- C10: for a group that is not empty, when both the pressure tensor and the isotropic
virial are requested, the stored scalar pressure is one third of
`pressure_xx + pressure_yy + pressure_zz` in 3D, and that one-third trace multiplied by
3/2 in 2D, for every particle state, in exact arithmetic. -/
theorem pressure_eq_trace (EPSILON : Scalar) (sysdef : SystemDefinition)
    (self : ComputeThermo) (hne : self.m_group.getNumMembersGlobal ≠ 0)
    (hpt : sysdef.pdata.flags pdata_flag.pressure_tensor = true)
    (hiso : sysdef.pdata.flags pdata_flag.isotropic_virial = true) :
    (sysdef.n_dimensions = 3 →
      (self.computeProperties EPSILON sysdef).m_properties.pressure
        = 1 / 3 * ((self.computeProperties EPSILON sysdef).m_properties.pressure_xx
            + (self.computeProperties EPSILON sysdef).m_properties.pressure_yy
            + (self.computeProperties EPSILON sysdef).m_properties.pressure_zz))
    ∧ (sysdef.n_dimensions = 2 →
      (self.computeProperties EPSILON sysdef).m_properties.pressure
        = 3 / 2 * (1 / 3 * ((self.computeProperties EPSILON sysdef).m_properties.pressure_xx
            + (self.computeProperties EPSILON sysdef).m_properties.pressure_yy
            + (self.computeProperties EPSILON sysdef).m_properties.pressure_zz))) := by
  rw [computeProperties_of_nonempty EPSILON sysdef self hne]
  constructor
  · intro hD
    simp only [correctedVirial, boxVolume, isotropicVirial, keTransTotal, hD, hpt, hiso,
      if_true]
    norm_num
    ring
  · intro hD
    simp only [correctedVirial, boxVolume, isotropicVirial, keTransTotal, hD, hpt, hiso,
      if_true]
    norm_num
    ring

/-- C10 on `exampleThermo`, in 3D (`exampleSysdef`) and in 2D (`exampleSysdef2D`). -/
theorem pressure_eq_trace_witness :
    exampleThermo.m_group.getNumMembersGlobal ≠ 0
    ∧ exampleSysdef.pdata.flags pdata_flag.pressure_tensor = true
    ∧ exampleSysdef.pdata.flags pdata_flag.isotropic_virial = true
    ∧ exampleSysdef.n_dimensions = 3
    ∧ exampleSysdef2D.n_dimensions = 2
    ∧ (exampleThermo.computeProperties exampleEpsilon exampleSysdef).m_properties.pressure
        = 1 / 3 * ((exampleThermo.computeProperties exampleEpsilon
                exampleSysdef).m_properties.pressure_xx
            + (exampleThermo.computeProperties exampleEpsilon
                exampleSysdef).m_properties.pressure_yy
            + (exampleThermo.computeProperties exampleEpsilon
                exampleSysdef).m_properties.pressure_zz)
    ∧ (exampleThermo.computeProperties exampleEpsilon exampleSysdef2D).m_properties.pressure
        = 3 / 2 * (1 / 3 * ((exampleThermo.computeProperties exampleEpsilon
                exampleSysdef2D).m_properties.pressure_xx
            + (exampleThermo.computeProperties exampleEpsilon
                exampleSysdef2D).m_properties.pressure_yy
            + (exampleThermo.computeProperties exampleEpsilon
                exampleSysdef2D).m_properties.pressure_zz)) :=
  ⟨by decide, rfl, rfl, rfl, rfl,
   (pressure_eq_trace exampleEpsilon exampleSysdef exampleThermo (by decide) rfl rfl).1 rfl,
   (pressure_eq_trace exampleEpsilon exampleSysdef2D exampleThermo (by decide) rfl rfl).2 rfl⟩

/-- C11, evaluated where the code departs from it: `exampleSysdefExt` and
`exampleSysdefExtIso` hold the same particles, box and external virial (3 in every
component) and differ only in the pressure tensor flag. With both flags `W` includes the
external virial and the stored pressure is 1; with the isotropic virial alone the loop
starts from `W = 0`, the external virial is left out and the stored pressure is 7/8. -/
theorem isotropic_path_drops_external_virial :
    exampleSysdefExt.pdata.flags pdata_flag.pressure_tensor = true
    ∧ exampleSysdefExt.pdata.flags pdata_flag.isotropic_virial = true
    ∧ exampleSysdefExtIso.pdata.flags pdata_flag.pressure_tensor = false
    ∧ exampleSysdefExtIso.pdata.flags pdata_flag.isotropic_virial = true
    ∧ isotropicVirial exampleSysdefExt.pdata exampleThermo.m_group.members = 44 / 3
    ∧ isotropicVirial exampleSysdefExtIso.pdata exampleThermo.m_group.members = 35 / 3
    ∧ (exampleThermo.computeProperties exampleEpsilon exampleSysdefExt).m_properties.pressure
        = 1
    ∧ (exampleThermo.computeProperties exampleEpsilon
        exampleSysdefExtIso).m_properties.pressure = 7 / 8 := by
  refine ⟨rfl, rfl, rfl, rfl, ?_, ?_, ?_, ?_⟩ <;>
    norm_num [ComputeThermo.computeProperties, exampleThermo, ComputeThermo.ctor,
      ParticleGroup.getNumMembersGlobal, exampleSysdefExt, exampleSysdefExtIso, exampleSysdef,
      isotropicVirial, virialTensor, virialTensorStep, isotropicVirialStep, keTransTotal,
      pressureKinetic, kineticTensorStep, keTransStep, correctedVirial, boxVolume,
      (by decide : ¬ pdata_flag.isotropic_virial = pdata_flag.pressure_tensor)]

/-- C12: `reduceProperties` is idempotent: a second call, whatever the other ranks
would contribute to it, leaves the object as the first call left it (the guard returns
before the summation), and after any call the reduced flag is true. -/
theorem reduceProperties_idempotent (others1 others2 : List ThermoProperties)
    (self : ComputeThermo) :
    (self.reduceProperties others1).reduceProperties others2 = self.reduceProperties others1
    ∧ ((self.reduceProperties others1).reduceProperties others2).m_properties
        = (self.reduceProperties others1).m_properties
    ∧ (self.reduceProperties others1).m_properties_reduced = true := by
  have hflag : (self.reduceProperties others1).m_properties_reduced = true := by
    unfold ComputeThermo.reduceProperties
    by_cases h : self.m_properties_reduced = true
    · rw [if_pos h]
      exact h
    · rw [if_neg h]
  have hsecond : (self.reduceProperties others1).reduceProperties others2
      = self.reduceProperties others1 :=
    reduceProperties_of_reduced others2 _ hflag
  exact ⟨hsecond, by rw [hsecond], hflag⟩

/-- C13: the constructor of `CGCMMAngleForceCompute` throws if and only if the system
defines zero angle types; otherwise it returns an object in which every per-type
parameter (`K`, `t_0`, `eps`, `sigma`, `rcut`, `cg_type`) is zero and the presets
`(prefact, cgPow1, cgPow2)` of the coarse-grain types 0 to 3 are `(0, 0, 0)`,
`(6.75, 9, 6)`, `(2.59807621135332, 12, 4)` and `(4, 12, 6)`. -/
theorem angle_ctor_spec (base : ForceCompute) (angle_data : AngleData) :
    ((∃ e, CGCMMAngleForceCompute.ctor base angle_data = .error e)
        ↔ angle_data.getNAngleTypes = 0)
    ∧ (angle_data.getNAngleTypes ≠ 0 ↔ ∃ self, CGCMMAngleForceCompute.ctor base angle_data = .ok self)
    ∧ ∀ self, CGCMMAngleForceCompute.ctor base angle_data = .ok self →
        (∀ t, self.m_K t = 0 ∧ self.m_t_0 t = 0 ∧ self.m_eps t = 0 ∧ self.m_sigma t = 0
            ∧ self.m_rcut t = 0 ∧ self.m_cg_type t = 0)
        ∧ (self.prefact 0, self.cgPow1 0, self.cgPow2 0) = (0, 0, 0)
        ∧ (self.prefact 1, self.cgPow1 1, self.cgPow2 1) = (6.75, 9, 6)
        ∧ (self.prefact 2, self.cgPow1 2, self.cgPow2 2) = (2.59807621135332, 12, 4)
        ∧ (self.prefact 3, self.cgPow1 3, self.cgPow2 3) = (4, 12, 6) := by
  unfold CGCMMAngleForceCompute.ctor
  by_cases h : angle_data.getNAngleTypes = 0
  · rw [if_pos h]
    simp [h]
  · rw [if_neg h]
    refine ⟨by simp [h], by simp [h], ?_⟩
    intro self hself
    cases hself
    refine ⟨fun t => ⟨rfl, rfl, rfl, rfl, rfl, rfl⟩, ?_, ?_, ?_, ?_⟩ <;>
      norm_num [presetArray]

/-- C13 on `exampleAngleDataNoType` (no type: the constructor throws) and on
`exampleAngleData` (one type: the constructor returns `exampleAngleForceNew`). -/
theorem angle_ctor_spec_witness :
    CGCMMAngleForceCompute.ctor zeroedBuffers exampleAngleDataNoType = .error angleCtorError
    ∧ CGCMMAngleForceCompute.ctor zeroedBuffers exampleAngleData = .ok exampleAngleForceNew
    ∧ (exampleAngleForceNew.prefact 2, exampleAngleForceNew.cgPow1 2,
        exampleAngleForceNew.cgPow2 2) = (2.59807621135332, 12, 4) :=
  ⟨rfl, rfl,
   ((angle_ctor_spec zeroedBuffers exampleAngleData).2.2 exampleAngleForceNew rfl).2.2.2.1⟩

/-- C14: for every coarse-grain type in 0..3 and all `K`, `t_0`, `eps`, `sigma`,
`setParams(type, …)` throws if and only if `type` is not below the number of angle types,
and when it throws the object is left as it was: no stored parameter of any type has
changed. -/
theorem setParams_error_iff (libm : MathFunctions) (self : CGCMMAngleForceCompute)
    (type : Nat) (K t_0 : Scalar) (cg_type : Nat) (eps sigma : Scalar)
    (_hcg : cg_type ≤ 3) :
    ((∃ e, (self.setParams libm type K t_0 cg_type eps sigma).2 = .error e)
        ↔ type ≥ self.m_CGCMMAngle_data.getNAngleTypes)
    ∧ (type ≥ self.m_CGCMMAngle_data.getNAngleTypes
        → (self.setParams libm type K t_0 cg_type eps sigma).1 = self) := by
  unfold CGCMMAngleForceCompute.setParams
  by_cases h : type ≥ self.m_CGCMMAngle_data.getNAngleTypes
  · rw [if_pos h]
    simp [h]
  · rw [if_neg h]
    simp [h]

/-- C14 on `exampleAngleForceNew`, which has one angle type: type 1 is out of range. -/
theorem setParams_error_iff_witness :
    (1 : Nat) ≤ 3
    ∧ (1 : Nat) ≥ exampleAngleForceNew.m_CGCMMAngle_data.getNAngleTypes
    ∧ (∃ e, (exampleAngleForceNew.setParams exampleMath 1 2 (11 / 7) 1 1 1).2 = .error e)
    ∧ (exampleAngleForceNew.setParams exampleMath 1 2 (11 / 7) 1 1 1).1 = exampleAngleForceNew :=
  ⟨by decide, by decide,
   (setParams_error_iff exampleMath exampleAngleForceNew 1 2 (11 / 7) 1 1 1 (by decide)).1.mpr
     (by decide),
   (setParams_error_iff exampleMath exampleAngleForceNew 1 2 (11 / 7) 1 1 1 (by decide)).2
     (by decide)⟩

/-- C15: for a valid type and a coarse-grain type in 0..3, `setParams` does not throw,
whatever the signs of `K`, `t_0`, `eps` and `sigma`: afterwards the stored `K`, `t_0`,
`cg_type`, `eps` and `sigma` of that type are the given values, the six parameters of
every other type are unchanged, and the warnings written are one for each of `K`, `t_0`,
`eps`, `sigma` that is `≤ 0`, in this order, and none for a positive one. -/
theorem setParams_accepts (libm : MathFunctions) (self : CGCMMAngleForceCompute)
    (type : Nat) (K t_0 : Scalar) (cg_type : Nat) (eps sigma : Scalar)
    (htype : type < self.m_CGCMMAngle_data.getNAngleTypes) (hcg : cg_type ≤ 3) :
    (self.setParams libm type K t_0 cg_type eps sigma).2
        = .ok ((if K ≤ 0 then ["***Warning! K <= 0 specified for CGCMM Angle"] else [])
            ++ (if t_0 ≤ 0 then ["***Warning! t_0 <= 0 specified for CGCMM Angle"] else [])
            ++ (if eps ≤ 0 then ["***Warning! eps <= 0 specified for CGCMM Angle"] else [])
            ++ (if sigma ≤ 0 then ["***Warning! sigma <= 0 specified for CGCMM Angle"]
                else []))
    ∧ (self.setParams libm type K t_0 cg_type eps sigma).1.m_K type = K
    ∧ (self.setParams libm type K t_0 cg_type eps sigma).1.m_t_0 type = t_0
    ∧ (self.setParams libm type K t_0 cg_type eps sigma).1.m_cg_type type = cg_type
    ∧ (self.setParams libm type K t_0 cg_type eps sigma).1.m_eps type = eps
    ∧ (self.setParams libm type K t_0 cg_type eps sigma).1.m_sigma type = sigma
    ∧ ∀ other, other ≠ type →
        (self.setParams libm type K t_0 cg_type eps sigma).1.m_K other = self.m_K other
        ∧ (self.setParams libm type K t_0 cg_type eps sigma).1.m_t_0 other = self.m_t_0 other
        ∧ (self.setParams libm type K t_0 cg_type eps sigma).1.m_cg_type other
            = self.m_cg_type other
        ∧ (self.setParams libm type K t_0 cg_type eps sigma).1.m_eps other = self.m_eps other
        ∧ (self.setParams libm type K t_0 cg_type eps sigma).1.m_sigma other
            = self.m_sigma other
        ∧ (self.setParams libm type K t_0 cg_type eps sigma).1.m_rcut other
            = self.m_rcut other := by
  unfold CGCMMAngleForceCompute.setParams
  rw [if_neg (Nat.not_le.mpr htype)]
  refine ⟨?_, ?_, ?_, ?_, ?_, ?_, ?_⟩
  · simp [angleParamWarnings, Nat.not_lt.mpr hcg]
  · simp
  · simp
  · simp
  · simp
  · simp
  · intro other hother
    simp [Function.update_noteq hother]

/-- C15 on `exampleAngleForceNew`: type 0 with `K = -2`, `t_0 = 0`, `eps = 1`,
`sigma = -1` is accepted with three warnings. -/
theorem setParams_accepts_witness :
    (0 : Nat) < exampleAngleForceNew.m_CGCMMAngle_data.getNAngleTypes
    ∧ (1 : Nat) ≤ 3
    ∧ (exampleAngleForceNew.setParams exampleMath 0 (-2) 0 1 1 (-1)).2
        = .ok [ "***Warning! K <= 0 specified for CGCMM Angle",
                "***Warning! t_0 <= 0 specified for CGCMM Angle",
                "***Warning! sigma <= 0 specified for CGCMM Angle" ]
    ∧ (exampleAngleForceNew.setParams exampleMath 0 (-2) 0 1 1 (-1)).1.m_K 0 = -2 :=
  ⟨by decide, by decide,
   (setParams_accepts exampleMath exampleAngleForceNew 0 (-2) 0 1 1 (-1) (by decide)
      (by decide)).1.trans (by norm_num),
   (setParams_accepts exampleMath exampleAngleForceNew 0 (-2) 0 1 1 (-1) (by decide)
      (by decide)).2.1⟩

/-- C19: construction of a component that needs the accelerator fails exactly when the
accelerator is unavailable: on a built base object, the constructor of `TwoStepNVEGPU`
and the constructor of `HarmonicImproperForceComputeGPU` each throw if and only if the
execution configuration reports CUDA as not enabled, and otherwise return an object. -/
theorem gpu_ctor_error_iff (nve : TwoStepNVE) (improper : HarmonicImproperForceCompute) :
    ((∃ e, TwoStepNVEGPU.ctor nve = .error e) ↔ nve.exec_conf.isCUDAEnabled = false)
    ∧ ((∃ obj, TwoStepNVEGPU.ctor nve = .ok obj) ↔ nve.exec_conf.isCUDAEnabled = true)
    ∧ ((∃ e, HarmonicImproperForceComputeGPU.ctor improper = .error e)
        ↔ improper.exec_conf.isCUDAEnabled = false)
    ∧ ((∃ obj, HarmonicImproperForceComputeGPU.ctor improper = .ok obj)
        ↔ improper.exec_conf.isCUDAEnabled = true) := by
  unfold TwoStepNVEGPU.ctor HarmonicImproperForceComputeGPU.ctor
  cases h1 : nve.exec_conf.isCUDAEnabled <;> cases h2 : improper.exec_conf.isCUDAEnabled <;>
    simp

/-- C20: when the group has no member, `integrateStepOne` and `integrateStepTwo` return
at once: the device arrays (positions, velocities, accelerations), the net force and the
record of events are as before, so nothing was acquired, no kernel was launched and the
profiler was not touched. -/
theorem nve_steps_empty_group (k : NVEKernels) (self : TwoStepNVEGPU)
    (pdata : DeviceParticleData) (timestep : Nat)
    (hempty : self.m_group.getNumMembers = 0) :
    self.integrateStepOne k pdata timestep = pdata
    ∧ self.integrateStepTwo k pdata timestep = pdata
    ∧ (self.integrateStepOne k pdata timestep).events = pdata.events
    ∧ (self.integrateStepTwo k pdata timestep).events = pdata.events := by
  have h1 : self.integrateStepOne k pdata timestep = pdata := by
    unfold TwoStepNVEGPU.integrateStepOne
    simp only [hempty, if_true]
  have h2 : self.integrateStepTwo k pdata timestep = pdata := by
    unfold TwoStepNVEGPU.integrateStepTwo
    simp only [hempty, if_true]
  rw [h1, h2]
  exact ⟨rfl, rfl, rfl, rfl⟩

/-- C20 on `exampleNVEEmpty`, with kernels that would move every particle. -/
theorem nve_steps_empty_group_witness :
    exampleNVEEmpty.m_group.getNumMembers = 0
    ∧ exampleNVEEmpty.integrateStepOne exampleKernels exampleDeviceData 5 = exampleDeviceData
    ∧ exampleNVEEmpty.integrateStepTwo exampleKernels exampleDeviceData 5 = exampleDeviceData
    ∧ (exampleNVEEmpty.integrateStepOne exampleKernels exampleDeviceData 5).events = []
    ∧ (exampleNVEEmpty.integrateStepTwo exampleKernels exampleDeviceData 5).events = [] :=
  ⟨rfl, nve_steps_empty_group exampleKernels exampleNVEEmpty exampleDeviceData 5 rfl⟩

/-- C16: for a single angle of three distinct particles at distinct positions whose
angle is the equilibrium angle (the arc cosine of the clamped cosine equals `t_0`),
`computeForces` leaves no bending force: the harmonic terms `fab` and `fcb` are zero, the
force on `b` is zero, and the forces on `a` and `c` are `+fac·d_ac` and `-fac·d_ac`,
where `fac` is the factor of the 1-3 repulsion, itself zero when `r_ac` is not below the
cutoff. -/
theorem equilibrium_angle_forces (libm : MathFunctions) (arrays : ParticleDataArraysConst)
    (box : BoxDim) (self : CGCMMAngleForceCompute) (timestep : Nat) (angle : Angle)
    (hangles : self.m_CGCMMAngle_data.angles = [angle])
    (hab : arrays.rtag angle.a ≠ arrays.rtag angle.b)
    (hbc : arrays.rtag angle.b ≠ arrays.rtag angle.c)
    (hac : arrays.rtag angle.a ≠ arrays.rtag angle.c)
    (_hpos_ab : (self.angleLocals libm arrays box angle).rsqab ≠ 0)
    (_hpos_cb : (self.angleLocals libm arrays box angle).rsqcb ≠ 0)
    (_hpos_ac : (self.angleLocals libm arrays box angle).rsqac ≠ 0)
    (heq : libm.acos (self.angleLocals libm arrays box angle).c_abbc
      = self.m_t_0 angle.type) :
    ((self.angleLocals libm arrays box angle).fab0 = 0
      ∧ (self.angleLocals libm arrays box angle).fab1 = 0
      ∧ (self.angleLocals libm arrays box angle).fab2 = 0
      ∧ (self.angleLocals libm arrays box angle).fcb0 = 0
      ∧ (self.angleLocals libm arrays box angle).fcb1 = 0
      ∧ (self.angleLocals libm arrays box angle).fcb2 = 0)
    ∧ ((self.computeForces libm arrays box timestep).m_force (arrays.rtag angle.b)).x = 0
    ∧ ((self.computeForces libm arrays box timestep).m_force (arrays.rtag angle.b)).y = 0
    ∧ ((self.computeForces libm arrays box timestep).m_force (arrays.rtag angle.b)).z = 0
    ∧ ((self.computeForces libm arrays box timestep).m_force (arrays.rtag angle.a)).x
        = (self.angleLocals libm arrays box angle).fac
          * (self.angleLocals libm arrays box angle).dxac
    ∧ ((self.computeForces libm arrays box timestep).m_force (arrays.rtag angle.a)).y
        = (self.angleLocals libm arrays box angle).fac
          * (self.angleLocals libm arrays box angle).dyac
    ∧ ((self.computeForces libm arrays box timestep).m_force (arrays.rtag angle.a)).z
        = (self.angleLocals libm arrays box angle).fac
          * (self.angleLocals libm arrays box angle).dzac
    ∧ ((self.computeForces libm arrays box timestep).m_force (arrays.rtag angle.c)).x
        = -((self.angleLocals libm arrays box angle).fac
          * (self.angleLocals libm arrays box angle).dxac)
    ∧ ((self.computeForces libm arrays box timestep).m_force (arrays.rtag angle.c)).y
        = -((self.angleLocals libm arrays box angle).fac
          * (self.angleLocals libm arrays box angle).dyac)
    ∧ ((self.computeForces libm arrays box timestep).m_force (arrays.rtag angle.c)).z
        = -((self.angleLocals libm arrays box angle).fac
          * (self.angleLocals libm arrays box angle).dzac)
    ∧ (¬ (self.angleLocals libm arrays box angle).rac < self.m_rcut angle.type
        → (self.angleLocals libm arrays box angle).fac = 0) := by
  have hz := angleLocals_harmonic_zero libm self arrays box angle heq
  obtain ⟨h0, h1, h2, h3, h4, h5⟩ := hz
  have hbufs := computeForces_single libm arrays box self timestep angle hangles
  have hf := accumulateAngle_force zeroedBuffers (self.angleLocals libm arrays box angle)
    hab hbc hac
  have hmf : (self.computeForces libm arrays box timestep).m_force
      = (accumulateAngle zeroedBuffers (self.angleLocals libm arrays box angle)).m_force :=
    congrArg ForceCompute.m_force hbufs
  have ha : (self.angleLocals libm arrays box angle).idx_a = arrays.rtag angle.a := rfl
  have hb : (self.angleLocals libm arrays box angle).idx_b = arrays.rtag angle.b := rfl
  have hc : (self.angleLocals libm arrays box angle).idx_c = arrays.rtag angle.c := rfl
  rw [ha, hb, hc] at hf
  obtain ⟨hfa, hfb, hfc⟩ := hf
  rw [hmf, hfa, hfb, hfc, h0, h1, h2, h3, h4, h5]
  refine ⟨⟨rfl, rfl, rfl, rfl, rfl, rfl⟩, ?_, ?_, ?_, ?_, ?_, ?_, ?_, ?_, ?_, ?_⟩
  all_goals first
    | exact fun hcut => (angleLocals_no_repulsion libm self arrays box angle hcut).1
    | simp [zeroedBuffers]

/-- C16 on `exampleAngleForceWide`: the angle of `exampleArrays` is a right angle, the
stand-in arc cosine of its cosine 0 is the equilibrium angle 11/7, and the 1-3 distance 5
is below the cutoff 6: the force on particle 1 is zero and the force on particle 0 is the
repulsion alone, with a factor that is not zero. -/
theorem equilibrium_angle_forces_witness :
    exampleAngleForceWide.m_CGCMMAngle_data.angles = [exampleAngle]
    ∧ exampleMath.acos
        (exampleAngleForceWide.angleLocals exampleMath exampleArrays exampleBox exampleAngle).c_abbc
        = exampleAngleForceWide.m_t_0 exampleAngle.type
    ∧ ((exampleAngleForceWide.computeForces exampleMath exampleArrays exampleBox 0).m_force 1).x
        = 0
    ∧ ((exampleAngleForceWide.computeForces exampleMath exampleArrays exampleBox 0).m_force 0).x
        = (exampleAngleForceWide.angleLocals exampleMath exampleArrays exampleBox exampleAngle).fac
          * (exampleAngleForceWide.angleLocals exampleMath exampleArrays exampleBox
              exampleAngle).dxac
    ∧ (exampleAngleForceWide.angleLocals exampleMath exampleArrays exampleBox exampleAngle).fac
        = -20007 / 195312500
    ∧ (exampleAngleForceWide.angleLocals exampleMath exampleArrays exampleBox exampleAngle).dxac
        = 3 := by
  have heq : exampleMath.acos
      (exampleAngleForceWide.angleLocals exampleMath exampleArrays exampleBox exampleAngle).c_abbc
      = exampleAngleForceWide.m_t_0 exampleAngle.type := by
    norm_num [CGCMMAngleForceCompute.angleLocals, exampleAngleForceWide, exampleAngleForce,
      exampleAngleForceNew, exampleArrays, exampleBox, exampleMath, exampleAngle, pullBack]
  have h := equilibrium_angle_forces exampleMath exampleArrays exampleBox exampleAngleForceWide
    0 exampleAngle rfl (by decide) (by decide) (by decide)
    (by norm_num [CGCMMAngleForceCompute.angleLocals, exampleArrays, exampleBox, exampleAngle,
      pullBack])
    (by norm_num [CGCMMAngleForceCompute.angleLocals, exampleArrays, exampleBox, exampleAngle,
      pullBack])
    (by norm_num [CGCMMAngleForceCompute.angleLocals, exampleArrays, exampleBox, exampleAngle,
      pullBack])
    heq
  refine ⟨rfl, heq, h.2.1, h.2.2.2.2.1, ?_, ?_⟩
  · norm_num [CGCMMAngleForceCompute.angleLocals, exampleAngleForceWide, exampleAngleForce,
      exampleAngleForceNew, exampleArrays, exampleBox, exampleMath, exampleAngle, pullBack,
      presetArray, (by decide : Int.toNat 9 = 9), (by decide : Int.toNat 6 = 6)]
  · norm_num [CGCMMAngleForceCompute.angleLocals, exampleArrays, exampleBox, exampleAngle,
      pullBack]

/-- C17: for an angle of three distinct particles whose 1-3 distance is not below the
cutoff of its type (`r_ac ≥ rcut`), the repulsive term contributes nothing: `fac`, `eac`
and the three repulsive virial terms are 0, and what the angle adds to any buffers is
the harmonic part alone: the forces `fab`, `-(fab + fcb)` and `fcb`, the energy
`K·dθ²/6` for each particle, and the virial a sixth of the harmonic sum. -/
theorem no_repulsion_beyond_cutoff (libm : MathFunctions) (arrays : ParticleDataArraysConst)
    (box : BoxDim) (self : CGCMMAngleForceCompute) (angle : Angle) (bufs : ForceCompute)
    (hab : arrays.rtag angle.a ≠ arrays.rtag angle.b)
    (hbc : arrays.rtag angle.b ≠ arrays.rtag angle.c)
    (hac : arrays.rtag angle.a ≠ arrays.rtag angle.c)
    (hcut : self.m_rcut angle.type ≤ (self.angleLocals libm arrays box angle).rac) :
    (self.angleLocals libm arrays box angle).fac = 0
    ∧ (self.angleLocals libm arrays box angle).eac = 0
    ∧ (self.angleLocals libm arrays box angle).vacX = 0
    ∧ (self.angleLocals libm arrays box angle).vacY = 0
    ∧ (self.angleLocals libm arrays box angle).vacZ = 0
    ∧ (accumulateAngle bufs (self.angleLocals libm arrays box angle)).m_force
          (arrays.rtag angle.a)
        = ⟨(bufs.m_force (arrays.rtag angle.a)).x
              + (self.angleLocals libm arrays box angle).fab0,
           (bufs.m_force (arrays.rtag angle.a)).y
              + (self.angleLocals libm arrays box angle).fab1,
           (bufs.m_force (arrays.rtag angle.a)).z
              + (self.angleLocals libm arrays box angle).fab2,
           (bufs.m_force (arrays.rtag angle.a)).w
              + self.m_K angle.type * (self.angleLocals libm arrays box angle).dth
                  * (self.angleLocals libm arrays box angle).dth / 6⟩
    ∧ (accumulateAngle bufs (self.angleLocals libm arrays box angle)).m_force
          (arrays.rtag angle.b)
        = ⟨(bufs.m_force (arrays.rtag angle.b)).x
              - ((self.angleLocals libm arrays box angle).fab0
                  + (self.angleLocals libm arrays box angle).fcb0),
           (bufs.m_force (arrays.rtag angle.b)).y
              - ((self.angleLocals libm arrays box angle).fab1
                  + (self.angleLocals libm arrays box angle).fcb1),
           (bufs.m_force (arrays.rtag angle.b)).z
              - ((self.angleLocals libm arrays box angle).fab2
                  + (self.angleLocals libm arrays box angle).fcb2),
           (bufs.m_force (arrays.rtag angle.b)).w
              + self.m_K angle.type * (self.angleLocals libm arrays box angle).dth
                  * (self.angleLocals libm arrays box angle).dth / 6⟩
    ∧ (accumulateAngle bufs (self.angleLocals libm arrays box angle)).m_force
          (arrays.rtag angle.c)
        = ⟨(bufs.m_force (arrays.rtag angle.c)).x
              + (self.angleLocals libm arrays box angle).fcb0,
           (bufs.m_force (arrays.rtag angle.c)).y
              + (self.angleLocals libm arrays box angle).fcb1,
           (bufs.m_force (arrays.rtag angle.c)).z
              + (self.angleLocals libm arrays box angle).fcb2,
           (bufs.m_force (arrays.rtag angle.c)).w
              + self.m_K angle.type * (self.angleLocals libm arrays box angle).dth
                  * (self.angleLocals libm arrays box angle).dth / 6⟩
    ∧ (self.angleLocals libm arrays box angle).angle_virial
        = 1 / 6 * (((self.angleLocals libm arrays box angle).dxab
                      * (self.angleLocals libm arrays box angle).fab0
                    + (self.angleLocals libm arrays box angle).dxcb
                      * (self.angleLocals libm arrays box angle).fcb0)
                  + ((self.angleLocals libm arrays box angle).dyab
                      * (self.angleLocals libm arrays box angle).fab1
                    + (self.angleLocals libm arrays box angle).dycb
                      * (self.angleLocals libm arrays box angle).fcb1)
                  + ((self.angleLocals libm arrays box angle).dzab
                      * (self.angleLocals libm arrays box angle).fab2
                    + (self.angleLocals libm arrays box angle).dzcb
                      * (self.angleLocals libm arrays box angle).fcb2))
    ∧ (∀ j, j = arrays.rtag angle.a ∨ j = arrays.rtag angle.b ∨ j = arrays.rtag angle.c →
        (accumulateAngle bufs (self.angleLocals libm arrays box angle)).m_virial j
          = bufs.m_virial j + (self.angleLocals libm arrays box angle).angle_virial) := by
  obtain ⟨hfac, heac, hvx, hvy, hvz⟩ :=
    angleLocals_no_repulsion libm self arrays box angle (not_lt.mpr hcut)
  have heng : (self.angleLocals libm arrays box angle).angle_eng
      = self.m_K angle.type * (self.angleLocals libm arrays box angle).dth
          * (self.angleLocals libm arrays box angle).dth / 6 := by
    have h : (self.angleLocals libm arrays box angle).angle_eng
        = (1 / 2 * (self.m_K angle.type * (self.angleLocals libm arrays box angle).dth)
            * (self.angleLocals libm arrays box angle).dth
            + (self.angleLocals libm arrays box angle).eac) * (1 / 3) := rfl
    rw [h, heac]
    ring
  have hvir : (self.angleLocals libm arrays box angle).angle_virial
      = 1 / 6 * (((self.angleLocals libm arrays box angle).dxab
                    * (self.angleLocals libm arrays box angle).fab0
                  + (self.angleLocals libm arrays box angle).dxcb
                    * (self.angleLocals libm arrays box angle).fcb0
                  + (self.angleLocals libm arrays box angle).vacX)
                + ((self.angleLocals libm arrays box angle).dyab
                    * (self.angleLocals libm arrays box angle).fab1
                  + (self.angleLocals libm arrays box angle).dycb
                    * (self.angleLocals libm arrays box angle).fcb1
                  + (self.angleLocals libm arrays box angle).vacY)
                + ((self.angleLocals libm arrays box angle).dzab
                    * (self.angleLocals libm arrays box angle).fab2
                  + (self.angleLocals libm arrays box angle).dzcb
                    * (self.angleLocals libm arrays box angle).fcb2
                  + (self.angleLocals libm arrays box angle).vacZ)) := rfl
  have hf := accumulateAngle_force bufs (self.angleLocals libm arrays box angle) hab hbc hac
  have hv := accumulateAngle_virial bufs (self.angleLocals libm arrays box angle) hab hbc hac
  have ha : (self.angleLocals libm arrays box angle).idx_a = arrays.rtag angle.a := rfl
  have hb : (self.angleLocals libm arrays box angle).idx_b = arrays.rtag angle.b := rfl
  have hc : (self.angleLocals libm arrays box angle).idx_c = arrays.rtag angle.c := rfl
  rw [ha, hb, hc] at hf hv
  obtain ⟨hfa, hfb, hfc⟩ := hf
  obtain ⟨hva, hvb, hvc⟩ := hv
  refine ⟨hfac, heac, hvx, hvy, hvz, ?_, ?_, ?_, ?_, ?_⟩
  · rw [hfa, hfac, heng]
    simp
  · rw [hfb, heng]
  · rw [hfc, hfac, heng]
    simp
  · rw [hvir, hvx, hvy, hvz]
    simp
  · rintro j (rfl | rfl | rfl)
    · exact hva
    · exact hvb
    · exact hvc

/-- C17 on `exampleAngleForceBent`: the 1-3 distance 5 of `exampleArrays` is not below
the cutoff 7/6, the repulsion is zero and zeroed buffers receive the harmonic force
alone, whose `y` component on particle 0 is 8/21. -/
theorem no_repulsion_beyond_cutoff_witness :
    exampleAngleForceBent.m_rcut exampleAngle.type
        ≤ (exampleAngleForceBent.angleLocals exampleMath exampleArrays exampleBox
            exampleAngle).rac
    ∧ (exampleAngleForceBent.angleLocals exampleMath exampleArrays exampleBox exampleAngle).fac
        = 0
    ∧ (exampleAngleForceBent.angleLocals exampleMath exampleArrays exampleBox exampleAngle).eac
        = 0
    ∧ (exampleAngleForceBent.angleLocals exampleMath exampleArrays exampleBox exampleAngle).fab1
        = 8 / 21 := by
  have hcut : exampleAngleForceBent.m_rcut exampleAngle.type
      ≤ (exampleAngleForceBent.angleLocals exampleMath exampleArrays exampleBox
          exampleAngle).rac := by
    norm_num [CGCMMAngleForceCompute.angleLocals, exampleAngleForceBent, exampleAngleForce,
      exampleAngleForceNew, exampleArrays, exampleBox, exampleMath, exampleAngle, pullBack]
  have h := no_repulsion_beyond_cutoff exampleMath exampleArrays exampleBox
    exampleAngleForceBent exampleAngle zeroedBuffers (by decide) (by decide) (by decide) hcut
  refine ⟨hcut, h.1, h.2.1, ?_⟩
  norm_num [CGCMMAngleForceCompute.angleLocals, exampleAngleForceBent, exampleAngleForce,
    exampleAngleForceNew, exampleArrays, exampleBox, exampleMath, exampleAngle, pullBack, SMALL]

/-- C18: periodic invariance of `computeForces`: for every configuration and all
integers `kx`, `ky`, `kz`, moving every particle by `(kx·Lx, ky·Ly, kz·Lz)` leaves the
object that `computeForces` returns, and with it every entry of the force, energy and
virial buffers, identical, in exact arithmetic. -/
theorem computeForces_periodic_invariance (libm : MathFunctions)
    (arrays : ParticleDataArraysConst) (box : BoxDim) (self : CGCMMAngleForceCompute)
    (timestep : Nat) (kx ky kz : ℤ) :
    self.computeForces libm
        (arrays.translate (kx * (box.xhi - box.xlo)) (ky * (box.yhi - box.ylo))
          (kz * (box.zhi - box.zlo))) box timestep
      = self.computeForces libm arrays box timestep := by
  unfold CGCMMAngleForceCompute.computeForces
  simp only [angleLocals_translate]

/-- C21: `FIREEnergyMinimizer::getRequestedPDataFlags` requests the potential energy and
nothing else: in the returned set the bit of the potential energy is set and the bits of
the virial, the pressure tensor, the isotropic virial and the rotational kinetic energy
are clear, and the set does not depend on the state of the minimizer. -/
theorem getRequestedPDataFlags_spec (self other : FIREEnergyMinimizer) :
    self.getRequestedPDataFlags pdata_flag.potential_energy = true
    ∧ self.getRequestedPDataFlags pdata_flag.virial = false
    ∧ self.getRequestedPDataFlags pdata_flag.pressure_tensor = false
    ∧ self.getRequestedPDataFlags pdata_flag.isotropic_virial = false
    ∧ self.getRequestedPDataFlags pdata_flag.rotational_kinetic_energy = false
    ∧ (∀ f, self.getRequestedPDataFlags f = true ↔ f = pdata_flag.potential_energy)
    ∧ self.getRequestedPDataFlags = other.getRequestedPDataFlags := by
  refine ⟨rfl, rfl, rfl, rfl, rfl, ?_, rfl⟩
  intro f
  cases f <;> simp [FIREEnergyMinimizer.getRequestedPDataFlags]

/-- C22, the claim as stated fails at the boundary: in `exampleSysdefThinAxis` the
rotational kinetic energy is requested and the moment of inertia about the first axis
equals `EPSILON`, so it does not exceed it; yet the code, which tests `I.x >= EPSILON`,
counts that axis: it stores 1000002, while the sum over the axes whose moment of inertia
exceeds `EPSILON` is 2. -/
theorem keRot_boundary_counterexample :
    exampleSysdefThinAxis.pdata.flags pdata_flag.rotational_kinetic_energy = true
    ∧ (exampleSysdefThinAxis.pdata.inertia 0).x = exampleEpsilon
    ∧ (exampleSysdefThinAxis.pdata.inertia 1).x = exampleEpsilon
    ∧ (exampleThermo.computeProperties exampleEpsilon
        exampleSysdefThinAxis).m_properties.rotational_kinetic_energy = 1000002
    ∧ specKeRotExceeds exampleEpsilon exampleSysdefThinAxis.pdata exampleThermo.m_group.members
        = 2
    ∧ (exampleThermo.computeProperties exampleEpsilon
        exampleSysdefThinAxis).m_properties.rotational_kinetic_energy
        ≠ specKeRotExceeds exampleEpsilon exampleSysdefThinAxis.pdata
            exampleThermo.m_group.members := by
  have h1 : (exampleThermo.computeProperties exampleEpsilon
      exampleSysdefThinAxis).m_properties.rotational_kinetic_energy = 1000002 := by
    norm_num [ComputeThermo.computeProperties, exampleThermo, ComputeThermo.ctor,
      ParticleGroup.getNumMembersGlobal, keRotTotal, exampleSysdefThinAxis, exampleSysdef,
      keRotStep, exampleEpsilon, quat.mul, quat.smul, quat.ofScalar4, conj]
  have h2 : specKeRotExceeds exampleEpsilon exampleSysdefThinAxis.pdata
      exampleThermo.m_group.members = 2 := by
    norm_num [specKeRotExceeds, bodyAngularMomentum, exampleThermo, ComputeThermo.ctor,
      exampleSysdefThinAxis, exampleSysdef, exampleEpsilon, quat.mul, quat.smul,
      quat.ofScalar4, conj]
  refine ⟨rfl, ?_, ?_, h1, h2, ?_⟩
  · norm_num [exampleSysdefThinAxis, exampleEpsilon]
  · norm_num [exampleSysdefThinAxis, exampleEpsilon]
  · rw [h1, h2]
    norm_num

/-- C22, amended: for a group that is not empty, when the rotational kinetic energy is
requested the stored value is half the sum, over the members and the three principal
axes, of `s_axis² / I_axis` with `s = ½·conj(q)·p`, taken for the axes whose moment of
inertia is at least `EPSILON`; an axis whose moment of inertia is below `EPSILON`
contributes nothing; when the flag is not requested the stored value is 0. -/
theorem keRot_eq_spec_sum (EPSILON : Scalar) (sysdef : SystemDefinition)
    (self : ComputeThermo) (hne : self.m_group.getNumMembersGlobal ≠ 0) :
    (self.computeProperties EPSILON sysdef).m_properties.rotational_kinetic_energy
      = if sysdef.pdata.flags pdata_flag.rotational_kinetic_energy then
          specKeRotAtLeast EPSILON sysdef.pdata self.m_group.members
        else 0 := by
  rw [computeProperties_of_nonempty EPSILON sysdef self hne]
  show keRotTotal EPSILON sysdef.pdata self.m_group.members = _
  unfold keRotTotal specKeRotAtLeast
  rw [keRot_foldl_eq_sum, zero_add]

/-- C22, amended, on `exampleThermo` and `exampleSysdefThinAxis`: the stored value is the
sum that counts the axis with moment of inertia `EPSILON`, 1000002. -/
theorem keRot_eq_spec_sum_witness :
    exampleThermo.m_group.getNumMembersGlobal ≠ 0
    ∧ (exampleThermo.computeProperties exampleEpsilon
        exampleSysdefThinAxis).m_properties.rotational_kinetic_energy
      = (if exampleSysdefThinAxis.pdata.flags pdata_flag.rotational_kinetic_energy then
          specKeRotAtLeast exampleEpsilon exampleSysdefThinAxis.pdata
            exampleThermo.m_group.members
        else 0)
    ∧ specKeRotAtLeast exampleEpsilon exampleSysdefThinAxis.pdata
        exampleThermo.m_group.members = 1000002 :=
  ⟨by decide, keRot_eq_spec_sum exampleEpsilon exampleSysdefThinAxis exampleThermo (by decide),
   by norm_num [specKeRotAtLeast, bodyAngularMomentum, exampleThermo, ComputeThermo.ctor,
      exampleSysdefThinAxis, exampleSysdef, exampleEpsilon, quat.mul, quat.smul,
      quat.ofScalar4, conj]⟩

/-- C23: for every angle of three distinct particles, `computeForces` adds the same
energy to `a`, `b` and `c`, one third of the energy `½·K·dθ² + eac` of the angle, and
the same scalar virial `(1/6)·(vx + vy + vz)`; the three energies add up to the full
energy of the angle. -/
theorem angle_energy_virial_shares (libm : MathFunctions) (arrays : ParticleDataArraysConst)
    (box : BoxDim) (self : CGCMMAngleForceCompute) (angle : Angle) (bufs : ForceCompute)
    (hab : arrays.rtag angle.a ≠ arrays.rtag angle.b)
    (hbc : arrays.rtag angle.b ≠ arrays.rtag angle.c)
    (hac : arrays.rtag angle.a ≠ arrays.rtag angle.c) :
    (∀ j, j = arrays.rtag angle.a ∨ j = arrays.rtag angle.b ∨ j = arrays.rtag angle.c →
        ((accumulateAngle bufs (self.angleLocals libm arrays box angle)).m_force j).w
            = (bufs.m_force j).w + (self.angleLocals libm arrays box angle).angle_eng
        ∧ (accumulateAngle bufs (self.angleLocals libm arrays box angle)).m_virial j
            = bufs.m_virial j + (self.angleLocals libm arrays box angle).angle_virial)
    ∧ (self.angleLocals libm arrays box angle).angle_eng
        = 1 / 3 * (1 / 2 * self.m_K angle.type * (self.angleLocals libm arrays box angle).dth
              * (self.angleLocals libm arrays box angle).dth
            + (self.angleLocals libm arrays box angle).eac)
    ∧ (self.angleLocals libm arrays box angle).angle_virial
        = 1 / 6 * (((self.angleLocals libm arrays box angle).dxab
                      * (self.angleLocals libm arrays box angle).fab0
                    + (self.angleLocals libm arrays box angle).dxcb
                      * (self.angleLocals libm arrays box angle).fcb0
                    + (self.angleLocals libm arrays box angle).vacX)
                  + ((self.angleLocals libm arrays box angle).dyab
                      * (self.angleLocals libm arrays box angle).fab1
                    + (self.angleLocals libm arrays box angle).dycb
                      * (self.angleLocals libm arrays box angle).fcb1
                    + (self.angleLocals libm arrays box angle).vacY)
                  + ((self.angleLocals libm arrays box angle).dzab
                      * (self.angleLocals libm arrays box angle).fab2
                    + (self.angleLocals libm arrays box angle).dzcb
                      * (self.angleLocals libm arrays box angle).fcb2
                    + (self.angleLocals libm arrays box angle).vacZ))
    ∧ (self.angleLocals libm arrays box angle).angle_eng
          + (self.angleLocals libm arrays box angle).angle_eng
          + (self.angleLocals libm arrays box angle).angle_eng
        = 1 / 2 * self.m_K angle.type * (self.angleLocals libm arrays box angle).dth
              * (self.angleLocals libm arrays box angle).dth
            + (self.angleLocals libm arrays box angle).eac := by
  have heng : (self.angleLocals libm arrays box angle).angle_eng
      = (1 / 2 * (self.m_K angle.type * (self.angleLocals libm arrays box angle).dth)
          * (self.angleLocals libm arrays box angle).dth
          + (self.angleLocals libm arrays box angle).eac) * (1 / 3) := rfl
  have hf := accumulateAngle_force bufs (self.angleLocals libm arrays box angle) hab hbc hac
  have hv := accumulateAngle_virial bufs (self.angleLocals libm arrays box angle) hab hbc hac
  have ha : (self.angleLocals libm arrays box angle).idx_a = arrays.rtag angle.a := rfl
  have hb : (self.angleLocals libm arrays box angle).idx_b = arrays.rtag angle.b := rfl
  have hc : (self.angleLocals libm arrays box angle).idx_c = arrays.rtag angle.c := rfl
  rw [ha, hb, hc] at hf hv
  obtain ⟨hfa, hfb, hfc⟩ := hf
  obtain ⟨hva, hvb, hvc⟩ := hv
  refine ⟨?_, ?_, rfl, ?_⟩
  · rintro j (rfl | rfl | rfl)
    · exact ⟨by rw [hfa], hva⟩
    · exact ⟨by rw [hfb], hvb⟩
    · exact ⟨by rw [hfc], hvc⟩
  · rw [heng]
    ring
  · rw [heng]
    ring

/-- C23 on `exampleAngleForceBent` and zeroed buffers: each of the particles 0, 1, 2
receives the energy 16/147, a third of the energy 16/49 of the angle. -/
theorem angle_energy_virial_shares_witness :
    exampleArrays.rtag exampleAngle.a ≠ exampleArrays.rtag exampleAngle.b
    ∧ exampleArrays.rtag exampleAngle.b ≠ exampleArrays.rtag exampleAngle.c
    ∧ exampleArrays.rtag exampleAngle.a ≠ exampleArrays.rtag exampleAngle.c
    ∧ ((accumulateAngle zeroedBuffers (exampleAngleForceBent.angleLocals exampleMath
          exampleArrays exampleBox exampleAngle)).m_force 1).w
        = (zeroedBuffers.m_force 1).w + (exampleAngleForceBent.angleLocals exampleMath
            exampleArrays exampleBox exampleAngle).angle_eng
    ∧ (exampleAngleForceBent.angleLocals exampleMath exampleArrays exampleBox
          exampleAngle).angle_eng = 16 / 147 := by
  have h := angle_energy_virial_shares exampleMath exampleArrays exampleBox
    exampleAngleForceBent exampleAngle zeroedBuffers (by decide) (by decide) (by decide)
  refine ⟨by decide, by decide, by decide, (h.1 1 (Or.inr (Or.inl rfl))).1, ?_⟩
  norm_num [CGCMMAngleForceCompute.angleLocals, exampleAngleForceBent, exampleAngleForce,
    exampleAngleForceNew, exampleArrays, exampleBox, exampleMath, exampleAngle, pullBack]

/-- C24, the claim as stated fails: `exampleAngleForcePrior` holds 1 in every entry of
its buffers and its only angle is the one of particles 0, 1, 2. After `computeForces`
the entries of particle 5, which is in no angle, are 0 and not the prior 1, and the `y`
force of particle 0 is the term 8/21 of the angle alone, without the prior 1. -/
theorem computeForces_overwrites_counterexample :
    exampleAngleForcePrior.m_CGCMMAngle_data.angles = [⟨0, 0, 1, 2⟩]
    ∧ (exampleAngleForcePrior.m_force 5).x = 1
    ∧ exampleAngleForcePrior.m_virial 5 = 1
    ∧ ((exampleAngleForcePrior.computeForces exampleMath exampleArrays exampleBox 0).m_force
        5).x = 0
    ∧ (exampleAngleForcePrior.computeForces exampleMath exampleArrays exampleBox 0).m_virial 5
        = 0
    ∧ (exampleAngleForcePrior.m_force 0).y = 1
    ∧ forceTermY (exampleAngleForcePrior.angleLocals exampleMath exampleArrays exampleBox
        exampleAngle) 0 = 8 / 21
    ∧ ((exampleAngleForcePrior.computeForces exampleMath exampleArrays exampleBox 0).m_force
        0).y = 8 / 21 := by
  have hb := computeForces_single exampleMath exampleArrays exampleBox exampleAngleForcePrior 0
    exampleAngle rfl
  have hf : (exampleAngleForcePrior.computeForces exampleMath exampleArrays exampleBox
      0).m_force = (accumulateAngle zeroedBuffers (exampleAngleForcePrior.angleLocals
        exampleMath exampleArrays exampleBox exampleAngle)).m_force :=
    congrArg ForceCompute.m_force hb
  have hv : (exampleAngleForcePrior.computeForces exampleMath exampleArrays exampleBox
      0).m_virial = (accumulateAngle zeroedBuffers (exampleAngleForcePrior.angleLocals
        exampleMath exampleArrays exampleBox exampleAngle)).m_virial :=
    congrArg ForceCompute.m_virial hb
  have hterm : forceTermY (exampleAngleForcePrior.angleLocals exampleMath exampleArrays
      exampleBox exampleAngle) 0 = 8 / 21 := by
    norm_num [forceTermY, CGCMMAngleForceCompute.angleLocals, exampleAngleForcePrior,
      exampleAngleForceBent, exampleAngleForce, exampleAngleForceNew, exampleArrays,
      exampleBox, exampleMath, exampleAngle, pullBack, SMALL]
  have h5 := terms_of_not_involved (exampleAngleForcePrior.angleLocals exampleMath
    exampleArrays exampleBox exampleAngle) 5 (by decide) (by decide) (by decide)
  have a5 := accumulateAngle_apply zeroedBuffers (exampleAngleForcePrior.angleLocals
    exampleMath exampleArrays exampleBox exampleAngle) 5
  have a0 := accumulateAngle_apply zeroedBuffers (exampleAngleForcePrior.angleLocals
    exampleMath exampleArrays exampleBox exampleAngle) 0
  refine ⟨rfl, rfl, rfl, ?_, ?_, rfl, hterm, ?_⟩
  · rw [hf, a5.1, h5.1]
    simp [zeroedBuffers]
  · rw [hv, a5.2.2.2.2, h5.2.2.2.2]
    simp [zeroedBuffers]
  · rw [hf, a0.2.1, hterm]
    simp [zeroedBuffers]

/-- C24, amended: `computeForces` first zeroes its force and virial buffers and then
accumulates: for every prior content of the buffers, each entry after the call equals
the sum of the contributions of the angles that involve that particle, without the prior
value, and the entries of a particle that is in no angle are zero; the result does not
depend on the prior content. -/
theorem computeForces_from_zero (libm : MathFunctions) (arrays : ParticleDataArraysConst)
    (box : BoxDim) (self : CGCMMAngleForceCompute) (timestep : Nat) (j : Nat) :
    (((self.computeForces libm arrays box timestep).m_force j).x
        = (self.m_CGCMMAngle_data.angles.map
            (fun angle => forceTermX (self.angleLocals libm arrays box angle) j)).sum
      ∧ ((self.computeForces libm arrays box timestep).m_force j).y
        = (self.m_CGCMMAngle_data.angles.map
            (fun angle => forceTermY (self.angleLocals libm arrays box angle) j)).sum
      ∧ ((self.computeForces libm arrays box timestep).m_force j).z
        = (self.m_CGCMMAngle_data.angles.map
            (fun angle => forceTermZ (self.angleLocals libm arrays box angle) j)).sum
      ∧ ((self.computeForces libm arrays box timestep).m_force j).w
        = (self.m_CGCMMAngle_data.angles.map
            (fun angle => energyTerm (self.angleLocals libm arrays box angle) j)).sum
      ∧ (self.computeForces libm arrays box timestep).m_virial j
        = (self.m_CGCMMAngle_data.angles.map
            (fun angle => virialTerm (self.angleLocals libm arrays box angle) j)).sum)
    ∧ ((∀ angle ∈ self.m_CGCMMAngle_data.angles, j ≠ arrays.rtag angle.a
          ∧ j ≠ arrays.rtag angle.b ∧ j ≠ arrays.rtag angle.c) →
        ((self.computeForces libm arrays box timestep).m_force j).x = 0
        ∧ ((self.computeForces libm arrays box timestep).m_force j).y = 0
        ∧ ((self.computeForces libm arrays box timestep).m_force j).z = 0
        ∧ ((self.computeForces libm arrays box timestep).m_force j).w = 0
        ∧ (self.computeForces libm arrays box timestep).m_virial j = 0)
    ∧ ∀ prior : ForceCompute,
        ({ self with toForceCompute := prior }.computeForces libm arrays box
            timestep).toForceCompute
          = (self.computeForces libm arrays box timestep).toForceCompute := by
  have hfold := accumulate_foldl_apply (fun angle => self.angleLocals libm arrays box angle)
    self.m_CGCMMAngle_data.angles j zeroedBuffers
  have hsum : ((self.computeForces libm arrays box timestep).m_force j).x
        = (self.m_CGCMMAngle_data.angles.map
            (fun angle => forceTermX (self.angleLocals libm arrays box angle) j)).sum
      ∧ ((self.computeForces libm arrays box timestep).m_force j).y
        = (self.m_CGCMMAngle_data.angles.map
            (fun angle => forceTermY (self.angleLocals libm arrays box angle) j)).sum
      ∧ ((self.computeForces libm arrays box timestep).m_force j).z
        = (self.m_CGCMMAngle_data.angles.map
            (fun angle => forceTermZ (self.angleLocals libm arrays box angle) j)).sum
      ∧ ((self.computeForces libm arrays box timestep).m_force j).w
        = (self.m_CGCMMAngle_data.angles.map
            (fun angle => energyTerm (self.angleLocals libm arrays box angle) j)).sum
      ∧ (self.computeForces libm arrays box timestep).m_virial j
        = (self.m_CGCMMAngle_data.angles.map
            (fun angle => virialTerm (self.angleLocals libm arrays box angle) j)).sum := by
    obtain ⟨hx, hy, hz, hw, hv⟩ := hfold
    refine ⟨?_, ?_, ?_, ?_, ?_⟩
    · exact hx.trans (by simp [zeroedBuffers])
    · exact hy.trans (by simp [zeroedBuffers])
    · exact hz.trans (by simp [zeroedBuffers])
    · exact hw.trans (by simp [zeroedBuffers])
    · exact hv.trans (by simp [zeroedBuffers])
  refine ⟨hsum, ?_, fun prior => rfl⟩
  intro hfree
  obtain ⟨hx, hy, hz, hw, hv⟩ := hsum
  rw [hx, hy, hz, hw, hv]
  refine ⟨?_, ?_, ?_, ?_, ?_⟩
  · exact sum_map_eq_zero _ _ (fun angle hmem =>
      (terms_of_not_involved _ j (hfree angle hmem).1 (hfree angle hmem).2.1
        (hfree angle hmem).2.2).1)
  · exact sum_map_eq_zero _ _ (fun angle hmem =>
      (terms_of_not_involved _ j (hfree angle hmem).1 (hfree angle hmem).2.1
        (hfree angle hmem).2.2).2.1)
  · exact sum_map_eq_zero _ _ (fun angle hmem =>
      (terms_of_not_involved _ j (hfree angle hmem).1 (hfree angle hmem).2.1
        (hfree angle hmem).2.2).2.2.1)
  · exact sum_map_eq_zero _ _ (fun angle hmem =>
      (terms_of_not_involved _ j (hfree angle hmem).1 (hfree angle hmem).2.1
        (hfree angle hmem).2.2).2.2.2.1)
  · exact sum_map_eq_zero _ _ (fun angle hmem =>
      (terms_of_not_involved _ j (hfree angle hmem).1 (hfree angle hmem).2.1
        (hfree angle hmem).2.2).2.2.2.2)

/-- C25: the wrap of `computeForces` yields the minimum image: for every box length
`L > 0` and every raw component `d` with `-L < d < L`, the wrapped component `d'`
differs from `d` by 0 or `±L`, satisfies `-L/2 ≤ d' < L/2`, and `|d'| ≤ |d + k·L|` for
every integer `k`. -/
theorem pullBack_minimum_image (L d : Scalar) (hL : 0 < L) (hlo : -L < d) (hhi : d < L) :
    (pullBack L (L / 2) d = d ∨ pullBack L (L / 2) d = d - L ∨ pullBack L (L / 2) d = d + L)
    ∧ -(L / 2) ≤ pullBack L (L / 2) d
    ∧ pullBack L (L / 2) d < L / 2
    ∧ ∀ k : ℤ, |pullBack L (L / 2) d| ≤ |d + k * L| := by
  obtain ⟨h1, h2⟩ := pullBack_range L d hlo hhi
  refine ⟨pullBack_cases L d, h1, h2, ?_⟩
  intro k
  rcases pullBack_cases L d with h | h | h
  · have e : d + k * L = pullBack L (L / 2) d + ((k : ℤ) : Scalar) * L := by rw [h]
    rw [e]
    exact abs_le_abs_add_int_mul L _ hL h1 h2 k
  · have e : d + k * L = pullBack L (L / 2) d + ((k + 1 : ℤ) : Scalar) * L := by
      rw [h]
      push_cast
      ring
    rw [e]
    exact abs_le_abs_add_int_mul L _ hL h1 h2 (k + 1)
  · have e : d + k * L = pullBack L (L / 2) d + ((k - 1 : ℤ) : Scalar) * L := by
      rw [h]
      push_cast
      ring
    rw [e]
    exact abs_le_abs_add_int_mul L _ hL h1 h2 (k - 1)

/-- C25 on the box length 20 and the raw component 13: the wrapped component is -7. -/
theorem pullBack_minimum_image_witness :
    (0 : Scalar) < 20 ∧ (-20 : Scalar) < 13 ∧ (13 : Scalar) < 20
    ∧ pullBack 20 (20 / 2) 13 = -7
    ∧ -(20 / 2 : Scalar) ≤ pullBack 20 (20 / 2) 13
    ∧ pullBack 20 (20 / 2) 13 < 20 / 2
    ∧ |pullBack 20 (20 / 2) 13| ≤ |(13 : Scalar) + ((3 : ℤ) : Scalar) * 20| :=
  ⟨by norm_num, by norm_num, by norm_num, by norm_num [pullBack],
   (pullBack_minimum_image 20 13 (by norm_num) (by norm_num) (by norm_num)).2.1,
   (pullBack_minimum_image 20 13 (by norm_num) (by norm_num) (by norm_num)).2.2.1,
   (pullBack_minimum_image 20 13 (by norm_num) (by norm_num) (by norm_num)).2.2.2 3⟩

/-- C26, as stated, fails for a raw cosine that is not a number. With particles `a` and
`b` at the same place (`exampleArraysCoincident`) the bond length `rab` and the dot
product are both zero, the raw cosine `0/0` is a NaN, both clamps and the floor compare
false and leave it: the value passed to the arc cosine is a NaN, not a number of
`[-1, 1]`, and the inverted sine is a NaN, not a number of `(0, 1000]`. -/
theorem cosine_clamp_nan_counterexample :
    (exampleAngleForce.angleLocals exampleMath exampleArraysCoincident exampleBox
        exampleAngle).rab = 0
    ∧ (exampleAngleForce.angleLocals exampleMath exampleArraysCoincident exampleBox
        exampleAngle).rcb = 4
    ∧ (exampleAngleForce.angleLocals exampleMath exampleArraysCoincident exampleBox
          exampleAngle).dxab
        * (exampleAngleForce.angleLocals exampleMath exampleArraysCoincident exampleBox
          exampleAngle).dxcb
      + (exampleAngleForce.angleLocals exampleMath exampleArraysCoincident exampleBox
          exampleAngle).dyab
        * (exampleAngleForce.angleLocals exampleMath exampleArraysCoincident exampleBox
          exampleAngle).dycb
      + (exampleAngleForce.angleLocals exampleMath exampleArraysCoincident exampleBox
          exampleAngle).dzab
        * (exampleAngleForce.angleLocals exampleMath exampleArraysCoincident exampleBox
          exampleAngle).dzcb = 0
    ∧ rawCosineIEEE (exampleAngleForce.angleLocals exampleMath exampleArraysCoincident
        exampleBox exampleAngle) = IEEEValue.nan
    ∧ clampedCosineIEEE (rawCosineIEEE (exampleAngleForce.angleLocals exampleMath
        exampleArraysCoincident exampleBox exampleAngle)) = IEEEValue.nan
    ∧ invertedSineIEEE exampleMath (clampedCosineIEEE (rawCosineIEEE
        (exampleAngleForce.angleLocals exampleMath exampleArraysCoincident exampleBox
          exampleAngle))) = IEEEValue.nan
    ∧ ¬ (∃ c : Scalar, clampedCosineIEEE (rawCosineIEEE (exampleAngleForce.angleLocals
          exampleMath exampleArraysCoincident exampleBox exampleAngle)) = IEEEValue.finite c
        ∧ -1 ≤ c ∧ c ≤ 1)
    ∧ ¬ (∃ s : Scalar, invertedSineIEEE exampleMath (clampedCosineIEEE (rawCosineIEEE
          (exampleAngleForce.angleLocals exampleMath exampleArraysCoincident exampleBox
            exampleAngle))) = IEEEValue.finite s
        ∧ 0 < s ∧ s ≤ 1000) := by
  have hrab : (exampleAngleForce.angleLocals exampleMath exampleArraysCoincident exampleBox
      exampleAngle).rab = 0 := by
    norm_num [CGCMMAngleForceCompute.angleLocals, exampleArraysCoincident, exampleBox,
      exampleMath, exampleAngle, pullBack]
  have hrcb : (exampleAngleForce.angleLocals exampleMath exampleArraysCoincident exampleBox
      exampleAngle).rcb = 4 := by
    norm_num [CGCMMAngleForceCompute.angleLocals, exampleArraysCoincident, exampleBox,
      exampleMath, exampleAngle, pullBack]
  have hdot : (exampleAngleForce.angleLocals exampleMath exampleArraysCoincident exampleBox
          exampleAngle).dxab
        * (exampleAngleForce.angleLocals exampleMath exampleArraysCoincident exampleBox
          exampleAngle).dxcb
      + (exampleAngleForce.angleLocals exampleMath exampleArraysCoincident exampleBox
          exampleAngle).dyab
        * (exampleAngleForce.angleLocals exampleMath exampleArraysCoincident exampleBox
          exampleAngle).dycb
      + (exampleAngleForce.angleLocals exampleMath exampleArraysCoincident exampleBox
          exampleAngle).dzab
        * (exampleAngleForce.angleLocals exampleMath exampleArraysCoincident exampleBox
          exampleAngle).dzcb = 0 := by
    norm_num [CGCMMAngleForceCompute.angleLocals, exampleArraysCoincident, exampleBox,
      exampleAngle, pullBack]
  have hraw : rawCosineIEEE (exampleAngleForce.angleLocals exampleMath exampleArraysCoincident
      exampleBox exampleAngle) = IEEEValue.nan := by
    unfold rawCosineIEEE ieeeDiv
    rw [hdot, hrab, zero_mul, if_pos rfl, if_pos rfl]
  have hclamp : clampedCosineIEEE IEEEValue.nan = IEEEValue.nan := by
    simp [clampedCosineIEEE, IEEEValue.gt, IEEEValue.lt]
  have hinv : invertedSineIEEE exampleMath IEEEValue.nan = IEEEValue.nan := by
    simp [invertedSineIEEE, flooredSineIEEE]
  refine ⟨hrab, hrcb, hdot, hraw, ?_, ?_, ?_, ?_⟩
  · rw [hraw, hclamp]
  · rw [hraw, hclamp, hinv]
  · rw [hraw, hclamp]
    rintro ⟨c, hc, -⟩
    exact IEEEValue.noConfusion hc
  · rw [hraw, hclamp, hinv]
    rintro ⟨s, hs, -⟩
    exact IEEEValue.noConfusion hs

/-- C26, amended: in `computeForces` the cosine is clamped and the sine floored before
use, for every raw cosine that is not a NaN. When the divisor `rab·rcb` of the raw cosine
is not zero, the value passed to the arc cosine lies in `[-1, 1]`, the argument `1 - c²`
of the square root is not negative, and the sine is raised to at least `SMALL = 0.001`
before it is inverted, so that the inverted sine lies in `(0, 1000]` and the divisor is
not zero; these are the values that the floating-point comparisons and divisions produce
as well. The same bounds hold for every raw cosine that is a number or an infinity. -/
theorem cosine_clamped_sine_floored (libm : MathFunctions) (self : CGCMMAngleForceCompute)
    (arrays : ParticleDataArraysConst) (box : BoxDim) (angle : Angle)
    (hden : (self.angleLocals libm arrays box angle).rab
      * (self.angleLocals libm arrays box angle).rcb ≠ 0) :
    (self.angleLocals libm arrays box angle).dth
        = libm.acos (self.angleLocals libm arrays box angle).c_abbc - self.m_t_0 angle.type
    ∧ -1 ≤ (self.angleLocals libm arrays box angle).c_abbc
    ∧ (self.angleLocals libm arrays box angle).c_abbc ≤ 1
    ∧ 0 ≤ 1 - (self.angleLocals libm arrays box angle).c_abbc
          * (self.angleLocals libm arrays box angle).c_abbc
    ∧ SMALL = 1 / 1000
    ∧ (∃ divisor : Scalar,
        divisor = (if libm.sqrt (1 - (self.angleLocals libm arrays box angle).c_abbc
              * (self.angleLocals libm arrays box angle).c_abbc) < SMALL then SMALL
            else libm.sqrt (1 - (self.angleLocals libm arrays box angle).c_abbc
              * (self.angleLocals libm arrays box angle).c_abbc))
        ∧ SMALL ≤ divisor ∧ divisor ≠ 0
        ∧ (self.angleLocals libm arrays box angle).s_abbc = 1 / divisor)
    ∧ 0 < (self.angleLocals libm arrays box angle).s_abbc
    ∧ (self.angleLocals libm arrays box angle).s_abbc ≤ 1000
    ∧ rawCosineIEEE (self.angleLocals libm arrays box angle)
        = IEEEValue.finite
            (((self.angleLocals libm arrays box angle).dxab
                * (self.angleLocals libm arrays box angle).dxcb
              + (self.angleLocals libm arrays box angle).dyab
                * (self.angleLocals libm arrays box angle).dycb
              + (self.angleLocals libm arrays box angle).dzab
                * (self.angleLocals libm arrays box angle).dzcb)
            / ((self.angleLocals libm arrays box angle).rab
                * (self.angleLocals libm arrays box angle).rcb))
    ∧ clampedCosineIEEE (rawCosineIEEE (self.angleLocals libm arrays box angle))
        = IEEEValue.finite (self.angleLocals libm arrays box angle).c_abbc
    ∧ invertedSineIEEE libm
          (clampedCosineIEEE (rawCosineIEEE (self.angleLocals libm arrays box angle)))
        = IEEEValue.finite (self.angleLocals libm arrays box angle).s_abbc
    ∧ (∀ raw : IEEEValue, raw ≠ IEEEValue.nan →
        ∃ c s : Scalar, clampedCosineIEEE raw = IEEEValue.finite c
          ∧ -1 ≤ c ∧ c ≤ 1 ∧ 0 ≤ 1 - c * c
          ∧ invertedSineIEEE libm (clampedCosineIEEE raw) = IEEEValue.finite s
          ∧ 0 < s ∧ s ≤ 1000) := by
  have hsmall : SMALL = 1 / 1000 := by norm_num [SMALL]
  have hpos : (0 : Scalar) < SMALL := by norm_num [SMALL]
  have hs : (self.angleLocals libm arrays box angle).s_abbc
      = 1 / (if libm.sqrt (1 - (self.angleLocals libm arrays box angle).c_abbc
              * (self.angleLocals libm arrays box angle).c_abbc) < SMALL then SMALL
            else libm.sqrt (1 - (self.angleLocals libm arrays box angle).c_abbc
              * (self.angleLocals libm arrays box angle).c_abbc)) := rfl
  have hrange : -1 ≤ (self.angleLocals libm arrays box angle).c_abbc
      ∧ (self.angleLocals libm arrays box angle).c_abbc ≤ 1 :=
    clamp_range (((self.angleLocals libm arrays box angle).dxab
                * (self.angleLocals libm arrays box angle).dxcb
              + (self.angleLocals libm arrays box angle).dyab
                * (self.angleLocals libm arrays box angle).dycb
              + (self.angleLocals libm arrays box angle).dzab
                * (self.angleLocals libm arrays box angle).dzcb)
            / ((self.angleLocals libm arrays box angle).rab
                * (self.angleLocals libm arrays box angle).rcb))
  obtain ⟨hlo, hhi⟩ := hrange
  have hdiv := floor_ge_small (libm.sqrt (1 - (self.angleLocals libm arrays box angle).c_abbc
              * (self.angleLocals libm arrays box angle).c_abbc))
  have hraw : rawCosineIEEE (self.angleLocals libm arrays box angle)
      = IEEEValue.finite
          (((self.angleLocals libm arrays box angle).dxab
              * (self.angleLocals libm arrays box angle).dxcb
            + (self.angleLocals libm arrays box angle).dyab
              * (self.angleLocals libm arrays box angle).dycb
            + (self.angleLocals libm arrays box angle).dzab
              * (self.angleLocals libm arrays box angle).dzcb)
          / ((self.angleLocals libm arrays box angle).rab
              * (self.angleLocals libm arrays box angle).rcb)) := by
    unfold rawCosineIEEE ieeeDiv
    rw [if_neg hden]
  have hclamp : clampedCosineIEEE (rawCosineIEEE (self.angleLocals libm arrays box angle))
      = IEEEValue.finite (self.angleLocals libm arrays box angle).c_abbc := by
    rw [hraw, clampedCosineIEEE_finite]
    rfl
  refine ⟨rfl, hlo, hhi, by nlinarith, hsmall,
    ⟨_, rfl, hdiv, ne_of_gt (lt_of_lt_of_le hpos hdiv), hs⟩, ?_, ?_, hraw, hclamp, ?_, ?_⟩
  · rw [hs]
    exact (inverse_of_floored _ hdiv).1
  · rw [hs]
    exact (inverse_of_floored _ hdiv).2
  · rw [hclamp, invertedSineIEEE_finite, hs]
  · intro raw hnan
    obtain ⟨c, hc, hclo, hchi⟩ := clampedCosineIEEE_of_ne_nan raw hnan
    refine ⟨c, 1 / (if libm.sqrt (1 - c * c) < SMALL then SMALL else libm.sqrt (1 - c * c)),
      hc, hclo, hchi, by nlinarith, ?_, ?_, ?_⟩
    · rw [hc, invertedSineIEEE_finite]
    · exact (inverse_of_floored _ (floor_ge_small _)).1
    · exact (inverse_of_floored _ (floor_ge_small _)).2

/-- C26, amended, on the right angle of `exampleArrays`, where `rab·rcb = 12`: the raw
cosine is 0, the sine 1 and its inverse 1; and on an infinite raw cosine, which is
clamped to 1, where the sine is floored to `SMALL` and inverted to 1000. -/
theorem cosine_clamped_sine_floored_witness :
    (exampleAngleForce.angleLocals exampleMath exampleArrays exampleBox exampleAngle).rab
        * (exampleAngleForce.angleLocals exampleMath exampleArrays exampleBox exampleAngle).rcb
      ≠ 0
    ∧ (exampleAngleForce.angleLocals exampleMath exampleArrays exampleBox exampleAngle).c_abbc
        = 0
    ∧ (exampleAngleForce.angleLocals exampleMath exampleArrays exampleBox exampleAngle).s_abbc
        = 1
    ∧ -1 ≤ (exampleAngleForce.angleLocals exampleMath exampleArrays exampleBox
        exampleAngle).c_abbc
    ∧ (exampleAngleForce.angleLocals exampleMath exampleArrays exampleBox exampleAngle).c_abbc
        ≤ 1
    ∧ 0 < (exampleAngleForce.angleLocals exampleMath exampleArrays exampleBox
        exampleAngle).s_abbc
    ∧ (exampleAngleForce.angleLocals exampleMath exampleArrays exampleBox exampleAngle).s_abbc
        ≤ 1000
    ∧ clampedCosineIEEE (rawCosineIEEE (exampleAngleForce.angleLocals exampleMath exampleArrays
          exampleBox exampleAngle))
        = IEEEValue.finite (exampleAngleForce.angleLocals exampleMath exampleArrays exampleBox
            exampleAngle).c_abbc
    ∧ invertedSineIEEE exampleMath (clampedCosineIEEE (rawCosineIEEE
          (exampleAngleForce.angleLocals exampleMath exampleArrays exampleBox exampleAngle)))
        = IEEEValue.finite (exampleAngleForce.angleLocals exampleMath exampleArrays exampleBox
            exampleAngle).s_abbc
    ∧ IEEEValue.posInf ≠ IEEEValue.nan
    ∧ clampedCosineIEEE IEEEValue.posInf = IEEEValue.finite 1
    ∧ invertedSineIEEE exampleMath (clampedCosineIEEE IEEEValue.posInf)
        = IEEEValue.finite 1000
    ∧ (∃ c s : Scalar, clampedCosineIEEE IEEEValue.posInf = IEEEValue.finite c
          ∧ -1 ≤ c ∧ c ≤ 1 ∧ 0 ≤ 1 - c * c
          ∧ invertedSineIEEE exampleMath (clampedCosineIEEE IEEEValue.posInf)
              = IEEEValue.finite s
          ∧ 0 < s ∧ s ≤ 1000) := by
  have hden : (exampleAngleForce.angleLocals exampleMath exampleArrays exampleBox
        exampleAngle).rab
      * (exampleAngleForce.angleLocals exampleMath exampleArrays exampleBox exampleAngle).rcb
      ≠ 0 := by
    norm_num [CGCMMAngleForceCompute.angleLocals, exampleArrays, exampleBox, exampleMath,
      exampleAngle, pullBack]
  have h := cosine_clamped_sine_floored exampleMath exampleAngleForce exampleArrays exampleBox
    exampleAngle hden
  have hposInf : clampedCosineIEEE IEEEValue.posInf = IEEEValue.finite 1 := by
    have h2 : ¬ ((1 : Scalar) < -1) := by norm_num
    simp [clampedCosineIEEE, IEEEValue.gt, IEEEValue.lt, h2]
  refine ⟨hden, ?_, ?_, h.2.1, h.2.2.1, h.2.2.2.2.2.2.1, h.2.2.2.2.2.2.2.1,
    h.2.2.2.2.2.2.2.2.2.1, h.2.2.2.2.2.2.2.2.2.2.1, by decide, hposInf, ?_,
    h.2.2.2.2.2.2.2.2.2.2.2 IEEEValue.posInf (by decide)⟩
  · norm_num [CGCMMAngleForceCompute.angleLocals, exampleArrays, exampleBox, exampleMath,
      exampleAngle, pullBack]
  · norm_num [CGCMMAngleForceCompute.angleLocals, exampleArrays, exampleBox, exampleMath,
      exampleAngle, pullBack, SMALL]
  · rw [hposInf, invertedSineIEEE_finite]
    norm_num [exampleMath, SMALL]

/-- C27: the forces of each angle cancel: for every angle the three force vectors that
`computeForces` adds to `a`, `b` and `c`, `fab + fac·d_ac`, `-(fab + fcb)` and
`fcb - fac·d_ac`, sum to the zero vector, so that after `computeForces`, when every
particle index of the angle table is below `N`, the force summed over the particles
`0 … N-1` is zero in each component, for every configuration and every parameter set, in
exact arithmetic. -/
theorem angle_forces_cancel (libm : MathFunctions) (arrays : ParticleDataArraysConst)
    (box : BoxDim) (self : CGCMMAngleForceCompute) (timestep : Nat) (N : Nat)
    (hidx : ∀ angle ∈ self.m_CGCMMAngle_data.angles, arrays.rtag angle.a < N
      ∧ arrays.rtag angle.b < N ∧ arrays.rtag angle.c < N) :
    (∀ angle : Angle,
        ((self.angleLocals libm arrays box angle).fab0
            + (self.angleLocals libm arrays box angle).fac
              * (self.angleLocals libm arrays box angle).dxac)
          + -((self.angleLocals libm arrays box angle).fab0
            + (self.angleLocals libm arrays box angle).fcb0)
          + ((self.angleLocals libm arrays box angle).fcb0
            - (self.angleLocals libm arrays box angle).fac
              * (self.angleLocals libm arrays box angle).dxac) = 0
        ∧ ((self.angleLocals libm arrays box angle).fab1
            + (self.angleLocals libm arrays box angle).fac
              * (self.angleLocals libm arrays box angle).dyac)
          + -((self.angleLocals libm arrays box angle).fab1
            + (self.angleLocals libm arrays box angle).fcb1)
          + ((self.angleLocals libm arrays box angle).fcb1
            - (self.angleLocals libm arrays box angle).fac
              * (self.angleLocals libm arrays box angle).dyac) = 0
        ∧ ((self.angleLocals libm arrays box angle).fab2
            + (self.angleLocals libm arrays box angle).fac
              * (self.angleLocals libm arrays box angle).dzac)
          + -((self.angleLocals libm arrays box angle).fab2
            + (self.angleLocals libm arrays box angle).fcb2)
          + ((self.angleLocals libm arrays box angle).fcb2
            - (self.angleLocals libm arrays box angle).fac
              * (self.angleLocals libm arrays box angle).dzac) = 0)
    ∧ totalOver N (fun j => ((self.computeForces libm arrays box timestep).m_force j).x) = 0
    ∧ totalOver N (fun j => ((self.computeForces libm arrays box timestep).m_force j).y) = 0
    ∧ totalOver N (fun j => ((self.computeForces libm arrays box timestep).m_force j).z) = 0 := by
  have htot := totalOver_foldl N (fun angle => self.angleLocals libm arrays box angle)
    self.m_CGCMMAngle_data.angles hidx zeroedBuffers
  have hzero : ∀ comp : Scalar4 → Scalar, comp ⟨0, 0, 0, 0⟩ = 0 →
      totalOver N (fun j => comp (zeroedBuffers.m_force j)) = 0 := by
    intro comp h
    unfold totalOver zeroedBuffers
    simp [h]
  obtain ⟨hx, hy, hz⟩ := htot
  refine ⟨fun angle => ⟨by ring, by ring, by ring⟩, ?_, ?_, ?_⟩
  · exact hx.trans (hzero Scalar4.x rfl)
  · exact hy.trans (hzero Scalar4.y rfl)
  · exact hz.trans (hzero Scalar4.z rfl)

/-- C27 on `exampleAngleForceBent` with three particles: the `x` forces are 2/7 on
particle 0, -2/7 on particle 1 and 0 on particle 2, and they sum to zero. -/
theorem angle_forces_cancel_witness :
    (∀ angle ∈ exampleAngleForceBent.m_CGCMMAngle_data.angles, exampleArrays.rtag angle.a < 3
      ∧ exampleArrays.rtag angle.b < 3 ∧ exampleArrays.rtag angle.c < 3)
    ∧ totalOver 3 (fun j =>
        ((exampleAngleForceBent.computeForces exampleMath exampleArrays exampleBox 0).m_force
          j).x) = 0
    ∧ totalOver 3 (fun j =>
        ((exampleAngleForceBent.computeForces exampleMath exampleArrays exampleBox 0).m_force
          j).y) = 0
    ∧ forceTermX (exampleAngleForceBent.angleLocals exampleMath exampleArrays exampleBox
        exampleAngle) 1 = -(2 / 7) := by
  have hidx : ∀ angle ∈ exampleAngleForceBent.m_CGCMMAngle_data.angles,
      exampleArrays.rtag angle.a < 3 ∧ exampleArrays.rtag angle.b < 3
        ∧ exampleArrays.rtag angle.c < 3 := by
    intro angle hmem
    have h : angle = ⟨0, 0, 1, 2⟩ := List.mem_singleton.mp hmem
    rw [h]
    exact ⟨by decide, by decide, by decide⟩
  have h := angle_forces_cancel exampleMath exampleArrays exampleBox exampleAngleForceBent 0 3
    hidx
  refine ⟨hidx, h.2.1, h.2.2.1, ?_⟩
  norm_num [forceTermX, CGCMMAngleForceCompute.angleLocals, exampleAngleForceBent,
    exampleAngleForce, exampleAngleForceNew, exampleArrays, exampleBox, exampleMath,
    exampleAngle, pullBack, SMALL]

/-- C28, evaluated where the code departs from it: the box `examplePositiveBox` from 0
to 10 passes the assertion of line 238, and the particles 0, 1, 2 of
`exampleArraysDiagonal`, at (1,1,1), (2,2,2) and (3,3,3), lie inside it; the wrapped
displacement `a - b` has the `x` component -1, which is below `box.xlo = 0`, and the
assertion of line 340 is false. -/
theorem sanity_assertion_fails_off_centre :
    boxAssertion examplePositiveBox = true
    ∧ insideBox examplePositiveBox exampleArraysDiagonal (exampleArraysDiagonal.rtag 0) = true
    ∧ insideBox examplePositiveBox exampleArraysDiagonal (exampleArraysDiagonal.rtag 1) = true
    ∧ insideBox examplePositiveBox exampleArraysDiagonal (exampleArraysDiagonal.rtag 2) = true
    ∧ (exampleAngleForce.angleLocals exampleMath exampleArraysDiagonal examplePositiveBox
        exampleAngle).dxab = -1
    ∧ examplePositiveBox.xlo = 0
    ∧ sanityAssertions examplePositiveBox
        (exampleAngleForce.angleLocals exampleMath exampleArraysDiagonal examplePositiveBox
          exampleAngle) = false := by
  have hd : (exampleAngleForce.angleLocals exampleMath exampleArraysDiagonal
      examplePositiveBox exampleAngle).dxab = -1 := by
    norm_num [CGCMMAngleForceCompute.angleLocals, exampleArraysDiagonal, examplePositiveBox,
      exampleAngle, pullBack]
  refine ⟨?_, ?_, ?_, ?_, hd, rfl, ?_⟩
  · norm_num [boxAssertion, examplePositiveBox]
  · norm_num [insideBox, examplePositiveBox, exampleArraysDiagonal]
  · norm_num [insideBox, examplePositiveBox, exampleArraysDiagonal]
  · norm_num [insideBox, examplePositiveBox, exampleArraysDiagonal]
  · simp only [sanityAssertions, decide_eq_false_iff_not]
    intro h
    have h1 := h.1.1.1
    rw [hd] at h1
    norm_num [examplePositiveBox] at h1

/-- C29: `formatHMS` splits a duration exactly: for every `t ≥ 0` nanoseconds that a
64-bit integer holds, the computed hours, minutes and seconds satisfy `0 ≤ minutes ≤ 59`,
`0 ≤ seconds ≤ 59` and `hours·3600 + minutes·60 + seconds = ⌊t / 10⁹⌋`, and no
intermediate value overflows its type. -/
theorem formatHMS_split_exact (t : Int) (h0 : 0 ≤ t) (h63 : t ≤ 9223372036854775807) :
    0 ≤ (ClockSource.splitHMS t).minutes ∧ (ClockSource.splitHMS t).minutes ≤ 59
    ∧ 0 ≤ (ClockSource.splitHMS t).seconds ∧ (ClockSource.splitHMS t).seconds ≤ 59
    ∧ 0 ≤ (ClockSource.splitHMS t).hours
    ∧ (ClockSource.splitHMS t).hours * 3600 + (ClockSource.splitHMS t).minutes * 60
        + (ClockSource.splitHMS t).seconds = t / 1000000000
    ∧ ClockSource.noOverflow t = true := by
  obtain ⟨hh, hm, hs, hno⟩ := splitHMS_of_nonneg t h0 h63
  rw [hh, hm, hs]
  refine ⟨?_, ?_, ?_, ?_, ?_, ?_, hno⟩ <;> omega

/-- C29 on one hour, one minute and one second, and on the largest 64-bit duration. -/
theorem formatHMS_split_exact_witness :
    (0 : Int) ≤ 3661000000000 ∧ (3661000000000 : Int) ≤ 9223372036854775807
    ∧ ClockSource.splitHMS 3661000000000 = ⟨1, 1, 1⟩
    ∧ (ClockSource.splitHMS 3661000000000).hours * 3600
        + (ClockSource.splitHMS 3661000000000).minutes * 60
        + (ClockSource.splitHMS 3661000000000).seconds = 3661000000000 / 1000000000
    ∧ ClockSource.splitHMS 9223372036854775807 = ⟨2562047, 47, 16⟩
    ∧ ClockSource.noOverflow 9223372036854775807 = true :=
  ⟨by decide, by decide, by decide,
   (formatHMS_split_exact 3661000000000 (by decide) (by decide)).2.2.2.2.2.1, by decide,
   (formatHMS_split_exact 9223372036854775807 (by decide) (by decide)).2.2.2.2.2.2⟩

/-- C30: the text that `formatHMS` returns: for every `t` with `0 ≤ t < 100` hours (in
nanoseconds) it is the eight characters `HH:MM:SS`, each field the tens digit and the
units digit of its value, with `:` at the positions 2 and 5; for `t ≥ 100` hours the
hours are written in full, with three digits or more, and the text is longer than eight
characters. -/
theorem formatHMS_format (t : Int) (h0 : 0 ≤ t) (h63 : t ≤ 9223372036854775807) :
    (t < 360000000000000 →
      ClockSource.formatHMS t
          = String.mk [ Nat.digitChar ((t / 3600000000000).toNat / 10),
              Nat.digitChar ((t / 3600000000000).toNat % 10), ':',
              Nat.digitChar ((t / 60000000000 % 60).toNat / 10),
              Nat.digitChar ((t / 60000000000 % 60).toNat % 10), ':',
              Nat.digitChar ((t / 1000000000 % 60).toNat / 10),
              Nat.digitChar ((t / 1000000000 % 60).toNat % 10) ]
      ∧ (ClockSource.formatHMS t).length = 8)
    ∧ (360000000000000 ≤ t →
      ClockSource.formatHMS t
          = Nat.repr (t / 3600000000000).toNat ++ ":"
            ++ String.mk [ Nat.digitChar ((t / 60000000000 % 60).toNat / 10),
                Nat.digitChar ((t / 60000000000 % 60).toNat % 10) ] ++ ":"
            ++ String.mk [ Nat.digitChar ((t / 1000000000 % 60).toNat / 10),
                Nat.digitChar ((t / 1000000000 % 60).toNat % 10) ]
      ∧ 3 ≤ (Nat.repr (t / 3600000000000).toNat).length
      ∧ 8 < (ClockSource.formatHMS t).length) := by
  obtain ⟨hh, hm, hs, _⟩ := splitHMS_of_nonneg t h0 h63
  have hshow : ∀ v : Int, 0 ≤ v → showInt v = Nat.repr v.toNat := by
    intro v hv
    unfold showInt
    rw [if_neg (not_lt.mpr hv)]
  have hmin : setw2fill0 (showInt (t / 60000000000 % 60))
      = String.mk [ Nat.digitChar ((t / 60000000000 % 60).toNat / 10),
          Nat.digitChar ((t / 60000000000 % 60).toNat % 10) ] := by
    rw [hshow _ (by omega)]
    exact setw2fill0_repr_of_lt_hundred _ (by omega)
  have hsec : setw2fill0 (showInt (t / 1000000000 % 60))
      = String.mk [ Nat.digitChar ((t / 1000000000 % 60).toNat / 10),
          Nat.digitChar ((t / 1000000000 % 60).toNat % 10) ] := by
    rw [hshow _ (by omega)]
    exact setw2fill0_repr_of_lt_hundred _ (by omega)
  unfold ClockSource.formatHMS
  rw [hh, hm, hs, hmin, hsec, hshow _ (by omega)]
  constructor
  · intro hlt
    rw [setw2fill0_repr_of_lt_hundred _ (by omega)]
    exact ⟨rfl, rfl⟩
  · intro hge
    have hlen := repr_length_of_ge_hundred (t / 3600000000000).toNat (by omega)
    rw [setw2fill0_of_length_ge _ (by omega)]
    refine ⟨rfl, hlen, ?_⟩
    simp only [String.length_append, String.length_mk, List.length_cons, List.length_nil]
    have hcolon : (":" : String).length = 1 := rfl
    omega

/-- C30 on one hour, one minute and one second, written `01:01:01`, and on one hundred
hours, written `100:00:00`. -/
theorem formatHMS_format_witness :
    (0 : Int) ≤ 3661000000000 ∧ (3661000000000 : Int) ≤ 9223372036854775807
    ∧ (3661000000000 : Int) < 360000000000000
    ∧ ClockSource.formatHMS 3661000000000 = "01:01:01"
    ∧ (ClockSource.formatHMS 3661000000000).length = 8
    ∧ ClockSource.formatHMS 360000000000000 = "100:00:00"
    ∧ 8 < (ClockSource.formatHMS 360000000000000).length :=
  ⟨by decide, by decide, by decide, by decide,
   ((formatHMS_format 3661000000000 (by decide) (by decide)).1 (by decide)).2, by decide,
   ((formatHMS_format 360000000000000 (by decide) (by decide)).2 (by decide)).2.2⟩

end Hoomd
